import Mathlib

/-!
Order and payment reconciliation of the storefront backend.

A shallow embedding of `backened/controllers/paymentController.js`
(`withRetry`, `validateCartItems`, `createOrder`, `verifyPayment`),
`backened/controllers/orderController.js` (`confirmOrder`),
`backened/controllers/offerCode.controller.js` (`applyOfferCode`),
`backened/controllers/cartController.js` (`syncCart`, `addToCart`, `updateCartItem`,
`removeCartItem`, `validateCart`), `backened/utils/asyncHandler.js` with
`backened/utils/errorHandler.js` (`asyncHandler`, `errorMiddleware`) and
`frontened/src/app/stores/cartStore.js` (`useCartStore`).

Conventions of the embedding:

* a JavaScript number is an exact rational (`ℚ`), an integer-valued one (`z.number().int()`,
  stock counts) is an `ℤ`. The code computes on IEEE-754 doubles, which the embedding does
  not model: sums, products, `toFixed(2)` and `Math.round` are taken exactly, so a statement
  here is about the code only where double arithmetic gives the same figure (it does on
  every concrete evaluation below), and no theorem is stated about the last digit a
  rounding produces;
* a database table is a list of rows, the first row with a given primary key being the row
  of that key; `stockBySize` is a plain object, its own properties kept as a key-value list
  and a read by name seeing also what `Object.prototype` holds;
* an error thrown by an outside call is what the handlers read of it (`OpError`);
* `toUpperCase` is `String.toUpper`;
* everything outside the process (HMAC with the server secret, the zod e-mail test,
  `sanitize-html`, the clock, Razorpay, Shiprocket, the id the database gives a new order)
  is a field of `Env`;
* a handler returns the responses it writes, the database state it leaves and the calls it
  made to the outside (`Effect`).
-/

namespace Ecommerce

/-! ## Numbers -/

/-- The value `Number(x.toFixed(2))` for an exact `x`: two decimals, ties to the larger
magnitude, the sign handled apart as `Number.prototype.toFixed` does. In the code `x` is a
double computed from doubles, and the two can differ in the second decimal (for
`0.5 * (1 - 1 / 100)` the code gives 0.49, the exact value 0.495 gives 0.50). -/
def toFixed2 (x : ℚ) : ℚ :=
  if x < 0 then -((⌊(-x) * 100 + 1 / 2⌋ : ℤ) : ℚ) / 100
  else ((⌊x * 100 + 1 / 2⌋ : ℤ) : ℚ) / 100

/-- The value `Math.round(x)` for an exact `x`: the nearest integer, ties upwards. In the
code `x` is a double product, and the two can differ by one (for `1.005 * 100` the code
gives 100, the exact value 100.5 gives 101). -/
def mathRound (x : ℚ) : ℤ := ⌊x + 1 / 2⌋

/-! ## Strings -/

/-- JavaScript truthiness of an optional string (`undefined`, `null` and `''` are falsy). -/
def truthy (s : Option String) : Bool :=
  match s with
  | some v => v != ""
  | none => false

/-- The object key `item.size || 'default'`. -/
def sizeKey (size : Option String) : String :=
  match size with
  | some v => if v != "" then v else "default"
  | none => "default"

/-- Model of `msg.includes(needle)`. -/
def includes (msg needle : String) : Bool := decide (needle.data <:+: msg.data)

/-- The regular expressions `/^\d{10}$/` and `/^\d{6}$/`: exactly `n` decimal digits. -/
def isDigits (n : Nat) (s : String) : Bool := s.length == n && s.data.all Char.isDigit

/-! ## Data model -/

/-- A value of the JSON object `stockBySize`: a number or JSON `null`. -/
abbrev StockVal := Option ℤ

structure Product where
  id : String
  name : String
  price : ℚ
  sizes : Option (List String)
  stockBySize : Option (List (String × StockVal))
  version : Nat
  quantity : ℤ
  orderCount : ℤ
deriving DecidableEq

structure CartItem where
  productId : String
  size : Option String
  quantity : ℤ
  price : ℚ
deriving DecidableEq

structure Cart where
  id : String
  userId : String
  items : List CartItem
deriving DecidableEq

structure OfferCode where
  id : String
  code : String
  discount : ℚ
  expiryDate : Option ℤ
  isFirstOrder : Bool
deriving DecidableEq

structure UserOfferCode where
  userId : String
  offerCodeId : String
deriving DecidableEq

structure ShippingDetails where
  name : String
  email : String
  phone : String
  address : String
  pincode : String
  city : String
  state : Option String
deriving DecidableEq

/-- An element of the request's `items` array, also the row of `orderItems`. -/
structure Item where
  productId : String
  quantity : ℤ
  price : ℚ
  size : Option String
deriving DecidableEq

structure Order where
  id : String
  userId : String
  totalAmount : ℚ
  status : String
  paymentId : Option String
  offerCode : Option String
  discount : ℚ
  shippingDetails : Option ShippingDetails
  orderItems : List Item
  shiprocketOrderId : Option String
  trackingUrl : Option String
deriving DecidableEq

/-- The database. -/
structure State where
  products : List Product
  carts : List Cart
  offerCodes : List OfferCode
  userOfferCodes : List UserOfferCode
  orders : List Order
deriving DecidableEq

/-! ## The outside world -/

/-- What `withRetry` and the `catch` blocks read of an error an operation throws. -/
structure OpError where
  /-- Result of `axios.isAxiosError(error)` -/
  isAxiosError : Bool
  /-- The HTTP status the error reports, if any: `error.response?.status` for an axios
  error, `error.statusCode` for the object the Razorpay SDK rejects with -/
  httpStatus : Option Nat
  /-- The text `error.message` -/
  message : String
deriving DecidableEq

/-- Outcome of one invocation of an operation given to `withRetry`: the value it resolves
to, or the error it throws. -/
inductive Attempt (α : Type) where
  | ok (v : α)
  | threw (e : OpError)
deriving DecidableEq

/-- What `createShiprocketOrder` resolves to. -/
structure ShiprocketResponse where
  order_id : Option String
  tracking_url : Option String
deriving DecidableEq

/-- The payload `confirmOrder` sends to Shiprocket (the fields that vary). -/
structure ShiprocketData where
  order_id : String
  billing_customer_name : String
  billing_address : String
  billing_city : String
  billing_pincode : String
  billing_state : String
  billing_phone : String
  order_items : List (String × String × ℤ × ℚ)
  sub_total : ℚ
deriving DecidableEq

structure Env where
  /-- The digest `crypto.createHmac('sha256', RAZORPAY_KEY_SECRET).update(m).digest('hex')` -/
  hmacSha256Hex : String → String
  /-- the test behind `z.string().email()` -/
  isEmail : String → Bool
  sanitizeHtml : String → String
  /-- The value of `new Date()` -/
  now : ℤ
  /-- attempt `k` (from 1) of `razorpay.orders.create` -/
  razorpayOrdersCreate : Nat → Attempt String
  /-- attempt `k` (from 1) of `razorpay.payments.fetch(paymentId)`: the payment's status -/
  razorpayPaymentsFetch : String → Nat → Attempt String
  /-- Result of `createShiprocketOrder`: the response, or the message of the error it throws -/
  createShiprocketOrder : ShiprocketData → Except String ShiprocketResponse
  /-- the id the database gives to the next order row -/
  newOrderId : String
  /-- the id the database gives to the next cart row -/
  newCartId : String
  /-- Whether the database holds a unique index on the cart items over
  (cartId, productId, size); the Prisma schema is not among the sources -/
  cartItemUnique : Bool

/-- Calls a handler makes to the outside, in order. -/
inductive Effect where
  | razorpayOrdersCreate (amount : ℤ) (currency : String)
  | razorpayPaymentsFetch (paymentId : String)
  | createShiprocketOrder (data : ShiprocketData)
  | confirmOrder (dbOrderId paymentId : String)
deriving DecidableEq

/-! ## Signature check of `verifyPayment` -/

/-- The HMAC input, the template string with the two ids around a bar. -/
def signatureMessage (orderId paymentId : String) : String :=
  orderId ++ "|" ++ paymentId

/-- The constant `generatedSignature` of `verifyPayment`. -/
def generatedSignature (hmac : String → String) (orderId paymentId : String) : String :=
  hmac (signatureMessage orderId paymentId)

/-- The request passes the check `generatedSignature !== signature`. -/
def signatureAccepted (hmac : String → String) (orderId paymentId signature : String) : Bool :=
  !(generatedSignature hmac orderId paymentId != signature)

/-! ## Responses -/

/-- An element of `itemDetails`, sent back in the `details` of an amount mismatch. -/
structure ItemDetail where
  productId : String
  name : String
  price : ℚ
  quantity : ℤ
  size : String
deriving DecidableEq

/-- An element of `validatedItems` of `validateCart` (its `image` left out, product rows of
the model carrying no images). -/
structure ValidatedItem where
  productId : String
  quantity : ℤ
  price : ℚ
  size : Option String
  name : String
deriving DecidableEq

/-- A JSON response: which `res.status(..).json(..)` call wrote it, with the data its body
interpolates. -/
inductive Response where
  /-- Status 500, `error` being the string sent -/
  | serverError (error : String)
  /-- Status 500 of `confirmOrder` for a `ZodError`, whose message lists the issues -/
  | zodIssues (issues : List String)
  /-- Status 401 'User not authenticated' -/
  | notAuthenticated
  /-- Status 400 'Cart items do not match server cart' -/
  | cartMismatch
  /-- Status 404 'Product <id> not found' -/
  | productNotFound (productId : String)
  /-- Status 400 'Price mismatch for product <name>: expected <stored price>, got <item price>' -/
  | priceMismatch (name : String) (expected got : ℚ)
  /-- Status 400 'Size is required for <name>' -/
  | sizeRequired (name : String)
  /-- Status 400 'Insufficient stock for <name> in size <size>' -/
  | insufficientStock (name size : String)
  /-- Status 400 'Invalid offer code' -/
  | invalidOfferCode
  /-- Status 400 'Offer code has expired' -/
  | offerExpired
  /-- Status 400 'This offer code has already been used' -/
  | offerAlreadyUsed
  /-- Status 400 'Offer code is only for first orders' -/
  | firstOrderOnly
  /-- Status 400 'Discount mismatch: expected <e>%, got <g>%' -/
  | discountMismatch (expected got : ℚ)
  /-- Status 400 'Discount provided without an offer code' -/
  | discountWithoutOffer
  /-- Status 400 'Total amount mismatch: expected <e>, got <g>' with its `details` -/
  | amountMismatch (calculatedTotal appliedDiscount expectedAmount receivedAmount : ℚ)
      (items : List ItemDetail) (offerCode : Option String)
  /-- Status 200 of `createOrder` -/
  | orderCreated (orderId dbOrderId : String) (amount : ℚ) (currency : String)
  /-- Status 400 'Invalid payment signature' -/
  | invalidSignature
  /-- Status 400 'Payment not captured' -/
  | paymentNotCaptured
  /-- Status 404 'Order not found' -/
  | orderNotFound
  /-- Status 403 'Not authorized to verify this order' -/
  | notAuthorizedVerify
  /-- Status 400 'Order already processed' -/
  | orderAlreadyProcessed
  /-- Status 200 'Payment verified and order confirmed' -/
  | paymentVerified
  /-- Status 403 'Not authorized to confirm this order' -/
  | notAuthorizedConfirm
  /-- Status 400 'Shipping details are required' -/
  | shippingRequired
  /-- Status 400 'Invalid shipping details format' -/
  | invalidShipping
  /-- Status 404 'Product not found' of `confirmOrder` -/
  | productMissing
  /-- Status 400 'No products found in the order' -/
  | noProducts
  /-- Status 200 of `confirmOrder` -/
  | orderConfirmed (orderId : String) (shiprocketOrderId : Option String)
  /-- Status 400 'Cart items are required' -/
  | cartItemsRequired
  /-- Status 400 'Cart total mismatch: expected <e>, got <g>' -/
  | cartTotalMismatch (expected got : ℚ)
  /-- Status 400 'This code was already used' -/
  | codeAlreadyUsed
  /-- Status 400 'Invalid discount value' -/
  | invalidDiscount
  /-- Status 400 'Size selection required for <name>' -/
  | sizeSelectionRequired (name : String)
  /-- Status 200 of `applyOfferCode` -/
  | offerApplied (code : String) (discount discountedTotal : ℚ)
  /-- Status 200 of `validateCart` -/
  | cartValid (total : ℚ) (items : List ValidatedItem) (discount : ℚ)
  /-- Status 200 of `syncCart` -/
  | cartSynced (cartItems : List ValidatedItem) (total : ℚ)
  /-- Status 400 'Size is required' -/
  | sizeMissing
  /-- Status 400 'Insufficient stock for size <size>' -/
  | insufficientStockSize (size : String)
  /-- Status 200 'Item added to cart' -/
  | itemAdded
  /-- Status 404 'Cart not found' -/
  | cartNotFound
  /-- Status 404 'Item not found in cart' -/
  | cartItemNotFound
  /-- Status 200 'Cart item updated' -/
  | cartItemUpdated
  /-- Status 200 'Item removed from cart' -/
  | cartItemRemoved
deriving DecidableEq

/-- The HTTP status of a response. -/
def Response.status : Response → Nat
  | .serverError _ => 500
  | .zodIssues _ => 500
  | .notAuthenticated => 401
  | .productNotFound _ => 404
  | .orderNotFound => 404
  | .productMissing => 404
  | .notAuthorizedVerify => 403
  | .notAuthorizedConfirm => 403
  | .orderCreated _ _ _ _ => 200
  | .paymentVerified => 200
  | .orderConfirmed _ _ => 200
  | .offerApplied _ _ _ => 200
  | .cartValid _ _ _ => 200
  | .cartSynced _ _ => 200
  | .itemAdded => 200
  | .cartItemUpdated => 200
  | .cartItemRemoved => 200
  | .cartNotFound => 404
  | .cartItemNotFound => 404
  | _ => 400

/-- The `success` field of a response body. -/
def Response.success : Response → Bool
  | .orderCreated _ _ _ _ => true
  | .paymentVerified => true
  | .orderConfirmed _ _ => true
  | .offerApplied _ _ _ => true
  | .cartValid _ _ _ => true
  | .cartSynced _ _ => true
  | .itemAdded => true
  | .cartItemUpdated => true
  | .cartItemRemoved => true
  | _ => false

/-- What a handler did: the `res.json` calls it made in order (the client receives the first,
a later one finds the headers already sent), the database it leaves, its outside calls. -/
structure Result where
  writes : List Response
  state : State
  effects : List Effect
deriving DecidableEq

/-- The response the client receives. -/
def Result.response (r : Result) : Option Response := r.writes.head?

/-! ## `withRetry` -/

/-- What a run of `withRetry` produced: the value or the message of the error thrown, the
number of invocations of the operation, the delays slept (ms). -/
structure Retried (α : Type) where
  result : Except String α
  calls : Nat
  delays : List Nat

/-- The `for` loop of `withRetry` from attempt `attempt`, `remaining` being the number of
iterations left (`maxRetries - attempt + 1`). -/
def withRetryFrom {α : Type} (op : Nat → Attempt α) (maxRetries : Nat) :
    Nat → Nat → Retried α
  | 0, _ => ⟨.error "Max retries reached", 0, []⟩
  | remaining + 1, attempt =>
    match op attempt with
    | .ok v => ⟨.ok v, 1, []⟩
    | .threw e =>
      if e.isAxiosError && e.httpStatus == some 429 && decide (attempt < maxRetries) then
        let r := withRetryFrom op maxRetries remaining (attempt + 1)
        ⟨r.result, r.calls + 1, (2 ^ attempt * 1000) :: r.delays⟩
      else ⟨.error e.message, 1, []⟩

/-- Model of `withRetry(operation, maxRetries)`. -/
def withRetry {α : Type} (op : Nat → Attempt α) (maxRetries : Nat) : Retried α :=
  withRetryFrom op maxRetries maxRetries 1

/-- The default `maxRetries = 3`. -/
def defaultMaxRetries : Nat := 3

/-! ## Table access -/

/-- Model of `prisma.product.findUnique({ where: { id } })`. -/
def findProduct (products : List Product) (id : String) : Option Product :=
  products.find? (fun p => p.id == id)

/-- Model of `prisma.product.update({ where, data })`: the first row matching `where` is
rewritten by `data`; no row matching makes Prisma throw (`none`). -/
def updateProduct (products : List Product) (matches_ : Product → Bool)
    (data : Product → Product) : Option (List Product) :=
  match products with
  | [] => none
  | p :: rest =>
    if matches_ p then some (data p :: rest)
    else (updateProduct rest matches_ data).map (fun rest' => p :: rest')

/-- The map built from `prisma.product.findMany({ where: { id: { in: productIds } } })`,
read at `id`: the row of that id when the id is among `productIds`. -/
def productMapGet (products : List Product) (productIds : List String) (id : String) :
    Option Product :=
  if id ∈ productIds then findProduct products id else none

/-- Model of `prisma.order.findUnique({ where: { id } })`. -/
def findOrder (orders : List Order) (id : String) : Option Order :=
  orders.find? (fun o => o.id == id)

/-- Model of `prisma.offerCode.findUnique({ where: { code } })`. -/
def findOfferCode (offerCodes : List OfferCode) (code : String) : Option OfferCode :=
  offerCodes.find? (fun o => o.code == code)

/-- The own property of `product.stockBySize || {}` under `size`; `none` when the object
has no such property. -/
def stockEntry (stockBySize : Option (List (String × StockVal))) (size : String) :
    Option StockVal :=
  match stockBySize with
  | none => none
  | some m => m.lookup size

/-- The property names a plain object inherits from `Object.prototype` in Node: the methods
of the prototype and the accessor `__proto__`. -/
def objectPrototypeKeys : List String :=
  ["constructor", "__defineGetter__", "__defineSetter__", "hasOwnProperty",
   "__lookupGetter__", "__lookupSetter__", "isPrototypeOf", "propertyIsEnumerable",
   "toString", "valueOf", "__proto__", "toLocaleString"]

/-- The value of a property read `stockBySize[size]`: `undefined`, a stored `null`, a stored
number, or a function or object found on `Object.prototype`. -/
inductive StockRead where
  | undefined
  | null
  | number (n : ℤ)
  | inherited
deriving DecidableEq

/-- The property read `(product.stockBySize || {})[size]` on a plain object: the own
property when there is one, otherwise what the object inherits under that name. -/
def stockLookup (stockBySize : Option (List (String × StockVal))) (size : String) :
    StockRead :=
  match stockEntry stockBySize size with
  | some none => .null
  | some (some n) => .number n
  | none => if size ∈ objectPrototypeKeys then .inherited else .undefined

/-- The test `!stockBySize[size]`: `undefined`, `null` and `0` are falsy, a function or
object is truthy. -/
def stockFalsy : StockRead → Bool
  | .undefined => true
  | .null => true
  | .number n => n == 0
  | .inherited => false

/-- The test `stockBySize[size] < quantity`: `undefined` and a function or object convert
to `NaN` and compare false, `null` compares as 0. -/
def stockLess (v : StockRead) (quantity : ℤ) : Bool :=
  match v with
  | .undefined => false
  | .null => decide (0 < quantity)
  | .number n => decide (n < quantity)
  | .inherited => false

/-- The value `stockBySize[size] - quantity` as it is stored: `undefined - q` and
`Object - q` are `NaN`, which JSON stores as `null`; `null - q` is `-q`. -/
def stockSub (v : StockRead) (quantity : ℤ) : StockVal :=
  match v with
  | .undefined => none
  | .null => some (-quantity)
  | .number n => some (n - quantity)
  | .inherited => none

/-- The assignment `stockBySize[size] = v` on a plain object: an existing key keeps its
place, a new key goes last. -/
def stockSet (m : List (String × StockVal)) (size : String) (v : StockVal) :
    List (String × StockVal) :=
  match m with
  | [] => [(size, v)]
  | (k, w) :: rest => if k == size then (k, v) :: rest else (k, w) :: stockSet rest size v

/-- The assignment `stockBySize[size] -= quantity` storing `v`: an own property is
overwritten and a new one is created, except under `__proto__`, where an object without
that own property runs the setter of `Object.prototype`, which ignores a number. -/
def stockAssign (m : List (String × StockVal)) (size : String) (v : StockVal) :
    List (String × StockVal) :=
  if size == "__proto__" && (m.lookup size).isNone then m else stockSet m size v

/-- The test `product.sizes?.length`. -/
def hasSizes (p : Product) : Bool :=
  match p.sizes with
  | some l => l.length != 0
  | none => false

/-! ## `validateCartItems` -/

/-- The key of `cartItemsMap`, the product id and the size key around a hyphen. -/
def cartKey (productId : String) (size : Option String) : String :=
  productId ++ "-" ++ sizeKey size

/-- Model of `cartItemsMap.get(key)`; of two cart items with one key the later is kept. -/
def cartItemsMapGet (items : List CartItem) (key : String) : Option CartItem :=
  items.reverse.find? (fun ci => cartKey ci.productId ci.size == key)

/-- Model of `validateCartItems(userId, items)`. -/
def validateCartItems (s : State) (userId : String) (items : List Item) : Bool :=
  match s.carts.find? (fun c => c.userId == userId) with
  | none => false
  | some cart =>
    items.all (fun item =>
      match cartItemsMapGet cart.items (cartKey item.productId item.size) with
      | none => false
      | some ci => !(decide (ci.quantity < item.quantity) || decide (|ci.price - item.price| > 1 / 100)))

/-! ## `createOrder` -/

/-- A request body of `createOrder`, typed as `createOrderSchema` types it. -/
structure CreateOrderBody where
  amount : ℚ
  currency : String
  items : List Item
  discount : Option ℚ
  offerCode : Option String
  shippingDetails : ShippingDetails

/-- Issues `createOrderSchema` raises for one element of `items`. -/
def itemIssues (item : Item) : List String :=
  (if item.productId.length < 1 then ["Product ID is required"] else []) ++
  (if item.quantity < 1 then ["Quantity must be at least 1"] else []) ++
  (if item.price ≤ 0 then ["Price must be positive"] else [])

/-- Issues `createOrderSchema` raises for `shippingDetails`. -/
def shippingIssues (env : Env) (d : ShippingDetails) : List String :=
  (if d.name.length < 1 then ["Name is required"] else []) ++
  (if env.isEmail d.email then [] else ["Invalid email"]) ++
  (if isDigits 10 d.phone then [] else ["Phone must be 10 digits"]) ++
  (if d.address.length < 1 then ["Address is required"] else []) ++
  (if isDigits 6 d.pincode then [] else ["Pincode must be 6 digits"]) ++
  (if d.city.length < 1 then ["City is required"] else [])

/-- Issues of `createOrderSchema.parse(req.body)`; none means the body parses. -/
def createOrderIssues (env : Env) (b : CreateOrderBody) : List String :=
  (if b.amount ≤ 0 then ["Amount must be positive"] else []) ++
  (if b.currency != "INR" then ["Currency must be INR"] else []) ++
  (b.items.map itemIssues).flatten ++
  (if b.items.length < 1 then ["At least one item is required"] else []) ++
  (if (b.discount.getD 0) < 0 then ["Discount cannot be negative"] else []) ++
  shippingIssues env b.shippingDetails

/-- Model of `sanitizeShippingDetails`. -/
def sanitizeShippingDetails (env : Env) (d : ShippingDetails) : ShippingDetails :=
  { name := env.sanitizeHtml d.name
    email := env.sanitizeHtml d.email
    phone := env.sanitizeHtml d.phone
    address := env.sanitizeHtml d.address
    pincode := env.sanitizeHtml d.pincode
    city := env.sanitizeHtml d.city
    state := if truthy d.state then d.state.map env.sanitizeHtml else none }

/-- The per-item loop of `createOrder` from the running `calculatedTotal` and `itemDetails`:
the first failing check of the first failing item answers, otherwise the sum and the details. -/
def createOrderItems (productMap : String → Option Product) :
    List Item → ℚ → List ItemDetail →
    Except Response (ℚ × List ItemDetail)
  | [], calculatedTotal, itemDetails => .ok (calculatedTotal, itemDetails)
  | item :: rest, calculatedTotal, itemDetails =>
    match productMap item.productId with
    | none => .error (.productNotFound item.productId)
    | some product =>
      if |item.price - product.price| > 1 / 100 then
        .error (.priceMismatch product.name product.price item.price)
      else if hasSizes product && !truthy item.size then
        .error (.sizeRequired product.name)
      else if stockFalsy (stockLookup product.stockBySize (sizeKey item.size))
          || stockLess (stockLookup product.stockBySize (sizeKey item.size)) item.quantity then
        .error (.insufficientStock product.name (sizeKey item.size))
      else
        createOrderItems productMap rest (calculatedTotal + item.price * item.quantity)
          (itemDetails ++ [⟨product.id, product.name, item.price, item.quantity, sizeKey item.size⟩])

/-- The offer-code section of `createOrder`: a rejection, or `appliedDiscount`. -/
def createOrderOffer (env : Env) (s : State) (userId : String) (offerCode : Option String)
    (discount : ℚ) : Except Response ℚ :=
  if truthy offerCode then
    match findOfferCode s.offerCodes (offerCode.getD "").toUpper with
    | none => .error .invalidOfferCode
    | some offer =>
      if (match offer.expiryDate with
          | some d => decide (d < env.now)
          | none => false) then .error .offerExpired
      else if s.userOfferCodes.any (fun r => r.userId == userId && r.offerCodeId == offer.id) then
        .error .offerAlreadyUsed
      else if offer.isFirstOrder && decide ((s.orders.filter (fun o => o.userId == userId)).length > 0) then
        .error .firstOrderOnly
      else if discount != offer.discount then
        .error (.discountMismatch offer.discount discount)
      else .ok offer.discount
  else if discount != 0 then .error .discountWithoutOffer
  else .ok 0

/-- One iteration of the stock loop inside the transaction of `createOrder`: the product
table after the write, or the message of the error thrown. -/
def txStockStep (products : List Product) (item : Item) : Except String (List Product) :=
  match findProduct products item.productId with
  | none => .error ("Product " ++ item.productId ++ " not found")
  | some product =>
    if stockLess (stockLookup product.stockBySize (sizeKey item.size)) item.quantity then
      .error ("Insufficient stock for " ++ item.productId ++ " in size " ++ sizeKey item.size)
    else
      match updateProduct products
          (fun p => p.id == item.productId && p.version == product.version)
          (fun p => { p with
            stockBySize := some (stockAssign (product.stockBySize.getD []) (sizeKey item.size)
              (stockSub (stockLookup product.stockBySize (sizeKey item.size)) item.quantity))
            version := p.version + 1 }) with
      | some products' => .ok products'
      | none => .error "Record to update not found."

/-- The stock loop inside the transaction of `createOrder`. -/
def txStock : List Product → List Item → Except String (List Product)
  | products, [] => .ok products
  | products, item :: rest =>
    match txStockStep products item with
    | .error e => .error e
    | .ok products' => txStock products' rest

/-- The order row `tx.order.create` writes. -/
def newOrder (env : Env) (userId : String) (b : CreateOrderBody) (razorpayOrderId : String)
    (appliedDiscount : ℚ) : Order :=
  { id := env.newOrderId
    userId := userId
    totalAmount := b.amount
    status := "pending"
    paymentId := some razorpayOrderId
    offerCode := if truthy b.offerCode then b.offerCode.map String.toUpper else none
    discount := appliedDiscount
    shippingDetails := some (sanitizeShippingDetails env b.shippingDetails)
    orderItems := b.items
    shiprocketOrderId := none
    trackingUrl := none }

/-- The callback of `prisma.$transaction` in `createOrder`: the database it commits, or the
message of the error that rolls it back. The order id is a primary key. -/
def createOrderTx (env : Env) (s : State) (userId : String) (b : CreateOrderBody)
    (razorpayOrderId : String) (appliedDiscount : ℚ) : Except String State :=
  match txStock s.products b.items with
  | .error e => .error e
  | .ok products' =>
    if (findOrder s.orders env.newOrderId).isSome then
      .error "Unique constraint failed on the fields: (id)"
    else
      .ok { s with
        products := products'
        orders := s.orders ++ [newOrder env userId b razorpayOrderId appliedDiscount]
        userOfferCodes :=
          if truthy b.offerCode then
            match findOfferCode s.offerCodes (b.offerCode.getD "").toUpper with
            | some offer => s.userOfferCodes ++ [⟨userId, offer.id⟩]
            | none => s.userOfferCodes
          else s.userOfferCodes }

/-- The string the `catch` of `createOrder` sends for an error that is not a `ZodError`. -/
def createOrderCatch (message : String) : Response :=
  .serverError (if includes message "Razorpay"
    then "Payment processing failed. Please try again later."
    else "Failed to create order")

/-- Model of `createOrder(req, res)`; `user` is `req.user?.id`. -/
def createOrder (env : Env) (user : Option String) (b : CreateOrderBody) (s : State) : Result :=
  if createOrderIssues env b ≠ [] then
    ⟨[.serverError (", ".intercalate (createOrderIssues env b))], s, []⟩
  else if !truthy user then ⟨[.notAuthenticated], s, []⟩
  else
    let userId := user.getD ""
    let discount := b.discount.getD 0
    if !validateCartItems s userId b.items then ⟨[.cartMismatch], s, []⟩
    else
      match createOrderItems (productMapGet s.products (b.items.map (fun i => i.productId)))
          b.items 0 [] with
      | .error r => ⟨[r], s, []⟩
      | .ok (total, itemDetails) =>
        let calculatedTotal := toFixed2 total
        match createOrderOffer env s userId b.offerCode discount with
        | .error r => ⟨[r], s, []⟩
        | .ok appliedDiscount =>
          let expectedAmount := toFixed2 (calculatedTotal * (1 - appliedDiscount / 100))
          if |expectedAmount - b.amount| > 1 / 100 then
            ⟨[.amountMismatch calculatedTotal appliedDiscount expectedAmount b.amount itemDetails
              b.offerCode], s, []⟩
          else
            let retried := withRetry env.razorpayOrdersCreate defaultMaxRetries
            let effects := List.replicate retried.calls
              (Effect.razorpayOrdersCreate (mathRound (b.amount * 100)) b.currency)
            match retried.result with
            | .error e => ⟨[createOrderCatch e], s, effects⟩
            | .ok razorpayOrderId =>
              match createOrderTx env s userId b razorpayOrderId appliedDiscount with
              | .error e => ⟨[createOrderCatch e], s, effects⟩
              | .ok s' =>
                ⟨[.orderCreated razorpayOrderId env.newOrderId b.amount b.currency], s', effects⟩

/-! ## `confirmOrder` -/

/-- A request body of `confirmOrder`. -/
structure ConfirmOrderBody where
  dbOrderId : String
  paymentId : String

/-- Issues of `confirmOrderSchema.parse(req.body)`. -/
def confirmOrderIssues (b : ConfirmOrderBody) : List String :=
  (if b.dbOrderId.length < 1 then ["Order ID is required"] else []) ++
  (if b.paymentId.length < 1 then ["Payment ID is required"] else [])

/-- Whether `shippingDetailsSchema.parse(order.shippingDetails)` succeeds. -/
def shippingDetailsValid (d : ShippingDetails) : Bool :=
  decide (1 ≤ d.name.length) && decide (1 ≤ d.address.length) && decide (1 ≤ d.city.length)
    && decide (1 ≤ d.pincode.length) && decide (1 ≤ d.phone.length)

/-- The sum `Object.values(stockBySize).reduce((sum, val) => sum + val, 0)`, `null` adding 0. -/
def totalStock (m : List (String × StockVal)) : ℤ :=
  (m.map (fun kv => kv.2.getD 0)).sum

/-- A deferred `prisma.product.update` of `confirmOrder`: the product id, the new
`quantity` (`none` when the sum is `NaN`), the new `stockBySize`, the increment of
`orderCount`. -/
structure StockUpdate where
  productId : String
  quantity : Option ℤ
  stockBySize : List (String × StockVal)
  increment : ℤ
deriving DecidableEq

/-- The stock loop of `confirmOrder` over `order.orderItems`; every product is read from the
database as it is before the handler writes, the writes being deferred to `stockUpdates`.
The sum `totalStock` is taken over the object in memory: it is `NaN` when the value just
assigned is `NaN`, which happens when the read found an inherited function. -/
def confirmOrderItems (products : List Product) :
    List Item → List StockUpdate → Except Response (List StockUpdate)
  | [], stockUpdates => .ok stockUpdates
  | item :: rest, stockUpdates =>
    match findProduct products item.productId with
    | none => .error .productMissing
    | some product =>
      if hasSizes product && !truthy item.size then .error (.sizeRequired product.name)
      else if stockFalsy (stockLookup product.stockBySize (sizeKey item.size))
          || stockLess (stockLookup product.stockBySize (sizeKey item.size)) item.quantity then
        .error (.insufficientStock product.name (sizeKey item.size))
      else
        let stockBySize := stockAssign (product.stockBySize.getD []) (sizeKey item.size)
          (stockSub (stockLookup product.stockBySize (sizeKey item.size)) item.quantity)
        let quantity : Option ℤ :=
          if stockLookup product.stockBySize (sizeKey item.size) == .inherited
              && sizeKey item.size != "__proto__" then none
          else some (totalStock stockBySize)
        confirmOrderItems products rest
          (stockUpdates ++ [⟨item.productId, quantity, stockBySize, item.quantity⟩])

/-- The deferred product updates run in order by `prisma.$transaction`. The column
`quantity` is a required integer (`productSchema` of `productController.js` asks for one),
so an update carrying `NaN` is refused. -/
def applyStockUpdates : List Product → List StockUpdate → Except String (List Product)
  | products, [] => .ok products
  | products, u :: rest =>
    match u.quantity with
    | none => .error "Invalid value for argument quantity"
    | some quantity =>
      match updateProduct products (fun p => p.id == u.productId)
          (fun p => { p with
            quantity := quantity
            stockBySize := some u.stockBySize
            orderCount := p.orderCount + u.increment }) with
      | none => .error "Record to update not found."
      | some products' => applyStockUpdates products' rest

/-- Model of `prisma.order.update({ where: { id }, data })`. -/
def updateOrder (orders : List Order) (id : String) (data : Order → Order) :
    Option (List Order) :=
  match orders with
  | [] => none
  | o :: rest =>
    if o.id == id then some (data o :: rest)
    else (updateOrder rest id data).map (fun rest' => o :: rest')

/-- The element of `productItems` for an order item, `item.product` being the row the
order item refers to. -/
def productItem (products : List Product) (item : Item) : String × String × ℤ × ℚ :=
  ((match findProduct products item.productId with
    | some p => if p.name != "" then p.name else "Unknown Product"
    | none => "Unknown Product"),
   "SKU_" ++ item.productId, item.quantity, item.price)

/-- The object `shiprocketData`. -/
def shiprocketData (products : List Product) (dbOrderId : String) (order : Order)
    (d : ShippingDetails) : ShiprocketData :=
  { order_id := dbOrderId
    billing_customer_name := d.name
    billing_address := d.address
    billing_city := d.city
    billing_pincode := d.pincode
    billing_state := if truthy d.state then d.state.getD "" else ""
    billing_phone := d.phone
    order_items := order.orderItems.map (productItem products)
    sub_total := order.totalAmount }

/-- The array given to `prisma.$transaction` in `confirmOrder`: the stock updates, the
order update, the deletion of the cart of the user (its items with it; the write of
`User.cartId` touches no modelled table). -/
def confirmOrderTx (s : State) (userId : String) (b : ConfirmOrderBody)
    (stockUpdates : List StockUpdate) (resp : ShiprocketResponse) : Except String State :=
  match applyStockUpdates s.products stockUpdates with
  | .error e => .error e
  | .ok products' =>
    match updateOrder s.orders b.dbOrderId (fun o => { o with
        status := "confirmed"
        paymentId := some b.paymentId
        shiprocketOrderId := if truthy resp.order_id then resp.order_id else none
        trackingUrl := some (if truthy resp.tracking_url then resp.tracking_url.getD "" else "") }) with
    | none => .error "Record to update not found."
    | some orders' =>
      .ok { s with
        products := products'
        orders := orders'
        carts := s.carts.filter (fun c => c.userId != userId) }

/-- The string the `catch` of `confirmOrder` sends, `error.message || 'Failed to confirm order'`. -/
def confirmOrderCatch (message : String) : Response :=
  .serverError (if message != "" then message else "Failed to confirm order")

/-- Model of `confirmOrder(req, res)`; `user` is `req.user?.id`. -/
def confirmOrder (env : Env) (user : Option String) (b : ConfirmOrderBody) (s : State) : Result :=
  if confirmOrderIssues b ≠ [] then ⟨[.zodIssues (confirmOrderIssues b)], s, []⟩
  else if !truthy user then ⟨[.notAuthenticated], s, []⟩
  else
    let userId := user.getD ""
    match findOrder s.orders b.dbOrderId with
    | none => ⟨[.orderNotFound], s, []⟩
    | some order =>
      if order.userId != userId then ⟨[.notAuthorizedConfirm], s, []⟩
      else
        match order.shippingDetails with
        | none => ⟨[.shippingRequired], s, []⟩
        | some details =>
          if !shippingDetailsValid details then ⟨[.invalidShipping], s, []⟩
          else
            match confirmOrderItems s.products order.orderItems [] with
            | .error r => ⟨[r], s, []⟩
            | .ok stockUpdates =>
              if order.orderItems.length == 0 then ⟨[.noProducts], s, []⟩
              else
                let data := shiprocketData s.products b.dbOrderId order details
                match env.createShiprocketOrder data with
                | .error e => ⟨[confirmOrderCatch e], s, [.createShiprocketOrder data]⟩
                | .ok resp =>
                  match confirmOrderTx s userId b stockUpdates resp with
                  | .error e => ⟨[confirmOrderCatch e], s, [.createShiprocketOrder data]⟩
                  | .ok s' =>
                    ⟨[.orderConfirmed b.dbOrderId resp.order_id], s', [.createShiprocketOrder data]⟩

/-! ## `verifyPayment` -/

/-- A request body of `verifyPayment`. -/
structure VerifyPaymentBody where
  orderId : String
  paymentId : String
  signature : String
  dbOrderId : String

/-- Issues of `verifyPaymentSchema.parse(req.body)`. -/
def verifyPaymentIssues (b : VerifyPaymentBody) : List String :=
  (if b.orderId.length < 1 then ["Razorpay order ID is required"] else []) ++
  (if b.paymentId.length < 1 then ["Payment ID is required"] else []) ++
  (if b.signature.length < 1 then ["Signature is required"] else []) ++
  (if b.dbOrderId.length < 1 then ["Database order ID is required"] else [])

/-- Model of `verifyPayment(req, res)`; `user` is `req.user?.id`. After the nested
`confirmOrder` has written its response, the `res.json` of the success path and then the one
of the `catch` find the headers already sent. -/
def verifyPayment (env : Env) (user : Option String) (b : VerifyPaymentBody) (s : State) :
    Result :=
  if verifyPaymentIssues b ≠ [] then
    ⟨[.serverError (", ".intercalate (verifyPaymentIssues b))], s, []⟩
  else if !truthy user then ⟨[.notAuthenticated], s, []⟩
  else
    let userId := user.getD ""
    if !signatureAccepted env.hmacSha256Hex b.orderId b.paymentId b.signature then
      ⟨[.invalidSignature], s, []⟩
    else
      let retried := withRetry (env.razorpayPaymentsFetch b.paymentId) defaultMaxRetries
      let effects := List.replicate retried.calls (Effect.razorpayPaymentsFetch b.paymentId)
      match retried.result with
      | .error _ => ⟨[.serverError "Failed to verify payment"], s, effects⟩
      | .ok status =>
        if status != "captured" then ⟨[.paymentNotCaptured], s, effects⟩
        else
          match findOrder s.orders b.dbOrderId with
          | none => ⟨[.orderNotFound], s, effects⟩
          | some order =>
            if order.userId != userId then ⟨[.notAuthorizedVerify], s, effects⟩
            else if order.status != "pending" then ⟨[.orderAlreadyProcessed], s, effects⟩
            else
              let confirmed := confirmOrder env user ⟨b.dbOrderId, b.paymentId⟩ s
              ⟨confirmed.writes ++ [.paymentVerified, .serverError "Failed to verify payment"],
                confirmed.state,
                effects ++ [.confirmOrder b.dbOrderId b.paymentId] ++ confirmed.effects⟩

/-! ## The end-to-end scenario of the specification -/

/-- An outside world in which every call succeeds: the digest is the message itself, the
gateway creates `order_1` and reports payments captured, Shiprocket accepts. -/
def demoEnv : Env :=
  { hmacSha256Hex := fun m => m
    isEmail := fun _ => true
    sanitizeHtml := fun x => x
    now := 0
    razorpayOrdersCreate := fun _ => .ok "order_1"
    razorpayPaymentsFetch := fun _ _ => .ok "captured"
    createShiprocketOrder := fun _ => .ok ⟨some "sr_1", some "https://track/sr_1"⟩
    newOrderId := "o1"
    newCartId := "c2"
    cartItemUnique := false }

/-- A product of price 599 with 10 units in size M. -/
def demoProduct : Product :=
  { id := "p1", name := "Tee", price := 599, sizes := some ["S", "M", "L"]
    stockBySize := some [("S", some 5), ("M", some 10), ("L", some 5)]
    version := 0, quantity := 20, orderCount := 0 }

/-- The first-order-only offer FIRST20, 20 percent, expiring after `demoEnv.now`. -/
def demoOffer : OfferCode :=
  { id := "oc1", code := "FIRST20", discount := 20, expiryDate := some 1000, isFirstOrder := true }

/-- The database before checkout: user `u1` has no order, has not used FIRST20, and holds
two units of the product in size M in the cart. -/
def demoState : State :=
  { products := [demoProduct]
    carts := [⟨"c1", "u1", [⟨"p1", some "M", 2, 599⟩]⟩]
    offerCodes := [demoOffer]
    userOfferCodes := []
    orders := [] }

def demoShipping : ShippingDetails :=
  { name := "Asha", email := "asha@example.com", phone := "9876543210", address := "1 Main Road"
    pincode := "560001", city := "Bengaluru", state := some "KA" }

/-- The checkout request: amount 958.40, discount 20, offer FIRST20. -/
def demoBody : CreateOrderBody :=
  { amount := 4792 / 5, currency := "INR", items := [⟨"p1", 2, 599, some "M"⟩]
    discount := some 20, offerCode := some "FIRST20", shippingDetails := demoShipping }

/-- The database after `createOrder` on the scenario. -/
def demoCreated : State := (createOrder demoEnv (some "u1") demoBody demoState).state

/-- The payment callback of the scenario, signed for `order_1|pay_1`. -/
def demoVerify : VerifyPaymentBody :=
  { orderId := "order_1", paymentId := "pay_1", signature := "order_1|pay_1", dbOrderId := "o1" }

/-- The database after the payment of the scenario is verified and the order confirmed. -/
def demoConfirmed : State := (verifyPayment demoEnv (some "u1") demoVerify demoCreated).state

/-- The stock entry of a product under a size in a product table: the own property of its
`stockBySize`. -/
def stockIn (products : List Product) (productId size : String) : Option StockVal :=
  match findProduct products productId with
  | some p => stockEntry p.stockBySize size
  | none => none

/-- The stock entry of a product under a size in the database. -/
def stockOf (s : State) (productId size : String) : Option StockVal :=
  stockIn s.products productId size

/-- The status of an order. -/
def orderStatus (s : State) (id : String) : Option String :=
  (findOrder s.orders id).map (fun o => o.status)

/-- The outside world of the scenario, except that the gateway reports every payment as
`failed`. -/
def unpaidEnv : Env :=
  { demoEnv with razorpayPaymentsFetch := fun _ _ => .ok "failed" }

/-- The same world but the database names its next order `o2`. -/
def demoEnv2 : Env := { demoEnv with newOrderId := "o2" }

/-- The total the specification asks for: the stored price of each item times its quantity,
summed, then rounded to two decimals. -/
def authoritativeTotal (products : List Product) (items : List Item) : ℚ :=
  toFixed2 ((items.map (fun item =>
    (match findProduct products item.productId with
      | some p => p.price
      | none => 0) * (item.quantity : ℚ))).sum)

/-- A product of price 100 with ample stock, in the cart of `u1` 128 times. -/
def tamperState : State :=
  { products := [{ id := "p1", name := "Tee", price := 100, sizes := none
                   stockBySize := some [("default", some 500)]
                   version := 0, quantity := 500, orderCount := 0 }]
    carts := [⟨"c1", "u1", [⟨"p1", none, 128, 100⟩]⟩]
    offerCodes := []
    userOfferCodes := []
    orders := [] }

/-- Items whose submitted price 100.0078125 is within 0.01 of the stored price 100. -/
def tamperItems : List Item := [⟨"p1", 128, 100 + 1 / 128, none⟩]

/-- A checkout of `tamperItems` for the amount computed from the submitted price. -/
def tamperBody : CreateOrderBody :=
  { amount := 12801, currency := "INR", items := tamperItems
    discount := none, offerCode := none, shippingDetails := demoShipping }

/-! ## Notions the theorems are stated with -/

/-- The rejection the per-item checks of `createOrder` give for one item, `none` when the
item passes all four. -/
def itemFailure (productMap : String → Option Product) (item : Item) : Option Response :=
  match productMap item.productId with
  | none => some (.productNotFound item.productId)
  | some product =>
    if |item.price - product.price| > 1 / 100 then
      some (.priceMismatch product.name product.price item.price)
    else if hasSizes product && !truthy item.size then some (.sizeRequired product.name)
    else if stockFalsy (stockLookup product.stockBySize (sizeKey item.size))
        || stockLess (stockLookup product.stockBySize (sizeKey item.size)) item.quantity then
      some (.insufficientStock product.name (sizeKey item.size))
    else none

/-- The handler answered with a success response. -/
def Result.succeeded (r : Result) : Bool :=
  match r.response with
  | some resp => resp.success
  | none => false

deriving instance DecidableEq for Except

/-- The scenario with a stale cart: the cart of `u1` still carries the price 499 the product
had when it was added, the product being stored at 599 now. -/
def staleCartState : State :=
  { demoState with carts := [⟨"c1", "u1", [⟨"p1", some "M", 2, 499⟩]⟩] }

/-- A checkout submitting the stale price 499. -/
def staleBody : CreateOrderBody :=
  { demoBody with amount := 998, items := [⟨"p1", 2, 499, some "M"⟩], discount := none
                  offerCode := none }

/-! ## Sequences of `createOrder` calls -/

/-- A `createOrder` call: the outside world it meets, the caller, the body. -/
structure Call where
  env : Env
  user : Option String
  body : CreateOrderBody

/-- The database after the calls have run one after another. -/
def runCreateOrders : State → List Call → State
  | s, [] => s
  | s, c :: rest => runCreateOrders (createOrder c.env c.user c.body s).state rest

/-- The quantity an item list orders of a product in a size. -/
def orderedQuantity (productId size : String) (items : List Item) : ℤ :=
  ((items.filter (fun i => i.productId == productId && sizeKey i.size == size)).map
    (fun i => i.quantity)).sum

/-- The quantity of a product in a size ordered by the calls that answered success. -/
def committedQuantity (productId size : String) : State → List Call → ℤ
  | _, [] => 0
  | s, c :: rest =>
    (if (createOrder c.env c.user c.body s).succeeded
      then orderedQuantity productId size c.body.items else 0)
    + committedQuantity productId size (createOrder c.env c.user c.body s).state rest

/-- Every value of every `stockBySize` is a number and is not negative. -/
def stockSound (products : List Product) : Bool :=
  products.all (fun p => (p.stockBySize.getD []).all (fun kv =>
    match kv.2 with
    | some n => decide (0 ≤ n)
    | none => false))

/-- The checkout of the scenario without the offer, for the full 1198. -/
def plainBody : CreateOrderBody :=
  { demoBody with amount := 1198, discount := none, offerCode := none }

/-! ## `applyOfferCode` -/

/-- A request body of `applyOfferCode`, typed as `applyOfferCodeSchema` types it. -/
structure ApplyOfferBody where
  code : String
  cartTotal : ℚ
  items : List Item

/-- Issues of `applyOfferCodeSchema.parse(req.body)`. -/
def applyOfferIssues (b : ApplyOfferBody) : List String :=
  (if b.code.length < 1 then ["Offer code is required"] else []) ++
  (if b.cartTotal ≤ 0 then ["Cart total must be positive"] else []) ++
  (b.items.map itemIssues).flatten

/-- The checks the loop of `applyOfferCode` makes on one item: the first failing one
answers, otherwise the product of the item. -/
def applyOfferItem (productMap : String → Option Product) (item : Item) :
    Except Response Product :=
  match productMap item.productId with
  | none => .error .productMissing
  | some product =>
    if |item.price - product.price| > 1 / 100 then
      .error (.priceMismatch product.name product.price item.price)
    else if hasSizes product && !truthy item.size then .error (.sizeRequired product.name)
    else if stockFalsy (stockLookup product.stockBySize (sizeKey item.size))
        || stockLess (stockLookup product.stockBySize (sizeKey item.size)) item.quantity then
      .error (.insufficientStock product.name (sizeKey item.size))
    else .ok product

/-- The per-item loop of `applyOfferCode` from the running `calculatedTotal`. -/
def applyOfferItems (productMap : String → Option Product) : List Item → ℚ → Except Response ℚ
  | [], calculatedTotal => .ok calculatedTotal
  | item :: rest, calculatedTotal =>
    match applyOfferItem productMap item with
    | .error r => .error r
    | .ok _ => applyOfferItems productMap rest (calculatedTotal + item.price * item.quantity)

/-- The offer section of `applyOfferCode`: a rejection, or the offer row. -/
def applyOfferCheck (env : Env) (s : State) (userId : String) (code : String) :
    Except Response OfferCode :=
  match findOfferCode s.offerCodes code.toUpper with
  | none => .error .invalidOfferCode
  | some offerCode =>
    if (match offerCode.expiryDate with
        | some d => decide (d < env.now)
        | none => false) then .error .offerExpired
    else if s.userOfferCodes.any (fun r => r.userId == userId && r.offerCodeId == offerCode.id) then
      .error .codeAlreadyUsed
    else if offerCode.isFirstOrder
        && decide ((s.orders.filter (fun o => o.userId == userId)).length > 0) then
      .error .firstOrderOnly
    else if decide (offerCode.discount < 0) || decide (offerCode.discount > 100) then
      .error .invalidDiscount
    else .ok offerCode

/-- Model of `applyOfferCode(req, res)`; `user` is `req.user?.id`. -/
def applyOfferCode (env : Env) (user : Option String) (b : ApplyOfferBody) (s : State) : Result :=
  if applyOfferIssues b ≠ [] then
    ⟨[.serverError (", ".intercalate (applyOfferIssues b))], s, []⟩
  else if !truthy user then ⟨[.notAuthenticated], s, []⟩
  else if b.items.length == 0 then ⟨[.cartItemsRequired], s, []⟩
  else
    match applyOfferItems (productMapGet s.products (b.items.map (fun i => i.productId)))
        b.items 0 with
    | .error r => ⟨[r], s, []⟩
    | .ok total =>
      if |toFixed2 total - b.cartTotal| > 1 / 100 then
        ⟨[.cartTotalMismatch (toFixed2 total) b.cartTotal], s, []⟩
      else
        match applyOfferCheck env s (user.getD "") b.code with
        | .error r => ⟨[r], s, []⟩
        | .ok offerCode =>
          ⟨[.offerApplied offerCode.code offerCode.discount
              (toFixed2 (toFixed2 total * (1 - offerCode.discount / 100)))],
            { s with userOfferCodes := s.userOfferCodes ++ [⟨user.getD "", offerCode.id⟩] }, []⟩

/-! ## `validateCart` -/

/-- A request body of `validateCart` (the `name` and `image` of an item are not read). -/
structure ValidateCartBody where
  items : List Item
  offerCode : Option String

/-- Issues of the schema `validateCart` parses the body with. -/
def validateCartIssues (b : ValidateCartBody) : List String :=
  (b.items.map itemIssues).flatten

/-- The checks the loop of `validateCart` makes on one item: the first failing one answers,
otherwise the product of the item. -/
def validateCartItem (productMap : String → Option Product) (item : Item) :
    Except Response Product :=
  match productMap item.productId with
  | none => .error (.productNotFound item.productId)
  | some product =>
    if |item.price - product.price| > 1 / 100 then
      .error (.priceMismatch product.name product.price item.price)
    else if hasSizes product && !truthy item.size then
      .error (.sizeSelectionRequired product.name)
    else if stockFalsy (stockLookup product.stockBySize (sizeKey item.size))
        || stockLess (stockLookup product.stockBySize (sizeKey item.size)) item.quantity then
      .error (.insufficientStock product.name (sizeKey item.size))
    else .ok product

/-- The per-item loop of `validateCart` from the running `calculatedTotal` and
`validatedItems`. -/
def validateCartLoop (productMap : String → Option Product) :
    List Item → ℚ → List ValidatedItem → Except Response (ℚ × List ValidatedItem)
  | [], calculatedTotal, validatedItems => .ok (calculatedTotal, validatedItems)
  | item :: rest, calculatedTotal, validatedItems =>
    match validateCartItem productMap item with
    | .error r => .error r
    | .ok product =>
      validateCartLoop productMap rest (calculatedTotal + product.price * item.quantity)
        (validatedItems ++ [⟨item.productId, item.quantity, product.price, item.size, product.name⟩])

/-- The offer section of `validateCart`: a rejection, or `discount` and `discountedTotal`. -/
def validateCartOffer (env : Env) (s : State) (userId : String) (offerCode : Option String)
    (calculatedTotal : ℚ) : Except Response (ℚ × ℚ) :=
  if truthy offerCode then
    match findOfferCode s.offerCodes (offerCode.getD "").toUpper with
    | none => .error .invalidOfferCode
    | some offer =>
      if (match offer.expiryDate with
          | some d => decide (d < env.now)
          | none => false) then .error .offerExpired
      else if s.userOfferCodes.any (fun r => r.userId == userId && r.offerCodeId == offer.id) then
        .error .codeAlreadyUsed
      else if offer.isFirstOrder
          && decide ((s.orders.filter (fun o => o.userId == userId)).length > 0) then
        .error .firstOrderOnly
      else .ok (offer.discount, toFixed2 (calculatedTotal * (1 - offer.discount / 100)))
  else .ok (0, calculatedTotal)

/-- Model of `validateCart(req, res)`; `user` is `req.user?.id`. -/
def validateCart (env : Env) (user : Option String) (b : ValidateCartBody) (s : State) : Result :=
  if validateCartIssues b ≠ [] then
    ⟨[.serverError (", ".intercalate (validateCartIssues b))], s, []⟩
  else if !truthy user then ⟨[.notAuthenticated], s, []⟩
  else if b.items.length == 0 then ⟨[.cartItemsRequired], s, []⟩
  else
    match validateCartLoop (productMapGet s.products (b.items.map (fun i => i.productId)))
        b.items 0 [] with
    | .error r => ⟨[r], s, []⟩
    | .ok (total, validatedItems) =>
      match validateCartOffer env s (user.getD "") b.offerCode (toFixed2 total) with
      | .error r => ⟨[r], s, []⟩
      | .ok (discount, discountedTotal) =>
        ⟨[.cartValid discountedTotal validatedItems discount], s, []⟩

/-! ## The offer conditions as the specification words them -/

/-- The ways the specification lets an offer code fail, in its order. -/
inductive OfferFailure where
  | invalid
  | expired
  | alreadyUsed
  | firstOrderOnly
  | invalidDiscount
deriving DecidableEq

/-- The expiry date of the offer is absent or is not earlier than `now`. -/
def offerUnexpired (now : ℤ) (offer : OfferCode) : Bool :=
  match offer.expiryDate with
  | none => true
  | some d => !decide (d < now)

/-- No `UserOfferCode` row exists for the user and the offer. -/
def offerUnused (s : State) (userId : String) (offer : OfferCode) : Bool :=
  !s.userOfferCodes.contains ⟨userId, offer.id⟩

/-- The user has at least one order. -/
def hasOrders (s : State) (userId : String) : Bool :=
  s.orders.any (fun o => o.userId == userId)

/-- The discount of the offer lies in [0, 100]. -/
def discountInRange (offer : OfferCode) : Bool :=
  decide (0 ≤ offer.discount) && decide (offer.discount ≤ 100)

/-- The verdict on code `c` for user `u` in the words of the specification: the offer whose
code is the upper-cased `c`, or the first condition that fails, the bound on the discount
being asked for only when `boundDiscount` is set. -/
def specOfferVerdict (boundDiscount : Bool) (now : ℤ) (s : State) (u c : String) :
    Except OfferFailure OfferCode :=
  match s.offerCodes.find? (fun o => o.code == c.toUpper) with
  | none => .error .invalid
  | some offer =>
    if !offerUnexpired now offer then .error .expired
    else if !offerUnused s u offer then .error .alreadyUsed
    else if offer.isFirstOrder && hasOrders s u then .error .firstOrderOnly
    else if boundDiscount && !discountInRange offer then .error .invalidDiscount
    else .ok offer

/-- The response of `applyOfferCode` and of `validateCart` for a failed condition. -/
def OfferFailure.applyResponse : OfferFailure → Response
  | .invalid => .invalidOfferCode
  | .expired => .offerExpired
  | .alreadyUsed => .codeAlreadyUsed
  | .firstOrderOnly => .firstOrderOnly
  | .invalidDiscount => .invalidDiscount

/-- The response of `createOrder` for a failed condition. -/
def OfferFailure.createOrderResponse : OfferFailure → Response
  | .invalid => .invalidOfferCode
  | .expired => .offerExpired
  | .alreadyUsed => .offerAlreadyUsed
  | .firstOrderOnly => .firstOrderOnly
  | .invalidDiscount => .invalidDiscount

/-! ## Sequences of offer redemptions -/

/-- A call that can write a `UserOfferCode` row. -/
inductive OfferCall where
  | applyOfferCode (env : Env) (user : Option String) (body : ApplyOfferBody)
  | createOrder (env : Env) (user : Option String) (body : CreateOrderBody)

/-- The result of one call. -/
def OfferCall.run (c : OfferCall) (s : State) : Result :=
  match c with
  | .applyOfferCode env user body => Ecommerce.applyOfferCode env user body s
  | .createOrder env user body => Ecommerce.createOrder env user body s

/-- The database after the calls have run one after another. -/
def runOfferCalls : State → List OfferCall → State
  | s, [] => s
  | s, c :: rest => runOfferCalls (c.run s).state rest

/-! ## `withRetry`: outcomes -/

/-- The attempt fails with an HTTP 429 error, whatever library reports it. -/
def Attempt.isRateLimited {α : Type} : Attempt α → Bool
  | .threw e => e.httpStatus == some 429
  | .ok _ => false

/-- The attempt fails with an error that passes the test of `withRetry`: an axios error
whose response status is 429. -/
def Attempt.isAxios429 {α : Type} : Attempt α → Bool
  | .threw e => e.isAxiosError && e.httpStatus == some 429
  | .ok _ => false

/-- What `withRetry` returns or throws when this attempt is its last invocation. -/
def Attempt.outcome {α : Type} : Attempt α → Except String α
  | .ok v => .ok v
  | .threw e => .error e.message

/-- The outside world of the scenario, except that Shiprocket refuses every order. -/
def shipDownEnv : Env :=
  { demoEnv with createShiprocketOrder := fun _ => .error "Unable to create Shiprocket order" }

/-- An operation that fails twice with an axios error of status 429 and then answers
`order_9`. -/
def flakyCreate : Nat → Attempt String
  | 1 => .threw ⟨true, some 429, "Request failed with status code 429"⟩
  | 2 => .threw ⟨true, some 429, "Request failed with status code 429"⟩
  | _ => .ok "order_9"

/-- An operation that always fails with an axios error of status 429. -/
def axiosLimited : Nat → Attempt String :=
  fun _ => .threw ⟨true, some 429, "Request failed with status code 429"⟩

/-- An operation that always fails with HTTP 429 reported as the Razorpay SDK reports a
failed call: a rejection that is not an axios error. -/
def gatewayLimited : Nat → Attempt String :=
  fun _ => .threw ⟨false, some 429, "Too many requests"⟩

/-- The database after a second checkout (order `o2`, without offer) follows the first of
the scenario: size M is at 6 and the product at version 2. -/
def demoCreatedTwice : State := (createOrder demoEnv2 (some "u1") plainBody demoCreated).state

/-- The product table after the stock update `confirmOrder` prepares for the order of the
scenario from the rows of `demoCreated` is written onto the rows of `demoCreatedTwice`. -/
def staleConfirmWrite : Option (List Product) :=
  (confirmOrderItems demoCreated.products [⟨"p1", 2, 599, some "M"⟩] []).toOption.bind
    (fun updates => (applyStockUpdates demoCreatedTwice.products updates).toOption)

/-- The version of a product. -/
def versionIn (products : List Product) (productId : String) : Option Nat :=
  (findProduct products productId).map (fun p => p.version)

/-- The entry of `stockBySize` under `key` is absent, or is less than `quantity` (a JSON
`null` comparing as 0). -/
def stockShort (stockBySize : Option (List (String × StockVal))) (key : String)
    (quantity : ℤ) : Bool :=
  match stockEntry stockBySize key with
  | none => true
  | some v => decide (v.getD 0 < quantity)

/-- A product table with three kinds of stock entry for one product: 3 units of size S,
an entry 0 for size M, no entry for size L. -/
def shortState : State :=
  { demoState with
    products := [{ demoProduct with stockBySize := some [("S", some 3), ("M", some 0)] }] }

/-- The request of the scenario to `applyOfferCode`: the cart total 1198 and FIRST20. -/
def demoApply : ApplyOfferBody :=
  { code := "first20", cartTotal := 1198, items := [⟨"p1", 2, 599, some "M"⟩] }

/-- The request of the scenario to `validateCart`. -/
def demoValidate : ValidateCartBody :=
  { items := [⟨"p1", 2, 599, some "M"⟩], offerCode := some "FIRST20" }

/-- Redemptions on the scenario: `u1` applies FIRST20, applies it again, then checks out
with it. -/
def demoOfferCalls : List OfferCall :=
  [.applyOfferCode demoEnv (some "u1") demoApply,
   .applyOfferCode demoEnv (some "u1") demoApply,
   .createOrder demoEnv (some "u1") demoBody]

/-! ## The cart handlers of `cartController.js` -/

/-- The value `size || null` stored in and looked up from cart items. -/
def sizeOrNull (size : Option String) : Option String :=
  if truthy size then size else none

/-- The cart of the user, `prisma.cart.findFirst({ where: { userId } })`. -/
def findCart (carts : List Cart) (userId : String) : Option Cart :=
  carts.find? (fun c => c.userId == userId)

/-- The cart items of the first cart of the user rewritten by `f`. -/
def updateCartItems (carts : List Cart) (userId : String)
    (f : List CartItem → List CartItem) : List Cart :=
  match carts with
  | [] => []
  | c :: rest =>
    if c.userId == userId then { c with items := f c.items } :: rest
    else c :: updateCartItems rest userId f

/-- The step "get or create server cart": when the user has no cart, an empty one is
created under the id the database gives it. -/
def getOrCreateCart (env : Env) (carts : List Cart) (userId : String) : List Cart :=
  match findCart carts userId with
  | some _ => carts
  | none => carts ++ [⟨env.newCartId, userId, []⟩]

/-- The checks the loop of `syncCart` makes on one item: the first failing one answers,
otherwise the product of the item. -/
def syncCartItem (productMap : String → Option Product) (item : Item) :
    Except Response Product :=
  match productMap item.productId with
  | none => .error (.productNotFound item.productId)
  | some product =>
    if |item.price - product.price| > 1 / 100 then
      .error (.priceMismatch product.name product.price item.price)
    else if hasSizes product && !truthy item.size then .error (.sizeRequired product.name)
    else if stockFalsy (stockLookup product.stockBySize (sizeKey item.size))
        || stockLess (stockLookup product.stockBySize (sizeKey item.size)) item.quantity then
      .error (.insufficientStock product.name (sizeKey item.size))
    else .ok product

/-- The per-item loop of `syncCart` from the running `validatedItems`. -/
def syncCartLoop (productMap : String → Option Product) :
    List Item → List ValidatedItem → Except Response (List ValidatedItem)
  | [], validatedItems => .ok validatedItems
  | item :: rest, validatedItems =>
    match syncCartItem productMap item with
    | .error r => .error r
    | .ok product =>
      syncCartLoop productMap rest
        (validatedItems ++ [⟨item.productId, item.quantity, product.price, item.size, product.name⟩])

/-- A request body of `syncCart`. -/
structure SyncCartBody where
  cartItems : List Item

/-- Issues of `syncCartSchema.parse(req.body)`. -/
def syncCartIssues (b : SyncCartBody) : List String :=
  (b.cartItems.map itemIssues).flatten

/-- Model of `syncCart(req, res)`; `user` is `req.user?.id`. The cart items of the user are
deleted and the validated items inserted in the order of the request. Under a unique index
on the cart items, `createMany` throws when two of the rows share product and size: the
`catch` answers 500 after `deleteMany` has run, the two writes not being in a transaction. -/
def syncCart (env : Env) (user : Option String) (b : SyncCartBody) (s : State) : Result :=
  if !truthy user then ⟨[.notAuthenticated], s, []⟩
  else if syncCartIssues b ≠ [] then
    ⟨[.serverError (", ".intercalate (syncCartIssues b))], s, []⟩
  else
    match syncCartLoop (productMapGet s.products (b.cartItems.map (fun i => i.productId)))
        b.cartItems [] with
    | .error r => ⟨[r], s, []⟩
    | .ok validatedItems =>
      if env.cartItemUnique
          && !decide ((validatedItems.map (fun i => (i.productId, sizeOrNull i.size))).Nodup) then
        ⟨[.serverError "Failed to sync cart"],
          { s with carts := (updateCartItems (getOrCreateCart env s.carts (user.getD ""))
              (user.getD "") (fun _ => [])) },
          []⟩
      else
        ⟨[.cartSynced validatedItems
            (toFixed2 ((validatedItems.map (fun i => i.price * (i.quantity : ℚ))).sum))],
          { s with carts := (updateCartItems (getOrCreateCart env s.carts (user.getD ""))
              (user.getD "")
              (fun _ => validatedItems.map
                (fun i => ⟨i.productId, sizeOrNull i.size, i.quantity, i.price⟩))) },
          []⟩

/-- The cart item `prisma.cartItem.findFirst({ where: { cartId, productId, size } })`. -/
def findCartItem (items : List CartItem) (productId : String) (size : Option String) :
    Option CartItem :=
  items.find? (fun ci => ci.productId == productId && ci.size == sizeOrNull size)

/-- The first cart item of the product and size rewritten by `f`. -/
def updateCartItemRow (items : List CartItem) (productId : String) (size : Option String)
    (f : CartItem → CartItem) : List CartItem :=
  match items with
  | [] => []
  | ci :: rest =>
    if ci.productId == productId && ci.size == sizeOrNull size then f ci :: rest
    else ci :: updateCartItemRow rest productId size f

/-- The first cart item of the product and size deleted. -/
def deleteCartItemRow (items : List CartItem) (productId : String) (size : Option String) :
    List CartItem :=
  match items with
  | [] => []
  | ci :: rest =>
    if ci.productId == productId && ci.size == sizeOrNull size then rest
    else ci :: deleteCartItemRow rest productId size

/-- Model of `addToCart(req, res)`; the body is typed as `cartItemSchema` types it. -/
def addToCart (env : Env) (user : Option String) (b : Item) (s : State) : Result :=
  if itemIssues b ≠ [] then ⟨[.serverError (", ".intercalate (itemIssues b))], s, []⟩
  else if !truthy user then ⟨[.notAuthenticated], s, []⟩
  else
    match findProduct s.products b.productId with
    | none => ⟨[.productMissing], s, []⟩
    | some product =>
      if |product.price - b.price| > 1 / 100 then
        ⟨[.priceMismatch product.name product.price b.price], s, []⟩
      else if hasSizes product && !truthy b.size then ⟨[.sizeMissing], s, []⟩
      else if stockFalsy (stockLookup product.stockBySize (sizeKey b.size))
          || stockLess (stockLookup product.stockBySize (sizeKey b.size)) b.quantity then
        ⟨[.insufficientStockSize (sizeKey b.size)], s, []⟩
      else
        ⟨[.itemAdded],
          { s with carts := (updateCartItems (getOrCreateCart env s.carts (user.getD ""))
              (user.getD "")
              (fun items =>
                match findCartItem items b.productId b.size with
                | some _ =>
                  updateCartItemRow items b.productId b.size
                    (fun ci => { ci with quantity := ci.quantity + b.quantity })
                | none => items ++ [⟨b.productId, sizeOrNull b.size, b.quantity, product.price⟩])) },
          []⟩

/-- Model of `updateCartItem(req, res)`. -/
def updateCartItem (user : Option String) (b : Item) (s : State) : Result :=
  if itemIssues b ≠ [] then ⟨[.serverError (", ".intercalate (itemIssues b))], s, []⟩
  else if !truthy user then ⟨[.notAuthenticated], s, []⟩
  else
    match findCart s.carts (user.getD "") with
    | none => ⟨[.cartNotFound], s, []⟩
    | some cart =>
      match findCartItem cart.items b.productId b.size with
      | none => ⟨[.cartItemNotFound], s, []⟩
      | some _ =>
        match findProduct s.products b.productId with
        | none => ⟨[.productMissing], s, []⟩
        | some product =>
          if stockFalsy (stockLookup product.stockBySize (sizeKey b.size))
              || stockLess (stockLookup product.stockBySize (sizeKey b.size)) b.quantity then
            ⟨[.insufficientStockSize (sizeKey b.size)], s, []⟩
          else if b.quantity == 0 then
            ⟨[.cartItemUpdated],
              { s with carts := (updateCartItems s.carts (user.getD "")
                  (fun items => deleteCartItemRow items b.productId b.size)) }, []⟩
          else
            ⟨[.cartItemUpdated],
              { s with carts := (updateCartItems s.carts (user.getD "")
                  (fun items => updateCartItemRow items b.productId b.size
                    (fun ci => { ci with quantity := b.quantity }))) }, []⟩

/-- A request body of `removeCartItem`. -/
structure RemoveCartItemBody where
  productId : String
  size : Option String

/-- Model of `removeCartItem(req, res)`. -/
def removeCartItem (user : Option String) (b : RemoveCartItemBody) (s : State) : Result :=
  if b.productId.length < 1 then ⟨[.serverError "Product ID is required"], s, []⟩
  else if !truthy user then ⟨[.notAuthenticated], s, []⟩
  else
    match findCart s.carts (user.getD "") with
    | none => ⟨[.cartNotFound], s, []⟩
    | some cart =>
      match findCartItem cart.items b.productId b.size with
      | none => ⟨[.cartItemNotFound], s, []⟩
      | some _ =>
        ⟨[.cartItemRemoved],
          { s with carts := (updateCartItems s.carts (user.getD "")
              (fun items => deleteCartItemRow items b.productId b.size)) }, []⟩

/-! ## `asyncHandler` and `errorMiddleware` -/

/-- A value thrown while a request is handled: an `AppError` (or a subclass) with its
message and status code, or any other error with its message. -/
inductive Thrown where
  | appError (message : String) (statusCode : Nat)
  | other (message : String)
deriving DecidableEq

/-- The error `asyncHandler` passes to `next`: an error that is not an `AppError` is wrapped
as `new AppError(err.message || 'Internal Server Error', 500)`. -/
def asyncHandler (err : Thrown) : Thrown :=
  match err with
  | .appError message statusCode => .appError message statusCode
  | .other message => .appError (if message != "" then message else "Internal Server Error") 500

/-- The status and the `error` string `errorMiddleware` sends for an error. -/
def errorMiddleware (err : Thrown) : Nat × String :=
  match err with
  | .appError message statusCode => (statusCode, message)
  | .other _ => (500, "Internal Server Error")

/-! ## The per-item verdict as the specification words it -/

/-- The failure kinds of the per-item validator, in the order they are checked. -/
inductive ItemFailureKind where
  | productNotFound
  | priceMismatch
  | sizeRequired
  | insufficientStock
deriving DecidableEq

/-- The first check an item fails, in the words of the specification (4.1). -/
def itemVerdict (productMap : String → Option Product) (item : Item) : Option ItemFailureKind :=
  match productMap item.productId with
  | none => some .productNotFound
  | some product =>
    if |item.price - product.price| > 1 / 100 then some .priceMismatch
    else if hasSizes product && !truthy item.size then some .sizeRequired
    else if stockFalsy (stockLookup product.stockBySize (sizeKey item.size))
        || stockLess (stockLookup product.stockBySize (sizeKey item.size)) item.quantity then
      some .insufficientStock
    else none

/-- The verdict on an item list: the position (from 0) of the first item that fails a check
and the kind of its first failure, `none` when every item passes. -/
def listVerdict (productMap : String → Option Product) :
    List Item → Option (Nat × ItemFailureKind)
  | [] => none
  | item :: rest =>
    match itemVerdict productMap item with
    | some k => some (0, k)
    | none => (listVerdict productMap rest).map (fun ik => (ik.1 + 1, ik.2))

/-- The failure kind a rejection of a per-item loop stands for. -/
def Response.itemFailureKind : Response → Option ItemFailureKind
  | .productNotFound _ => some .productNotFound
  | .productMissing => some .productNotFound
  | .priceMismatch _ _ _ => some .priceMismatch
  | .sizeRequired _ => some .sizeRequired
  | .sizeSelectionRequired _ => some .sizeRequired
  | .insufficientStock _ _ => some .insufficientStock
  | _ => none

/-- The rejection of the per-item loop of `createOrder`, `none` when it accepts. -/
def createOrderLoopVerdict (productMap : String → Option Product) (items : List Item) :
    Option Response :=
  match createOrderItems productMap items 0 [] with
  | .error r => some r
  | .ok _ => none

/-- The rejection of the per-item loop of `applyOfferCode`, `none` when it accepts. -/
def applyOfferLoopVerdict (productMap : String → Option Product) (items : List Item) :
    Option Response :=
  match applyOfferItems productMap items 0 with
  | .error r => some r
  | .ok _ => none

/-- The rejection of the per-item loop of `validateCart`, `none` when it accepts. -/
def validateCartLoopVerdict (productMap : String → Option Product) (items : List Item) :
    Option Response :=
  match validateCartLoop productMap items 0 [] with
  | .error r => some r
  | .ok _ => none

/-- The rejection of the per-item loop of `syncCart`, `none` when it accepts. -/
def syncCartLoopVerdict (productMap : String → Option Product) (items : List Item) :
    Option Response :=
  match syncCartLoop productMap items [] with
  | .error r => some r
  | .ok _ => none

/-- A loop rejects the list at position `i` with kind `k`: it accepts the first `i` items
and rejects the first `i + 1` with the response it gives for the whole list, of kind `k`. -/
def RejectsAt (loop : List Item → Option Response) (items : List Item) (i : Nat)
    (k : ItemFailureKind) : Prop :=
  ∃ r, loop items = some r ∧ r.itemFailureKind = some k ∧
    loop (items.take i) = none ∧ loop (items.take (i + 1)) = some r

/-! ## The client cart store `useCartStore` -/

/-- An item of the client cart (the fields the store reads). -/
structure StoreItem where
  productId : String
  size : Option String
  quantity : ℚ
  price : ℚ
deriving DecidableEq

/-- The state of the store. -/
structure StoreState where
  cart : List StoreItem
  total : ℚ
  lastSynced : ℤ
deriving DecidableEq

/-- The sum `cart.reduce((sum, i) => sum + i.quantity * i.price, 0)`. -/
def cartSum (cart : List StoreItem) : ℚ :=
  cart.foldl (fun sum i => sum + i.quantity * i.price) 0

/-- The array `state.cart.map((i) => i === existingItem ? {...i, quantity: ...} : i)`,
`existingItem` being the first item of the product and size: that element alone is
replaced. -/
def bumpExisting (cart : List StoreItem) (item : StoreItem) : List StoreItem :=
  match cart with
  | [] => []
  | i :: rest =>
    if i.productId == item.productId && i.size == item.size then
      { i with quantity := i.quantity + item.quantity } :: rest
    else i :: bumpExisting rest item

namespace Store

/-- The initial state of the store. -/
def empty : StoreState := ⟨[], 0, 0⟩

/-- Model of the store action `addToCart(item)`. -/
def addToCart (item : StoreItem) (state : StoreState) : StoreState :=
  match state.cart.find? (fun i => i.productId == item.productId && i.size == item.size) with
  | some _ =>
    ⟨bumpExisting state.cart item, cartSum (bumpExisting state.cart item), 0⟩
  | none => ⟨state.cart ++ [item], state.total + item.quantity * item.price, 0⟩

/-- Model of the store action `removeFromCart(productId, size)`. -/
def removeFromCart (productId : String) (size : Option String) (state : StoreState) :
    StoreState :=
  ⟨state.cart.filter (fun item => !(item.productId == productId && item.size == size)),
    cartSum (state.cart.filter (fun item => !(item.productId == productId && item.size == size))),
    0⟩

/-- Model of the store action `updateQuantity(productId, size, quantity)`. -/
def updateQuantity (productId : String) (size : Option String) (quantity : ℚ)
    (state : StoreState) : StoreState :=
  if quantity ≤ 0 then
    ⟨state.cart.filter (fun item => !(item.productId == productId && item.size == size)),
      cartSum (state.cart.filter (fun item => !(item.productId == productId && item.size == size))),
      0⟩
  else
    ⟨state.cart.map (fun item =>
        if item.productId == productId && item.size == size then { item with quantity := quantity }
        else item),
      cartSum (state.cart.map (fun item =>
        if item.productId == productId && item.size == size then { item with quantity := quantity }
        else item)),
      0⟩

/-- Model of the store action `clearCart()`. -/
def clearCart (_state : StoreState) : StoreState := ⟨[], 0, 0⟩

/-- A call of one of the four actions. -/
inductive Action where
  | addToCart (item : StoreItem)
  | updateQuantity (productId : String) (size : Option String) (quantity : ℚ)
  | removeFromCart (productId : String) (size : Option String)
  | clearCart
deriving DecidableEq

/-- The state after an action. -/
def step (state : StoreState) (a : Action) : StoreState :=
  match a with
  | .addToCart item => Store.addToCart item state
  | .updateQuantity productId size quantity => Store.updateQuantity productId size quantity state
  | .removeFromCart productId size => Store.removeFromCart productId size state
  | .clearCart => Store.clearCart state

/-- The state after a sequence of actions. -/
def run (state : StoreState) (actions : List Action) : StoreState :=
  actions.foldl step state

/-- The (productId, size) pairs of the items of a cart. -/
def keys (cart : List StoreItem) : List (String × Option String) :=
  cart.map (fun i => (i.productId, i.size))

end Store

/-! ## Further scenarios -/

/-- The scenario with the discount of FIRST20 stored as 150. -/
def offer150State : State :=
  { demoState with offerCodes := [{ demoOffer with discount := 150 }] }

/-- The scenario with the discount of FIRST20 stored as -20. -/
def offerMinus20State : State :=
  { demoState with offerCodes := [{ demoOffer with discount := -20 }] }

/-- The (productId, size) pairs of the items of the cart of a user. -/
def cartKeys (s : State) (userId : String) : List (String × Option String) :=
  match findCart s.carts userId with
  | some cart => cart.items.map (fun ci => (ci.productId, ci.size))
  | none => []

/-- The outside world of the scenario, the database holding a unique index on the cart
items. -/
def indexedEnv : Env := { demoEnv with cartItemUnique := true }

/-- A sync request naming size M of the product twice. -/
def twiceSync : SyncCartBody :=
  { cartItems := [⟨"p1", 1, 599, some "M"⟩, ⟨"p1", 1, 599, some "M"⟩] }

/-- The outside world of the scenario, except that the login to Shiprocket fails:
`getShiprocketToken` throws its own error inside `createShiprocketOrder`. -/
def shipRefusedEnv : Env :=
  { demoEnv with
    createShiprocketOrder := fun _ => .error "Unable to authenticate with Shiprocket" }

/-- The scenario with six units of size M in the cart of `u1`. -/
def sixState : State :=
  { demoState with carts := [⟨"c1", "u1", [⟨"p1", some "M", 6, 599⟩]⟩] }

/-- A checkout naming six units of size M of the product twice, for 12 times 599. -/
def twiceSixBody : CreateOrderBody :=
  { amount := 7188, currency := "INR"
    items := [⟨"p1", 6, 599, some "M"⟩, ⟨"p1", 6, 599, some "M"⟩]
    discount := none, offerCode := none, shippingDetails := demoShipping }

/-- A session of the client cart: two units of size M are added, one more of the same, a
unit of size L, the quantity of size L is set to 3, and size M is removed. -/
def demoActions : List Store.Action :=
  [.addToCart ⟨"p1", some "M", 2, 599⟩, .addToCart ⟨"p1", some "M", 1, 599⟩,
   .addToCart ⟨"p1", some "L", 1, 599⟩, .updateQuantity "p1" (some "L") 3,
   .removeFromCart "p1" (some "M")]

/-- The rejection the loop of `applyOfferCode` gives for one item, if any. -/
def applyOfferItemReject (productMap : String → Option Product) (item : Item) : Option Response :=
  match applyOfferItem productMap item with
  | .error r => some r
  | .ok _ => none

/-- The rejection the loop of `validateCart` gives for one item, if any. -/
def validateCartItemReject (productMap : String → Option Product) (item : Item) :
    Option Response :=
  match validateCartItem productMap item with
  | .error r => some r
  | .ok _ => none

/-- The rejection the loop of `syncCart` gives for one item, if any. -/
def syncCartItemReject (productMap : String → Option Product) (item : Item) : Option Response :=
  match syncCartItem productMap item with
  | .error r => some r
  | .ok _ => none

/-- A product table with a sized product `p1` (one unit of size S) and a list of three
items, the third of which asks two units of size S. -/
def verdictItems : List Item :=
  [⟨"p1", 1, 599, some "S"⟩, ⟨"p1", 2, 599, some "M"⟩, ⟨"p1", 2, 599, some "S"⟩,
   ⟨"p9", 1, 10, none⟩]

/-- A per-item check agrees with the verdict of the specification: it passes the items the
specification passes and rejects the others with a response of the kind of the verdict. -/
def AgreesWithVerdict (pm : String → Option Product) (check : Item → Option Response) : Prop :=
  ∀ item, match itemVerdict pm item with
    | none => check item = none
    | some k => ∃ r, check item = some r ∧ r.itemFailureKind = some k

/-- The scenario after `u1` has put 50 units of the product in the size `constructor` in
the cart through `addToCart`. -/
def inheritedState : State :=
  (addToCart demoEnv (some "u1") ⟨"p1", 50, 599, some "constructor"⟩ demoState).state

/-- A checkout of those 50 units, for 50 times 599. -/
def inheritedBody : CreateOrderBody :=
  { amount := 29950, currency := "INR", items := [⟨"p1", 50, 599, some "constructor"⟩]
    discount := none, offerCode := none, shippingDetails := demoShipping }

/-! ## Theorems -/

/-! ### C1: what a signature binds -/

theorem append_bar_inj (a a' b b' : List Char) (ha : '|' ∉ a) (ha' : '|' ∉ a')
    (h : a ++ '|' :: b = a' ++ '|' :: b') : a = a' ∧ b = b' := by
  induction a generalizing a' with
  | nil =>
    cases a' with
    | nil => simpa using h
    | cons c cs =>
      simp only [List.nil_append, List.cons_append, List.cons.injEq] at h
      exact absurd (by simp [← h.1]) ha'
  | cons x xs ih =>
    cases a' with
    | nil =>
      simp only [List.nil_append, List.cons_append, List.cons.injEq] at h
      exact absurd (by simp [h.1]) ha
    | cons c cs =>
      simp only [List.cons_append, List.cons.injEq] at h
      have hx : '|' ∉ xs := fun hm => ha (List.mem_cons_of_mem _ hm)
      have hc : '|' ∉ cs := fun hm => ha' (List.mem_cons_of_mem _ hm)
      obtain ⟨h1, h2⟩ := ih cs hx hc h.2
      exact ⟨by rw [h.1, h1], h2⟩

theorem signatureMessage_inj (o p o' p' : String) (ho : '|' ∉ o.data) (ho' : '|' ∉ o'.data)
    (h : signatureMessage o p = signatureMessage o' p') : o = o' ∧ p = p' := by
  have hd := congrArg String.data h
  simp only [signatureMessage, String.data_append] at hd
  rw [List.append_assoc, List.append_assoc] at hd
  obtain ⟨h1, h2⟩ := append_bar_inj o.data o'.data p.data p'.data ho ho' (by simpa using hd)
  exact ⟨String.ext h1, String.ext h2⟩

theorem signatureAccepted_iff (hmac : String → String) (o p sig : String) :
    signatureAccepted hmac o p sig = true ↔ hmac (signatureMessage o p) = sig := by
  simp [signatureAccepted, generatedSignature]

/-- C1 as stated fails: with a collision-free digest, the distinct pairs of non-empty ids
`("a|b", "c")` and `("a", "b|c")` give one message `a|b|c`, so one signature passes the
check of `verifyPayment` for both. -/
theorem C1_distinct_pairs_share_signature :
    ¬ (∀ (hmac : String → String), Function.Injective hmac →
        ∀ (orderId paymentId orderId' paymentId' signature : String),
          orderId ≠ "" → paymentId ≠ "" → orderId' ≠ "" → paymentId' ≠ "" →
          (orderId, paymentId) ≠ (orderId', paymentId') →
          signatureAccepted hmac orderId paymentId signature = true →
          signatureAccepted hmac orderId' paymentId' signature = false) := by
  intro h
  have := h id Function.injective_id "a|b" "c" "a" "b|c" "a|b|c"
    (by decide) (by decide) (by decide) (by decide) (by decide) (by decide)
  exact absurd this (by decide)

/-- C1, amended: when neither order id contains the bar character, a signature that the
check of `verifyPayment` accepts for one (orderId, paymentId) pair is rejected for every
other pair, the keyed digest being injective on messages. -/
theorem C1_signature_binds_pair (hmac : String → String) (hinj : Function.Injective hmac)
    (orderId paymentId orderId' paymentId' signature : String)
    (ho : '|' ∉ orderId.data) (ho' : '|' ∉ orderId'.data)
    (hne : (orderId, paymentId) ≠ (orderId', paymentId'))
    (hacc : signatureAccepted hmac orderId paymentId signature = true) :
    signatureAccepted hmac orderId' paymentId' signature = false := by
  by_contra hcon
  have hacc' : signatureAccepted hmac orderId' paymentId' signature = true := by
    simpa using hcon
  rw [signatureAccepted_iff] at hacc hacc'
  have hm := hinj (hacc.trans hacc'.symm)
  obtain ⟨h1, h2⟩ := signatureMessage_inj _ _ _ _ ho ho' hm
  exact hne (by rw [h1, h2])

/-- Witness of C1 amended: the signature of `("order_1", "pay_1")` is rejected for the
tampered pair `("order_1", "pay_2")`. -/
theorem C1_signature_binds_pair_witness :
    signatureAccepted id "order_1" "pay_1" "order_1|pay_1" = true ∧
    signatureAccepted id "order_1" "pay_2" "order_1|pay_1" = false :=
  ⟨by decide, C1_signature_binds_pair id Function.injective_id "order_1" "pay_1" "order_1"
    "pay_2" "order_1|pay_1" (by decide) (by decide) (by decide) (by decide)⟩

/-! ### C2, C3, C7, C8: evaluations of the handlers -/

/-- C2 fails on the code: in the state `createOrder` reaches on the scenario, a request to
the `confirmOrder` endpoint by the owner, carrying no signature at all and naming a payment
the gateway reports as `failed`, sets the order to `confirmed`; its only outside call is the
one to Shiprocket, the gateway is not queried. The same payment sent through `verifyPayment`
is refused. -/
theorem C2_confirm_endpoint_skips_payment_checks :
    orderStatus demoCreated "o1" = some "pending" ∧
    orderStatus (confirmOrder unpaidEnv (some "u1") ⟨"o1", "pay_forged"⟩ demoCreated).state "o1"
      = some "confirmed" ∧
    (confirmOrder unpaidEnv (some "u1") ⟨"o1", "pay_forged"⟩ demoCreated).effects
      = [.createShiprocketOrder (shiprocketData demoCreated.products "o1"
          (newOrder demoEnv "u1" demoBody "order_1" 20) demoShipping)] ∧
    (verifyPayment unpaidEnv (some "u1")
        ⟨"order_1", "pay_forged", "order_1|pay_forged", "o1"⟩ demoCreated).writes
      = [.paymentNotCaptured] := by
  refine ⟨by decide!, by decide!, by decide!, by decide!⟩

/-- C3 fails on the code: for a product stored at price 100 and an item submitted at price
100.0078125 (within the tolerance) with quantity 128, the per-item loop of `createOrder`
accepts the list and `calculatedTotal` is 12801, computed from the submitted price, while
the stored prices give 12800; a checkout for 12801 is accepted and one for 12800 would be
refused as a mismatch. -/
theorem C3_total_uses_submitted_price :
    (createOrderItems (productMapGet tamperState.products (tamperItems.map (fun i => i.productId)))
        tamperItems 0 []).toOption.map (fun r => toFixed2 r.1) = some 12801 ∧
    authoritativeTotal tamperState.products tamperItems = 12800 ∧
    (createOrder demoEnv (some "u1") tamperBody tamperState).writes
      = [.orderCreated "order_1" "o1" 12801 "INR"] ∧
    (createOrder demoEnv (some "u1") { tamperBody with amount := 12800 } tamperState).writes
      = [.amountMismatch 12801 0 12801 12800 [⟨"p1", "Tee", 100 + 1 / 128, 128, "default"⟩] none] := by
  refine ⟨by decide!, by decide!, by decide!, by decide!⟩

/-- C7 fails on the code in its last part: on the scenario `createOrder` succeeds and stores
the order with total 958.40, leaving 8 units in size M; the confirmation that follows the
verified payment takes the two units a second time, so the stock of size M is 6, not 8. -/
theorem C7_scenario_stock_after_confirmation :
    (createOrder demoEnv (some "u1") demoBody demoState).writes
      = [.orderCreated "order_1" "o1" (4792 / 5) "INR"] ∧
    (findOrder demoCreated.orders "o1").map (fun o => (o.totalAmount, o.status, o.discount))
      = some (4792 / 5, "pending", 20) ∧
    stockOf demoState "p1" "M" = some (some 10) ∧
    stockOf demoCreated "p1" "M" = some (some 8) ∧
    (verifyPayment demoEnv (some "u1") demoVerify demoCreated).response
      = some (.orderConfirmed "o1" (some "sr_1")) ∧
    orderStatus demoConfirmed "o1" = some "confirmed" ∧
    stockOf demoConfirmed "p1" "M" = some (some 6) := by
  refine ⟨by decide!, by decide!, by decide!, by decide!, by decide!, by decide!, by decide!⟩

/-- C8 fails on the code: the order of the scenario being already `confirmed`, a second
`confirmOrder` request by its owner succeeds, takes the stock of size M from 6 to 4 and
creates another Shiprocket order. -/
theorem C8_second_confirmation_succeeds :
    orderStatus demoConfirmed "o1" = some "confirmed" ∧
    (confirmOrder demoEnv (some "u1") ⟨"o1", "pay_1"⟩ demoConfirmed).writes
      = [.orderConfirmed "o1" (some "sr_1")] ∧
    stockOf demoConfirmed "p1" "M" = some (some 6) ∧
    stockOf (confirmOrder demoEnv (some "u1") ⟨"o1", "pay_1"⟩ demoConfirmed).state "p1" "M"
      = some (some 4) ∧
    (confirmOrder demoEnv (some "u1") ⟨"o1", "pay_1"⟩ demoConfirmed).effects.length = 1 ∧
    (∃ data, Effect.createShiprocketOrder data
      ∈ (confirmOrder demoEnv (some "u1") ⟨"o1", "pay_1"⟩ demoConfirmed).effects) := by
  refine ⟨by decide!, by decide!, by decide!, by decide!, by decide!, ?_⟩
  exact ⟨shiprocketData demoConfirmed.products "o1"
    ((findOrder demoConfirmed.orders "o1").getD (newOrder demoEnv "u1" demoBody "" 0))
    demoShipping, by decide!⟩

/-! ### C9, C10: early rejections of `verifyPayment` -/

/-- C9: a `verifyPayment` request whose body parses, with a matching signature and a payment
the gateway reports as captured, naming an order the caller owns whose status is not
`pending`, is answered 400 'Order already processed'; `confirmOrder` is not invoked (the only
outside calls are the payment fetches) and the database is unchanged. -/
theorem C9_non_pending_order_rejected (env : Env) (userId : String) (b : VerifyPaymentBody)
    (s : State) (order : Order)
    (hschema : verifyPaymentIssues b = [])
    (hauth : userId ≠ "")
    (hsig : b.signature = env.hmacSha256Hex (b.orderId ++ "|" ++ b.paymentId))
    (hcaptured : (withRetry (env.razorpayPaymentsFetch b.paymentId) defaultMaxRetries).result
      = .ok "captured")
    (horder : findOrder s.orders b.dbOrderId = some order)
    (howner : order.userId = userId)
    (hstatus : order.status ≠ "pending") :
    (verifyPayment env (some userId) b s).writes = [.orderAlreadyProcessed] ∧
    Response.status .orderAlreadyProcessed = 400 ∧
    (verifyPayment env (some userId) b s).state = s ∧
    (∀ e ∈ (verifyPayment env (some userId) b s).effects,
      e = Effect.razorpayPaymentsFetch b.paymentId) := by
  have hacc : signatureAccepted env.hmacSha256Hex b.orderId b.paymentId b.signature = true := by
    rw [signatureAccepted_iff, hsig]; rfl
  have hv : verifyPayment env (some userId) b s =
      ⟨[.orderAlreadyProcessed], s,
        List.replicate (withRetry (env.razorpayPaymentsFetch b.paymentId) defaultMaxRetries).calls
          (Effect.razorpayPaymentsFetch b.paymentId)⟩ := by
    simp [verifyPayment, hschema, truthy, hauth, hacc, hcaptured, horder, howner, hstatus]
  rw [hv]
  refine ⟨rfl, rfl, rfl, ?_⟩
  intro e he
  exact (List.mem_replicate.mp he).2

/-- Witness of C9: the order of the scenario once confirmed, its payment callback replayed. -/
theorem C9_non_pending_order_rejected_witness :
    (verifyPayment demoEnv (some "u1") demoVerify demoConfirmed).writes = [.orderAlreadyProcessed] ∧
    Response.status .orderAlreadyProcessed = 400 ∧
    (verifyPayment demoEnv (some "u1") demoVerify demoConfirmed).state = demoConfirmed ∧
    (∀ e ∈ (verifyPayment demoEnv (some "u1") demoVerify demoConfirmed).effects,
      e = Effect.razorpayPaymentsFetch demoVerify.paymentId) :=
  C9_non_pending_order_rejected demoEnv "u1" demoVerify demoConfirmed
    ((findOrder demoConfirmed.orders "o1").getD (newOrder demoEnv "u1" demoBody "" 0))
    (by decide!) (by decide!) (by decide!) rfl (by decide!) (by decide!) (by decide!)

/-- C10 as stated fails on the code: an authenticated request whose signature is not the
HMAC and whose body does not pass `verifyPaymentSchema` (here `dbOrderId` is empty, or the
signature itself is empty) is answered by the `catch` with status 500 and the schema
message, not with 400 'Invalid payment signature'. -/
theorem C10_unparsed_body_answered_500 :
    signatureAccepted demoEnv.hmacSha256Hex "order_1" "pay_1" "forged" = false ∧
    (verifyPayment demoEnv (some "u1")
      { demoVerify with signature := "forged", dbOrderId := "" } demoCreated).writes
      = [.serverError "Database order ID is required"] ∧
    signatureAccepted demoEnv.hmacSha256Hex "order_1" "pay_1" "" = false ∧
    (verifyPayment demoEnv (some "u1") { demoVerify with signature := "" } demoCreated).writes
      = [.serverError "Signature is required"] ∧
    Response.status (.serverError "Database order ID is required") = 500 ∧
    Response.serverError "Database order ID is required" ≠ .invalidSignature := by
  refine ⟨by decide!, by decide!, by decide!, by decide!, by decide!, by decide!⟩

/-- C10: an authenticated `verifyPayment` request whose body parses and whose signature
differs from the hex HMAC of `orderId|paymentId` is answered 400 'Invalid payment signature';
no outside call is made (the gateway is not queried) and the database is unchanged. -/
theorem C10_invalid_signature_rejected (env : Env) (userId : String) (b : VerifyPaymentBody)
    (s : State)
    (hschema : verifyPaymentIssues b = [])
    (hauth : userId ≠ "")
    (hsig : b.signature ≠ env.hmacSha256Hex (b.orderId ++ "|" ++ b.paymentId)) :
    (verifyPayment env (some userId) b s).writes = [.invalidSignature] ∧
    Response.status .invalidSignature = 400 ∧
    (verifyPayment env (some userId) b s).effects = [] ∧
    (verifyPayment env (some userId) b s).state = s := by
  have hacc : signatureAccepted env.hmacSha256Hex b.orderId b.paymentId b.signature = false := by
    rw [← Bool.not_eq_true, signatureAccepted_iff]
    exact fun h => hsig h.symm
  have hv : verifyPayment env (some userId) b s = ⟨[.invalidSignature], s, []⟩ := by
    simp [verifyPayment, hschema, truthy, hauth, hacc]
  rw [hv]
  exact ⟨rfl, rfl, rfl, rfl⟩

/-- Witness of C10: the callback of the scenario with a forged signature. -/
theorem C10_invalid_signature_rejected_witness :
    (verifyPayment demoEnv (some "u1") { demoVerify with signature := "forged" } demoCreated).writes
      = [.invalidSignature] ∧
    Response.status .invalidSignature = 400 ∧
    (verifyPayment demoEnv (some "u1") { demoVerify with signature := "forged" } demoCreated).effects
      = [] ∧
    (verifyPayment demoEnv (some "u1") { demoVerify with signature := "forged" } demoCreated).state
      = demoCreated :=
  C10_invalid_signature_rejected demoEnv "u1" { demoVerify with signature := "forged" } demoCreated
    (by decide!) (by decide!) (by decide!)

/-! ### C4: the price check of `createOrder` -/

theorem productMapGet_of_mem (products : List Product) (ids : List String) (id : String)
    (h : id ∈ ids) : productMapGet products ids id = findProduct products id := by
  simp [productMapGet, h]

theorem createOrderItems_cons (pm : String → Option Product) (item : Item) (rest : List Item)
    (total : ℚ) (details : List ItemDetail) :
    createOrderItems pm (item :: rest) total details =
      match itemFailure pm item with
      | some r => .error r
      | none =>
        match pm item.productId with
        | some product =>
          createOrderItems pm rest (total + item.price * item.quantity)
            (details ++ [⟨product.id, product.name, item.price, item.quantity, sizeKey item.size⟩])
        | none => .error (.productNotFound item.productId) := by
  cases hp : pm item.productId with
  | none => simp [createOrderItems, itemFailure, hp]
  | some product =>
    simp only [createOrderItems, itemFailure, hp]
    split_ifs <;> rfl

theorem createOrderItems_first_failure (pm : String → Option Product) (pre : List Item)
    (item : Item) (post : List Item) (r : Response)
    (hpre : ∀ i ∈ pre, itemFailure pm i = none) (hitem : itemFailure pm item = some r)
    (total : ℚ) (details : List ItemDetail) :
    createOrderItems pm (pre ++ item :: post) total details = .error r := by
  induction pre generalizing total details with
  | nil => rw [List.nil_append, createOrderItems_cons, hitem]
  | cons i rest ih =>
    have hi : itemFailure pm i = none := hpre i (List.mem_cons_self _ _)
    rw [List.cons_append, createOrderItems_cons, hi]
    cases hp : pm i.productId with
    | none => simp [itemFailure, hp] at hi
    | some product =>
      simp only
      exact ih (fun j hj => hpre j (List.mem_cons_of_mem _ hj)) _ _

/-- C4: a `createOrder` request that passes the schema, authentication and the cart check,
and whose first item failing a per-item check names a known product whose stored price is
more than 0.01 away from the submitted price, is answered 400 'Price mismatch' with the
stored price in it; no gateway call is made and the database (products, orders, redemption
rows) is unchanged. -/
theorem C4_price_mismatch_rejected (env : Env) (userId : String) (b : CreateOrderBody)
    (s : State) (pre : List Item) (item : Item) (post : List Item) (product : Product)
    (hschema : createOrderIssues env b = [])
    (hauth : userId ≠ "")
    (hcart : validateCartItems s userId b.items = true)
    (hitems : b.items = pre ++ item :: post)
    (hpre : ∀ i ∈ pre,
      itemFailure (productMapGet s.products (b.items.map (fun i => i.productId))) i = none)
    (hproduct : findProduct s.products item.productId = some product)
    (hprice : |item.price - product.price| > 1 / 100) :
    (createOrder env (some userId) b s).writes
      = [.priceMismatch product.name product.price item.price] ∧
    Response.status (.priceMismatch product.name product.price item.price) = 400 ∧
    (createOrder env (some userId) b s).effects = [] ∧
    (createOrder env (some userId) b s).state = s := by
  have hmem : item.productId ∈ b.items.map (fun i => i.productId) := by
    rw [hitems]; simp
  have hfail : itemFailure (productMapGet s.products (b.items.map (fun i => i.productId))) item
      = some (.priceMismatch product.name product.price item.price) := by
    unfold itemFailure
    rw [productMapGet_of_mem _ _ _ hmem, hproduct]
    exact if_pos hprice
  have hloop := createOrderItems_first_failure _ pre item post _ hpre hfail 0 []
  rw [← hitems] at hloop
  have hv : createOrder env (some userId) b s
      = ⟨[.priceMismatch product.name product.price item.price], s, []⟩ := by
    simp [createOrder, hschema, truthy, hauth, hcart, hloop]
  rw [hv]
  exact ⟨rfl, rfl, rfl, rfl⟩

/-- Witness of C4: the product is stored at 599, the cart and the request carry 499. -/
theorem C4_price_mismatch_rejected_witness :
    (createOrder demoEnv (some "u1") staleBody staleCartState).writes
      = [.priceMismatch "Tee" 599 499] ∧
    Response.status (.priceMismatch "Tee" 599 499) = 400 ∧
    (createOrder demoEnv (some "u1") staleBody staleCartState).effects = [] ∧
    (createOrder demoEnv (some "u1") staleBody staleCartState).state = staleCartState :=
  C4_price_mismatch_rejected demoEnv "u1" staleBody staleCartState [] ⟨"p1", 2, 499, some "M"⟩ []
    demoProduct (by decide!) (by decide!) (by decide!) (by decide!) (by decide!) (by decide!)
    (by decide!)

/-! ### Inversion of a successful `createOrder` -/

theorem itemFailure_not_success (pm : String → Option Product) (item : Item) (r : Response)
    (h : itemFailure pm item = some r) : r.success = false := by
  unfold itemFailure at h
  split at h
  · cases h; rfl
  · split_ifs at h <;> cases h <;> rfl

theorem createOrderItems_error_not_success (pm : String → Option Product) (items : List Item)
    (total : ℚ) (details : List ItemDetail) (r : Response)
    (h : createOrderItems pm items total details = .error r) : r.success = false := by
  induction items generalizing total details with
  | nil => simp [createOrderItems] at h
  | cons item rest ih =>
    rw [createOrderItems_cons] at h
    cases hf : itemFailure pm item with
    | some r' =>
      rw [hf] at h
      simp only [Except.error.injEq] at h
      exact h ▸ itemFailure_not_success pm item r' hf
    | none =>
      rw [hf] at h
      cases hp : pm item.productId with
      | none => simp [itemFailure, hp] at hf
      | some product =>
        rw [hp] at h
        exact ih _ _ h

theorem createOrderOffer_error_not_success (env : Env) (s : State) (userId : String)
    (offerCode : Option String) (discount : ℚ) (r : Response)
    (h : createOrderOffer env s userId offerCode discount = .error r) : r.success = false := by
  unfold createOrderOffer at h
  split_ifs at h
  · split at h
    · cases h; rfl
    · split_ifs at h <;> cases h <;> rfl
  · cases h; rfl

theorem createOrderCatch_not_success (e : String) : (createOrderCatch e).success = false := rfl

/-- Inversion of a successful `createOrder`: every check passed, the gateway order and the
transaction succeeded, and the result is the success path. -/
theorem createOrder_success (env : Env) (user : Option String) (b : CreateOrderBody) (s : State)
    (h : (createOrder env user b s).succeeded = true) :
    ∃ total details appliedDiscount razorpayOrderId s',
      createOrderIssues env b = [] ∧ truthy user = true ∧
      validateCartItems s (user.getD "") b.items = true ∧
      createOrderItems (productMapGet s.products (b.items.map (fun i => i.productId)))
        b.items 0 [] = .ok (total, details) ∧
      createOrderOffer env s (user.getD "") b.offerCode (b.discount.getD 0) = .ok appliedDiscount ∧
      ¬ |toFixed2 (toFixed2 total * (1 - appliedDiscount / 100)) - b.amount| > 1 / 100 ∧
      (withRetry env.razorpayOrdersCreate defaultMaxRetries).result = .ok razorpayOrderId ∧
      createOrderTx env s (user.getD "") b razorpayOrderId appliedDiscount = .ok s' ∧
      createOrder env user b s =
        ⟨[.orderCreated razorpayOrderId env.newOrderId b.amount b.currency], s',
          List.replicate (withRetry env.razorpayOrdersCreate defaultMaxRetries).calls
            (Effect.razorpayOrdersCreate (mathRound (b.amount * 100)) b.currency)⟩ := by
  by_cases h1 : createOrderIssues env b = []
  swap
  · simp [createOrder, h1, Result.succeeded, Result.response, Response.success] at h
  by_cases h2 : truthy user = true
  swap
  · simp [createOrder, h1, h2, Result.succeeded, Result.response, Response.success] at h
  by_cases h3 : validateCartItems s (user.getD "") b.items = true
  swap
  · simp [createOrder, h1, h2, h3, Result.succeeded, Result.response, Response.success] at h
  cases h4 : createOrderItems (productMapGet s.products (b.items.map (fun i => i.productId)))
      b.items 0 [] with
  | error r =>
    have := createOrderItems_error_not_success _ _ _ _ _ h4
    simp [createOrder, h1, h2, h3, h4, Result.succeeded, Result.response, this] at h
  | ok pr =>
    obtain ⟨total, details⟩ := pr
    cases h5 : createOrderOffer env s (user.getD "") b.offerCode (b.discount.getD 0) with
    | error r =>
      have := createOrderOffer_error_not_success _ _ _ _ _ _ h5
      simp [createOrder, h1, h2, h3, h4, h5, Result.succeeded, Result.response, this] at h
    | ok appliedDiscount =>
      by_cases h6 : |toFixed2 (toFixed2 total * (1 - appliedDiscount / 100)) - b.amount| > 1 / 100
      · simp only [createOrder, h1, h2, h3, h4, h5, if_pos h6, Result.succeeded, Result.response,
          Response.success] at h
        simp at h
      cases h7 : (withRetry env.razorpayOrdersCreate defaultMaxRetries).result with
      | error e =>
        simp only [createOrder, h1, h2, h3, h4, h5, if_neg h6, h7, Result.succeeded,
          Result.response] at h
        simp [createOrderCatch_not_success] at h
      | ok razorpayOrderId =>
        cases h8 : createOrderTx env s (user.getD "") b razorpayOrderId appliedDiscount with
        | error e =>
          simp only [createOrder, h1, h2, h3, h4, h5, if_neg h6, h7, h8, Result.succeeded,
            Result.response] at h
          simp [createOrderCatch_not_success] at h
        | ok s' =>
          refine ⟨total, details, appliedDiscount, razorpayOrderId, s', h1, h2, h3,
            by first | exact h4 | rfl, by first | exact h5 | rfl, h6,
            by first | exact h7 | rfl, h8, ?_⟩
          simp only [createOrder, h1, h2, h3, h4, h5, if_neg h6, h7, h8]
          simp

theorem createOrderTx_orders (env : Env) (s s' : State) (userId : String) (b : CreateOrderBody)
    (razorpayOrderId : String) (appliedDiscount : ℚ)
    (h : createOrderTx env s userId b razorpayOrderId appliedDiscount = .ok s') :
    findOrder s.orders env.newOrderId = none ∧
    s'.orders = s.orders ++ [newOrder env userId b razorpayOrderId appliedDiscount] ∧
    txStock s.products b.items = .ok s'.products ∧ s'.carts = s.carts := by
  unfold createOrderTx at h
  split at h
  · exact absurd h (by simp)
  · rename_i products' hp
    split_ifs at h with hf <;>
      (simp only [Except.ok.injEq] at h; subst h; exact ⟨by simpa using hf, rfl, hp, rfl⟩)

/-! ### C6: stock under sequences of `createOrder` -/

theorem lookup_stockSet (m : List (String × StockVal)) (k k' : String) (v : StockVal) :
    (stockSet m k v).lookup k' = if k' = k then some v else m.lookup k' := by
  induction m with
  | nil =>
    by_cases h : k' = k
    · subst h
      simp [stockSet, List.lookup]
    · have hb : (k' == k) = false := by simpa using h
      simp [stockSet, List.lookup, hb, h]
  | cons kv rest ih =>
    obtain ⟨a, w⟩ := kv
    by_cases ha : a = k
    · subst ha
      by_cases h : k' = a
      · subst h
        simp [stockSet, List.lookup]
      · have hb : (k' == a) = false := by simpa using h
        simp [stockSet, List.lookup, hb, h]
    · have hb : (a == k) = false := by simpa using ha
      simp only [stockSet, hb, Bool.false_eq_true, if_false]
      by_cases h' : k' = a
      · subst h'
        simp [List.lookup, ha]
      · have hb' : (k' == a) = false := by simpa using h'
        simp only [List.lookup, hb']
        exact ih

theorem mem_stockSet (m : List (String × StockVal)) (k : String) (v : StockVal)
    (kv : String × StockVal) (h : kv ∈ stockSet m k v) : kv ∈ m ∨ kv.2 = v := by
  induction m with
  | nil =>
    simp only [stockSet, List.mem_singleton] at h
    exact Or.inr (by rw [h])
  | cons e rest ih =>
    obtain ⟨a, w⟩ := e
    simp only [stockSet] at h
    split_ifs at h
    · rcases List.mem_cons.mp h with h1 | h1
      · exact Or.inr (by rw [h1])
      · exact Or.inl (List.mem_cons_of_mem _ h1)
    · rcases List.mem_cons.mp h with h1 | h1
      · exact Or.inl (by rw [h1]; exact List.mem_cons_self _ _)
      · rcases ih h1 with h2 | h2
        · exact Or.inl (List.mem_cons_of_mem _ h2)
        · exact Or.inr h2

theorem findProduct_cons_pos (q : Product) (rest : List Product) (id : String)
    (h : q.id = id) : findProduct (q :: rest) id = some q := by
  unfold findProduct
  exact List.find?_cons_of_pos _ (by simpa using h)

theorem findProduct_cons_neg (q : Product) (rest : List Product) (id : String)
    (h : ¬ q.id = id) : findProduct (q :: rest) id = findProduct rest id := by
  unfold findProduct
  exact List.find?_cons_of_neg _ (by simpa using h)

theorem updateProduct_found (products : List Product) (id : String) (p0 : Product)
    (data : Product → Product) (hdata : ∀ p, (data p).id = p.id)
    (hfind : findProduct products id = some p0) :
    ∃ products', updateProduct products (fun p => p.id == id && p.version == p0.version) data
        = some products' ∧
      (∀ id', findProduct products' id'
        = if id' = id then some (data p0) else findProduct products id') ∧
      (∀ p ∈ products', p ∈ products ∨ p = data p0) := by
  induction products with
  | nil => simp [findProduct] at hfind
  | cons q rest ih =>
    by_cases hq : q.id = id
    · have hq0 : q = p0 := by
        rw [findProduct_cons_pos q rest id hq] at hfind
        exact Option.some.inj hfind
      subst hq0
      refine ⟨data q :: rest, by simp [updateProduct, hq], ?_, ?_⟩
      · intro id'
        by_cases h' : id' = id
        · rw [if_pos h', findProduct_cons_pos _ _ _ (by rw [hdata, hq, h'])]
        · have hne : ¬ q.id = id' := fun h => h' (h.symm.trans hq)
          rw [if_neg h', findProduct_cons_neg _ _ _ (by rw [hdata]; exact hne),
            findProduct_cons_neg _ _ _ hne]
      · intro p hp
        rcases List.mem_cons.mp hp with h1 | h1
        · exact Or.inr h1
        · exact Or.inl (List.mem_cons_of_mem _ h1)
    · have hfind' : findProduct rest id = some p0 := by
        rw [findProduct_cons_neg q rest id hq] at hfind
        exact hfind
      obtain ⟨rest', hup, hf, hm⟩ := ih hfind'
      refine ⟨q :: rest', by simp [updateProduct, hq, hup], ?_, ?_⟩
      · intro id'
        by_cases hq' : q.id = id'
        · have h' : ¬ id' = id := fun h => hq (hq'.trans h)
          rw [if_neg h', findProduct_cons_pos _ _ _ hq', findProduct_cons_pos _ _ _ hq']
        · rw [findProduct_cons_neg _ _ _ hq', findProduct_cons_neg _ _ _ hq']
          exact hf id'
      · intro p hp
        rcases List.mem_cons.mp hp with h1 | h1
        · exact Or.inl (by rw [h1]; exact List.mem_cons_self _ _)
        · rcases hm p h1 with h2 | h2
          · exact Or.inl (List.mem_cons_of_mem _ h2)
          · exact Or.inr h2

theorem stockSound_iff (products : List Product) :
    stockSound products = true ↔
      ∀ p ∈ products, ∀ kv ∈ p.stockBySize.getD [], ∃ n : ℤ, kv.2 = some n ∧ 0 ≤ n := by
  unfold stockSound
  simp only [List.all_eq_true]
  constructor
  · intro h p hp kv hkv
    have := h p hp kv hkv
    cases hv : kv.2 with
    | none => simp [hv] at this
    | some n => exact ⟨n, rfl, by simpa [hv] using this⟩
  · intro h p hp kv hkv
    obtain ⟨n, hn, h0⟩ := h p hp kv hkv
    simp [hn, h0]

theorem stockEntry_getD (m : Option (List (String × StockVal))) (size : String) :
    (m.getD []).lookup size = stockEntry m size := by
  cases m <;> simp [stockEntry, List.lookup]

theorem stockIn_some_find (products : List Product) (pid size : String) (v : StockVal)
    (h : stockIn products pid size = some v) :
    ∃ p0, findProduct products pid = some p0 ∧ stockEntry p0.stockBySize size = some v := by
  unfold stockIn at h
  cases hf : findProduct products pid with
  | none => simp [hf] at h
  | some p0 => exact ⟨p0, rfl, by simpa [hf] using h⟩

/-- An own numeric entry is what the property read returns. -/
theorem stockLookup_of_entry (m : Option (List (String × StockVal))) (size : String) (n : ℤ)
    (h : stockEntry m size = some (some n)) : stockLookup m size = .number n := by
  simp [stockLookup, h]

/-- On an own property the assignment overwrites the entry. -/
theorem stockAssign_of_entry (m : Option (List (String × StockVal))) (size : String)
    (w v : StockVal) (h : stockEntry m size = some w) :
    stockAssign (m.getD []) size v = stockSet (m.getD []) size v := by
  unfold stockAssign
  rw [stockEntry_getD, h]
  simp

/-- One stock write of the transaction, the entry it reads being a number `n`: the write
happens only when `n` covers the quantity, it lowers exactly that entry by the quantity, and
it keeps every stock value a non-negative number. -/
theorem txStockStep_ok (ps ps' : List Product) (item : Item) (n : ℤ)
    (hdef : stockIn ps item.productId (sizeKey item.size) = some (some n))
    (h : txStockStep ps item = .ok ps') :
    ¬ n < item.quantity ∧
    (∀ pid size, stockIn ps' pid size =
      if pid = item.productId ∧ size = sizeKey item.size then some (some (n - item.quantity))
      else stockIn ps pid size) ∧
    (stockSound ps = true → stockSound ps' = true) := by
  obtain ⟨p0, hfind, hlook⟩ := stockIn_some_find _ _ _ _ hdef
  unfold txStockStep at h
  rw [hfind] at h
  simp only [stockLookup_of_entry _ _ _ hlook, stockAssign_of_entry _ _ _ _ hlook, stockLess,
    stockSub] at h
  by_cases hlt : n < item.quantity
  · simp [hlt] at h
  have hd : decide (n < item.quantity) = false := by simpa using hlt
  rw [hd] at h
  simp only [Bool.false_eq_true, if_false] at h
  obtain ⟨ps'', hup, hf, hm⟩ := updateProduct_found ps item.productId p0
    (fun p => { p with
      stockBySize := some (stockSet (p0.stockBySize.getD []) (sizeKey item.size)
        (some (n - item.quantity)))
      version := p.version + 1 }) (fun _ => rfl) hfind
  rw [hup] at h
  simp only [Except.ok.injEq] at h
  subst h
  refine ⟨hlt, ?_, ?_⟩
  · intro pid size
    unfold stockIn
    rw [hf pid]
    by_cases hp : pid = item.productId
    · subst hp
      simp only [if_true, true_and, hfind]
      simp only [stockEntry]
      rw [lookup_stockSet, stockEntry_getD]
      simp only [stockEntry]
    · simp [hp]
  · intro hs
    rw [stockSound_iff] at hs ⊢
    intro p hp kv hkv
    rcases hm p hp with h1 | h1
    · exact hs p h1 kv hkv
    · subst h1
      simp only [Option.getD_some] at hkv
      rcases mem_stockSet _ _ _ _ hkv with h2 | h2
      · have hp0 : p0 ∈ ps := List.mem_of_find?_eq_some hfind
        exact hs p0 hp0 kv h2
      · exact ⟨n - item.quantity, h2, by omega⟩

theorem orderedQuantity_cons (pid size : String) (item : Item) (rest : List Item) :
    orderedQuantity pid size (item :: rest) =
      (if pid = item.productId ∧ size = sizeKey item.size then item.quantity else 0)
        + orderedQuantity pid size rest := by
  unfold orderedQuantity
  by_cases h : pid = item.productId ∧ size = sizeKey item.size
  · obtain ⟨h1, h2⟩ := h
    subst h1 h2
    simp [List.filter_cons]
  · have hb : (item.productId == pid && sizeKey item.size == size) = false := by
      rw [Bool.and_eq_false_iff]
      by_cases h1 : pid = item.productId
      · right
        have h2 : ¬ size = sizeKey item.size := fun h2 => h ⟨h1, h2⟩
        simpa using fun h3 => h2 h3.symm
      · left
        simpa using fun h3 => h1 h3.symm
    rw [List.filter_cons, hb, if_neg h]
    simp

/-- One stock write of the transaction seen from any numeric entry: the entry of the item's
product and size is lowered by the quantity, which it covers; every other numeric entry is
left as it is, whatever the item's own read found. -/
theorem txStockStep_entry (ps ps' : List Product) (item : Item)
    (h : txStockStep ps item = .ok ps') (pid size : String) (n : ℤ)
    (hn : stockIn ps pid size = some (some n)) :
    stockIn ps' pid size = some (some (n -
      (if pid = item.productId ∧ size = sizeKey item.size then item.quantity else 0))) ∧
    (pid = item.productId ∧ size = sizeKey item.size → ¬ n < item.quantity) := by
  by_cases hc : pid = item.productId ∧ size = sizeKey item.size
  · obtain ⟨h1, h2⟩ := hc
    subst h1 h2
    obtain ⟨hlt, hst, -⟩ := txStockStep_ok ps ps' item n hn h
    refine ⟨?_, fun _ => hlt⟩
    rw [hst]
    simp
  · refine ⟨?_, fun h' => absurd h' hc⟩
    rw [if_neg hc, sub_zero, ← hn]
    unfold txStockStep at h
    cases hfind : findProduct ps item.productId with
    | none => simp [hfind] at h
    | some p0 =>
      rw [hfind] at h
      simp only at h
      split_ifs at h
      obtain ⟨ps'', hup, hf, -⟩ := updateProduct_found ps item.productId p0
        (fun p => { p with
          stockBySize := some (stockAssign (p0.stockBySize.getD []) (sizeKey item.size)
            (stockSub (stockLookup p0.stockBySize (sizeKey item.size)) item.quantity))
          version := p.version + 1 }) (fun _ => rfl) hfind
      rw [hup] at h
      simp only [Except.ok.injEq] at h
      subst h
      unfold stockIn
      rw [hf pid]
      by_cases hp : pid = item.productId
      · have hs : ¬ size = sizeKey item.size := fun hs => hc ⟨hp, hs⟩
        subst hp
        simp only [if_true, hfind]
        rw [← stockEntry_getD p0.stockBySize size]
        show List.lookup size (stockAssign (p0.stockBySize.getD []) (sizeKey item.size) _) = _
        unfold stockAssign
        split_ifs
        · rfl
        · rw [lookup_stockSet, if_neg hs]
      · simp [hp]

/-- The stock loop of the transaction seen from a numeric entry that is not negative: the
entry is lowered by the quantity the items order of it and stays non-negative. -/
theorem txStock_entry (items : List Item) (ps ps' : List Product)
    (h : txStock ps items = .ok ps') (pid size : String) (n : ℤ)
    (hn : stockIn ps pid size = some (some n)) (h0 : 0 ≤ n) :
    stockIn ps' pid size = some (some (n - orderedQuantity pid size items)) ∧
    0 ≤ n - orderedQuantity pid size items := by
  induction items generalizing ps n with
  | nil =>
    simp only [txStock, Except.ok.injEq] at h
    subst h
    simp [orderedQuantity, hn, h0]
  | cons item rest ih =>
    cases hstep : txStockStep ps item with
    | error e => simp [txStock, hstep] at h
    | ok ps1 =>
      simp only [txStock, hstep] at h
      obtain ⟨hst, hcov⟩ := txStockStep_entry ps ps1 item hstep pid size n hn
      rw [orderedQuantity_cons]
      by_cases hc : pid = item.productId ∧ size = sizeKey item.size
      · have hlt := hcov hc
        rw [if_pos hc] at hst ⊢
        obtain ⟨r1, r2⟩ := ih ps1 h (n - item.quantity) hst (by omega)
        refine ⟨?_, by omega⟩
        rw [r1]
        congr 2
        omega
      · rw [if_neg hc] at hst ⊢
        rw [sub_zero] at hst
        obtain ⟨r1, r2⟩ := ih ps1 h n hst h0
        refine ⟨?_, by omega⟩
        rw [r1]
        congr 2
        omega

/-- A `createOrder` that does not answer success leaves the database as it was. -/
theorem createOrder_failure_state (env : Env) (user : Option String) (b : CreateOrderBody)
    (s : State) (h : (createOrder env user b s).succeeded = false) :
    (createOrder env user b s).state = s := by
  by_cases h1 : createOrderIssues env b = []
  swap
  · simp [createOrder, h1]
  by_cases h2 : truthy user = true
  swap
  · simp [createOrder, h1, h2]
  by_cases h3 : validateCartItems s (user.getD "") b.items = true
  swap
  · simp [createOrder, h1, h2, h3]
  cases h4 : createOrderItems (productMapGet s.products (b.items.map (fun i => i.productId)))
      b.items 0 [] with
  | error r => simp [createOrder, h1, h2, h3, h4]
  | ok pr =>
    obtain ⟨total, details⟩ := pr
    cases h5 : createOrderOffer env s (user.getD "") b.offerCode (b.discount.getD 0) with
    | error r => simp [createOrder, h1, h2, h3, h4, h5]
    | ok appliedDiscount =>
      by_cases h6 : |toFixed2 (toFixed2 total * (1 - appliedDiscount / 100)) - b.amount| > 1 / 100
      · simp only [createOrder, h1, h2, h3, h4, h5, if_pos h6]
        simp
      cases h7 : (withRetry env.razorpayOrdersCreate defaultMaxRetries).result with
      | error e =>
        simp only [createOrder, h1, h2, h3, h4, h5, if_neg h6, h7]
        simp
      | ok razorpayOrderId =>
        cases h8 : createOrderTx env s (user.getD "") b razorpayOrderId appliedDiscount with
        | error e =>
          simp only [createOrder, h1, h2, h3, h4, h5, if_neg h6, h7, h8]
          simp
        | ok s' =>
          simp only [createOrder, h1, h2, h3, h4, h5, if_neg h6, h7, h8, Result.succeeded,
            Result.response] at h
          simp [Response.success] at h

/-- What one `createOrder` call does to a stock entry that is a non-negative number `n`:
the entry is `n` less the quantity the call ordered of it when the call succeeded, and is
`n` otherwise; it is not negative. -/
theorem createOrder_stock (c : Call) (s : State) (pid size : String) (n : ℤ)
    (hn : stockOf s pid size = some (some n)) (h0 : 0 ≤ n) :
    stockOf (createOrder c.env c.user c.body s).state pid size
      = some (some (n - (if (createOrder c.env c.user c.body s).succeeded
          then orderedQuantity pid size c.body.items else 0))) ∧
    0 ≤ n - (if (createOrder c.env c.user c.body s).succeeded
          then orderedQuantity pid size c.body.items else 0) := by
  cases hsucc : (createOrder c.env c.user c.body s).succeeded with
  | false =>
    rw [createOrder_failure_state _ _ _ _ hsucc]
    simp [hn, h0]
  | true =>
    obtain ⟨total, details, d, oid, s', -, -, -, -, -, -, -, h8, hres⟩ :=
      createOrder_success c.env c.user c.body s hsucc
    obtain ⟨-, -, htx, -⟩ := createOrderTx_orders _ _ _ _ _ _ _ h8
    have hstate : (createOrder c.env c.user c.body s).state = s' := by rw [hres]
    rw [hstate]
    simpa [stockOf] using txStock_entry _ _ _ htx pid size n hn h0

/-- Along any sequence of `createOrder` calls run one after another, a stock entry that
starts as a non-negative number `S` is never oversold: the quantities ordered of it by the
calls that succeeded sum to at most `S`, and the entry holds `S` less that sum. -/
theorem stock_entry_never_oversold (s0 : State) (calls : List Call) (productId size : String)
    (S : ℤ) (hS : stockOf s0 productId size = some (some S)) (h0 : 0 ≤ S) :
    committedQuantity productId size s0 calls ≤ S ∧
    stockOf (runCreateOrders s0 calls) productId size
      = some (some (S - committedQuantity productId size s0 calls)) := by
  induction calls generalizing s0 S with
  | nil =>
    simp [committedQuantity, runCreateOrders, hS, h0]
  | cons c rest ih =>
    obtain ⟨hst, hnn⟩ := createOrder_stock c s0 productId size S hS h0
    obtain ⟨i1, i2⟩ := ih (createOrder c.env c.user c.body s0).state _ hst hnn
    simp only [committedQuantity, runCreateOrders]
    refine ⟨by omega, ?_⟩
    rw [i2]
    congr 2
    omega

/-- C6 fails on the code for a size that names a property every object inherits. The stock
check reads `stockBySize["constructor"]`, finds the function `Object` (truthy, never less
than a quantity) and lets the item pass: on the scenario, whose product holds 20 units in
three sizes and no entry `constructor`, `addToCart` accepts 50 units of that size and
`createOrder` creates the order, so 50 units are committed against no stock, and the
transaction stores `null` (the `NaN` of `Object - 50`) as a stock value. -/
theorem C6_inherited_name_is_oversold :
    stockSound demoState.products = true ∧
    stockOf demoState "p1" "constructor" = none ∧
    totalStock (demoProduct.stockBySize.getD []) = 20 ∧
    (addToCart demoEnv (some "u1") ⟨"p1", 50, 599, some "constructor"⟩ demoState).writes
      = [.itemAdded] ∧
    (createOrder demoEnv (some "u1") inheritedBody inheritedState).writes
      = [.orderCreated "order_1" "o1" 29950 "INR"] ∧
    committedQuantity "p1" "constructor" inheritedState
      [⟨demoEnv, some "u1", inheritedBody⟩] = 50 ∧
    stockOf (runCreateOrders inheritedState [⟨demoEnv, some "u1", inheritedBody⟩])
      "p1" "constructor" = some none ∧
    stockSound (runCreateOrders inheritedState [⟨demoEnv, some "u1", inheritedBody⟩]).products
      = false := by
  refine ⟨by decide!, by decide!, by decide!, by decide!, by decide!, by decide!, by decide!,
    by decide!⟩

/-! ### C11, C12: payment status and ownership -/

/-- C11 as stated fails on the code: a request with a matching signature for a payment the
gateway reports as `failed`, whose body does not pass `verifyPaymentSchema` (`dbOrderId` is
empty), is answered 500 with the schema message before the gateway is asked, not 400
'Payment not captured'. -/
theorem C11_unparsed_body_answered_500 :
    signatureAccepted unpaidEnv.hmacSha256Hex "order_1" "pay_1" demoVerify.signature = true ∧
    (withRetry (unpaidEnv.razorpayPaymentsFetch "pay_1") defaultMaxRetries).result
      = .ok "failed" ∧
    (verifyPayment unpaidEnv (some "u1") { demoVerify with dbOrderId := "" } demoCreated).writes
      = [.serverError "Database order ID is required"] ∧
    (verifyPayment unpaidEnv (some "u1") { demoVerify with dbOrderId := "" } demoCreated).effects
      = [] ∧
    Response.status (.serverError "Database order ID is required") = 500 ∧
    Response.serverError "Database order ID is required" ≠ .paymentNotCaptured := by
  refine ⟨by decide!, by decide!, by decide!, by decide!, by decide!, by decide!⟩

/-- C11: a `verifyPayment` request whose body parses, by an authenticated caller, with a
matching signature, for which the gateway returns a status other than `captured`, is
answered 400 'Payment not captured' and the database (order status, stock) is unchanged. -/
theorem C11_payment_not_captured (env : Env) (userId : String) (b : VerifyPaymentBody)
    (s : State) (status : String)
    (hschema : verifyPaymentIssues b = [])
    (hauth : userId ≠ "")
    (hsig : b.signature = env.hmacSha256Hex (b.orderId ++ "|" ++ b.paymentId))
    (hstatus : (withRetry (env.razorpayPaymentsFetch b.paymentId) defaultMaxRetries).result
      = .ok status)
    (hne : status ≠ "captured") :
    (verifyPayment env (some userId) b s).writes = [.paymentNotCaptured] ∧
    Response.status .paymentNotCaptured = 400 ∧
    (verifyPayment env (some userId) b s).state = s := by
  have hacc : signatureAccepted env.hmacSha256Hex b.orderId b.paymentId b.signature = true := by
    rw [signatureAccepted_iff, hsig]; rfl
  have hv : verifyPayment env (some userId) b s =
      ⟨[.paymentNotCaptured], s,
        List.replicate (withRetry (env.razorpayPaymentsFetch b.paymentId) defaultMaxRetries).calls
          (Effect.razorpayPaymentsFetch b.paymentId)⟩ := by
    simp [verifyPayment, hschema, truthy, hauth, hacc, hstatus, hne]
  rw [hv]
  exact ⟨rfl, rfl, rfl⟩

/-- Witness of C11: the callback of the scenario when the gateway reports `failed`. -/
theorem C11_payment_not_captured_witness :
    (verifyPayment unpaidEnv (some "u1") demoVerify demoCreated).writes = [.paymentNotCaptured] ∧
    Response.status .paymentNotCaptured = 400 ∧
    (verifyPayment unpaidEnv (some "u1") demoVerify demoCreated).state = demoCreated :=
  C11_payment_not_captured unpaidEnv "u1" demoVerify demoCreated "failed"
    (by decide!) (by decide!) (by decide!) (by decide!) (by decide!)

/-- C12 as stated fails on the code: user `u2` names the order `o1` of `u1` in a
`confirmOrder` request whose body does not pass `confirmOrderSchema` (`paymentId` is empty);
the `catch` answers 500 with the schema issues, not 403. -/
theorem C12_unparsed_body_answered_500 :
    (findOrder demoCreated.orders "o1").map (fun o => o.userId) = some "u1" ∧
    (confirmOrder demoEnv (some "u2") ⟨"o1", ""⟩ demoCreated).writes
      = [.zodIssues ["Payment ID is required"]] ∧
    Response.status (.zodIssues ["Payment ID is required"]) = 500 ∧
    (confirmOrder demoEnv (some "u2") ⟨"o1", ""⟩ demoCreated).state = demoCreated := by
  refine ⟨by decide!, by decide!, by decide!, by decide!⟩

/-- C12: a `confirmOrder` request, and a `verifyPayment` request with a valid signature and
a captured payment, whose body parses and which names an existing order of another user
than the authenticated caller, is answered with status 403 and the database (orders, stock,
carts) is unchanged. -/
theorem C12_foreign_order_forbidden (env : Env) (userId : String) (s : State) (order : Order)
    (dbOrderId : String)
    (hauth : userId ≠ "")
    (horder : findOrder s.orders dbOrderId = some order)
    (hother : order.userId ≠ userId) :
    (∀ b : ConfirmOrderBody, b.dbOrderId = dbOrderId → confirmOrderIssues b = [] →
      (confirmOrder env (some userId) b s).writes = [.notAuthorizedConfirm] ∧
      Response.status .notAuthorizedConfirm = 403 ∧
      (confirmOrder env (some userId) b s).state = s) ∧
    (∀ b : VerifyPaymentBody, b.dbOrderId = dbOrderId → verifyPaymentIssues b = [] →
      b.signature = env.hmacSha256Hex (b.orderId ++ "|" ++ b.paymentId) →
      (withRetry (env.razorpayPaymentsFetch b.paymentId) defaultMaxRetries).result
        = .ok "captured" →
      (verifyPayment env (some userId) b s).writes = [.notAuthorizedVerify] ∧
      Response.status .notAuthorizedVerify = 403 ∧
      (verifyPayment env (some userId) b s).state = s) := by
  constructor
  · intro b hb hschema
    subst hb
    have hv : confirmOrder env (some userId) b s = ⟨[.notAuthorizedConfirm], s, []⟩ := by
      simp [confirmOrder, hschema, truthy, hauth, horder, hother]
    rw [hv]
    exact ⟨rfl, rfl, rfl⟩
  · intro b hb hschema hsig hcap
    subst hb
    have hacc : signatureAccepted env.hmacSha256Hex b.orderId b.paymentId b.signature = true := by
      rw [signatureAccepted_iff, hsig]; rfl
    have hv : verifyPayment env (some userId) b s =
        ⟨[.notAuthorizedVerify], s,
          List.replicate (withRetry (env.razorpayPaymentsFetch b.paymentId) defaultMaxRetries).calls
            (Effect.razorpayPaymentsFetch b.paymentId)⟩ := by
      simp [verifyPayment, hschema, truthy, hauth, hacc, hcap, horder, hother]
    rw [hv]
    exact ⟨rfl, rfl, rfl⟩

/-- Witness of C12: user `u2` names the order of `u1`, at both endpoints. -/
theorem C12_foreign_order_forbidden_witness :
    ((confirmOrder demoEnv (some "u2") ⟨"o1", "pay_1"⟩ demoCreated).writes
        = [.notAuthorizedConfirm] ∧
      Response.status .notAuthorizedConfirm = 403 ∧
      (confirmOrder demoEnv (some "u2") ⟨"o1", "pay_1"⟩ demoCreated).state = demoCreated) ∧
    ((verifyPayment demoEnv (some "u2") demoVerify demoCreated).writes = [.notAuthorizedVerify] ∧
      Response.status .notAuthorizedVerify = 403 ∧
      (verifyPayment demoEnv (some "u2") demoVerify demoCreated).state = demoCreated) :=
  ⟨(C12_foreign_order_forbidden demoEnv "u2" demoCreated
      (newOrder demoEnv "u1" demoBody "order_1" 20) "o1"
      (by decide!) (by decide!) (by decide!)).1 ⟨"o1", "pay_1"⟩ rfl (by decide!),
   (C12_foreign_order_forbidden demoEnv "u2" demoCreated
      (newOrder demoEnv "u1" demoBody "order_1" 20) "o1"
      (by decide!) (by decide!) (by decide!)).2 demoVerify rfl (by decide!) (by decide!)
      (by decide!)⟩

/-! ### C15: a failed `createOrder` writes nothing -/

/-- C15: a `createOrder` request that is not answered with success leaves the database as
it was (stock and version of every product, orders with their items, redemption rows); and a
request that reaches the redemption check with an offer code the caller has a `UserOfferCode`
row for is answered 'This offer code has already been used', nothing being called or
written. -/
theorem C15_failed_order_changes_nothing (env : Env) (user : Option String)
    (b : CreateOrderBody) (s : State) :
    ((createOrder env user b s).succeeded = false → (createOrder env user b s).state = s) ∧
    (∀ (offer : OfferCode) (r : ℚ × List ItemDetail),
      createOrderIssues env b = [] → truthy user = true →
      validateCartItems s (user.getD "") b.items = true →
      createOrderItems (productMapGet s.products (b.items.map (fun i => i.productId)))
        b.items 0 [] = .ok r →
      truthy b.offerCode = true →
      findOfferCode s.offerCodes (b.offerCode.getD "").toUpper = some offer →
      (∀ d, offer.expiryDate = some d → ¬ d < env.now) →
      (⟨user.getD "", offer.id⟩ : UserOfferCode) ∈ s.userOfferCodes →
      (createOrder env user b s).writes = [.offerAlreadyUsed] ∧
      (createOrder env user b s).state = s ∧
      (createOrder env user b s).effects = []) := by
  refine ⟨createOrder_failure_state env user b s, ?_⟩
  intro offer r h1 h2 h3 h4 h5 h6 h7 h8
  have hused : s.userOfferCodes.any
      (fun r => r.userId == user.getD "" && r.offerCodeId == offer.id) = true := by
    rw [List.any_eq_true]
    exact ⟨_, h8, by simp⟩
  have hoffer : createOrderOffer env s (user.getD "") b.offerCode (b.discount.getD 0)
      = .error .offerAlreadyUsed := by
    unfold createOrderOffer
    rw [if_pos h5, h6]
    cases hd : offer.expiryDate with
    | none => simp [hd, hused]
    | some d =>
      have hlt := h7 d hd
      simp [hd, hlt, hused]
  obtain ⟨total, details⟩ := r
  have hv : createOrder env user b s = ⟨[.offerAlreadyUsed], s, []⟩ := by
    simp only [createOrder, h1, h2, h3, h4, hoffer]
    simp
  rw [hv]
  exact ⟨rfl, rfl, rfl⟩

/-- Witness of C15: the scenario with FIRST20 already redeemed by `u1`. -/
theorem C15_failed_order_changes_nothing_witness :
    (createOrder demoEnv (some "u1") demoBody
        { demoState with userOfferCodes := [⟨"u1", "oc1"⟩] }).state
      = { demoState with userOfferCodes := [⟨"u1", "oc1"⟩] } ∧
    ((createOrder demoEnv (some "u1") demoBody
        { demoState with userOfferCodes := [⟨"u1", "oc1"⟩] }).writes = [.offerAlreadyUsed] ∧
      (createOrder demoEnv (some "u1") demoBody
        { demoState with userOfferCodes := [⟨"u1", "oc1"⟩] }).state
        = { demoState with userOfferCodes := [⟨"u1", "oc1"⟩] } ∧
      (createOrder demoEnv (some "u1") demoBody
        { demoState with userOfferCodes := [⟨"u1", "oc1"⟩] }).effects = []) :=
  ⟨(C15_failed_order_changes_nothing demoEnv (some "u1") demoBody
      { demoState with userOfferCodes := [⟨"u1", "oc1"⟩] }).1 (by decide!),
   (C15_failed_order_changes_nothing demoEnv (some "u1") demoBody
      { demoState with userOfferCodes := [⟨"u1", "oc1"⟩] }).2 demoOffer
      (1198, [⟨"p1", "Tee", 599, 2, "M"⟩])
      (by decide!) (by decide!) (by decide!) (by decide!) (by decide!) (by decide!)
      (by intro d hd; cases hd; decide) (by decide!)⟩

/-! ### C17: a failed shipping call -/

/-- C17: when `confirmOrder` calls `createShiprocketOrder` and the call fails, the handler
answers 500 with the message of the error and the database (the order, every product, the
carts) is unchanged. -/
theorem C17_shipping_failure_changes_nothing (env : Env) (user : Option String)
    (b : ConfirmOrderBody) (s : State) (data : ShiprocketData) (e : String)
    (hcall : Effect.createShiprocketOrder data ∈ (confirmOrder env user b s).effects)
    (hfail : env.createShiprocketOrder data = .error e) :
    (confirmOrder env user b s).writes = [confirmOrderCatch e] ∧
    (confirmOrderCatch e).status = 500 ∧
    (confirmOrder env user b s).succeeded = false ∧
    (confirmOrder env user b s).state = s := by
  by_cases h1 : confirmOrderIssues b = []
  swap
  · simp [confirmOrder, h1] at hcall
  by_cases h2 : truthy user = true
  swap
  · simp [confirmOrder, h1, h2] at hcall
  cases h3 : findOrder s.orders b.dbOrderId with
  | none => simp [confirmOrder, h1, h2, h3] at hcall
  | some order =>
    by_cases h4 : order.userId = user.getD ""
    swap
    · simp [confirmOrder, h1, h2, h3, h4] at hcall
    cases h5 : order.shippingDetails with
    | none => simp [confirmOrder, h1, h2, h3, h4, h5] at hcall
    | some details =>
      by_cases h6 : shippingDetailsValid details = true
      swap
      · simp [confirmOrder, h1, h2, h3, h4, h5, h6] at hcall
      cases h7 : confirmOrderItems s.products order.orderItems [] with
      | error r => simp [confirmOrder, h1, h2, h3, h4, h5, h6, h7] at hcall
      | ok stockUpdates =>
        by_cases h8 : order.orderItems.length = 0
        · simp [confirmOrder, h1, h2, h3, h4, h5, h6, h7, h8] at hcall
        cases h9 : env.createShiprocketOrder
            (shiprocketData s.products b.dbOrderId order details) with
        | error e' =>
          have hv : confirmOrder env user b s = ⟨[confirmOrderCatch e'], s,
              [.createShiprocketOrder (shiprocketData s.products b.dbOrderId order details)]⟩ := by
            simp [confirmOrder, h1, h2, h3, h4, h5, h6, h7, h8, h9]
          rw [hv] at hcall ⊢
          simp only [List.mem_singleton, Effect.createShiprocketOrder.injEq] at hcall
          subst hcall
          rw [hfail] at h9
          cases h9
          exact ⟨rfl, by simp [confirmOrderCatch, Response.status], rfl, rfl⟩
        | ok resp =>
          exfalso
          have hd : data = shiprocketData s.products b.dbOrderId order details := by
            cases h10 : confirmOrderTx s (user.getD "") b stockUpdates resp <;>
              simpa [confirmOrder, h1, h2, h3, h4, h5, h6, h7, h8, h9, h10] using hcall
          subst hd
          rw [hfail] at h9
          cases h9
/-- Witness of C17: the confirmation of the scenario while Shiprocket refuses orders. -/
theorem C17_shipping_failure_changes_nothing_witness :
    (confirmOrder shipDownEnv (some "u1") ⟨"o1", "pay_1"⟩ demoCreated).writes
      = [confirmOrderCatch "Unable to create Shiprocket order"] ∧
    (confirmOrderCatch "Unable to create Shiprocket order").status = 500 ∧
    (confirmOrder shipDownEnv (some "u1") ⟨"o1", "pay_1"⟩ demoCreated).succeeded = false ∧
    (confirmOrder shipDownEnv (some "u1") ⟨"o1", "pay_1"⟩ demoCreated).state = demoCreated :=
  C17_shipping_failure_changes_nothing shipDownEnv (some "u1") ⟨"o1", "pay_1"⟩ demoCreated
    (shiprocketData demoCreated.products "o1" (newOrder demoEnv "u1" demoBody "order_1" 20)
      demoShipping)
    "Unable to create Shiprocket order" (by decide!) rfl

/-! ### C16: the stock writes of `confirmOrder` -/

/-- C16 fails on the code: the stock write of `confirmOrder` is conditioned on the product
id alone and leaves `version` as it is. On the scenario `createOrder` takes the version of
the product from 0 to 1 and `confirmOrder` leaves it at 1; and the update `confirmOrder`
prepares from the row at version 1 (size M from 8 to 6) is still written after a second
checkout has moved the row to version 2 and size M to 6, whereas the
version-conditioned write of `createOrder` finds no row for the stale version 1. -/
theorem C16_confirm_write_ignores_version :
    versionIn demoState.products "p1" = some 0 ∧
    versionIn demoCreated.products "p1" = some 1 ∧
    versionIn demoConfirmed.products "p1" = some 1 ∧
    versionIn demoCreatedTwice.products "p1" = some 2 ∧
    stockIn demoCreatedTwice.products "p1" "M" = some (some 6) ∧
    staleConfirmWrite.map (fun ps => versionIn ps "p1") = some (some 2) ∧
    staleConfirmWrite.map (fun ps => stockIn ps "p1" "M") = some (some (some 6)) ∧
    updateProduct demoCreatedTwice.products (fun p => p.id == "p1" && p.version == 1)
      (fun p => { p with version := p.version + 1 }) = none := by
  refine ⟨by decide!, by decide!, by decide!, by decide!, by decide!, by decide!, by decide!,
    by decide!⟩

/-! ### C18: `withRetry` with the default `maxRetries` -/

/-- An iteration of `withRetry` whose attempt fails with an axios error of status 429 before
the last attempt: the delay is slept and the loop goes on. -/
theorem withRetryFrom_retry {α : Type} (op : Nat → Attempt α) (maxRetries remaining attempt : Nat)
    (h : (op attempt).isAxios429 = true) (hlt : attempt < maxRetries) :
    withRetryFrom op maxRetries (remaining + 1) attempt =
      ⟨(withRetryFrom op maxRetries remaining (attempt + 1)).result,
        (withRetryFrom op maxRetries remaining (attempt + 1)).calls + 1,
        (2 ^ attempt * 1000) :: (withRetryFrom op maxRetries remaining (attempt + 1)).delays⟩ := by
  cases hop : op attempt with
  | ok v => simp [hop, Attempt.isAxios429] at h
  | threw e =>
    have hc : (e.isAxiosError && e.httpStatus == some 429 && decide (attempt < maxRetries))
        = true := by
      simp only [hop, Attempt.isAxios429] at h
      simp [h, hlt]
    simp only [withRetryFrom, hop, hc, if_true]

/-- An iteration of `withRetry` whose attempt is the last one or does not fail with an axios
error of status 429: the loop ends with the value or the error of the attempt. -/
theorem withRetryFrom_stop {α : Type} (op : Nat → Attempt α) (maxRetries remaining attempt : Nat)
    (h : (op attempt).isAxios429 = false ∨ ¬ attempt < maxRetries) :
    withRetryFrom op maxRetries (remaining + 1) attempt = ⟨(op attempt).outcome, 1, []⟩ := by
  cases hop : op attempt with
  | ok v => simp [withRetryFrom, hop, Attempt.outcome]
  | threw e =>
    have hc : (e.isAxiosError && e.httpStatus == some 429 && decide (attempt < maxRetries))
        = false := by
      rcases h with h | h
      · simp only [hop, Attempt.isAxios429] at h
        simp [h]
      · simp [h]
    simp only [withRetryFrom, hop, hc, Attempt.outcome]
    simp

/-- With `maxRetries = 3`, if attempt `k` is the first that does not fail with an axios
error of status 429 then the operation is invoked `min k 3` times, the delays slept are the
first `min k 3 - 1` of 2000 ms and 4000 ms (`2 ^ a * 1000` after failed attempt `a`), and
the result is the value or the error of invocation `min k 3`; if every attempt fails with
such an error the same holds with 3 invocations. -/
theorem withRetry_default_axios {α : Type} (op : Nat → Attempt α) :
    (∀ k, 1 ≤ k → (∀ j, 1 ≤ j → j < k → (op j).isAxios429 = true) →
      (op k).isAxios429 = false →
      (withRetry op defaultMaxRetries).calls = min k 3 ∧
      (withRetry op defaultMaxRetries).delays
        = [2 ^ 1 * 1000, 2 ^ 2 * 1000].take (min k 3 - 1) ∧
      (withRetry op defaultMaxRetries).result = (op (min k 3)).outcome) ∧
    ((∀ j, 1 ≤ j → (op j).isAxios429 = true) →
      (withRetry op defaultMaxRetries).calls = 3 ∧
      (withRetry op defaultMaxRetries).delays = [2000, 4000] ∧
      (withRetry op defaultMaxRetries).result = (op 3).outcome) := by
  have key : ∀ n, 1 ≤ n → n ≤ 3 → (∀ j, 1 ≤ j → j < n → (op j).isAxios429 = true) →
      (n < 3 → (op n).isAxios429 = false) →
      (withRetry op defaultMaxRetries).calls = n ∧
      (withRetry op defaultMaxRetries).delays = [2 ^ 1 * 1000, 2 ^ 2 * 1000].take (n - 1) ∧
      (withRetry op defaultMaxRetries).result = (op n).outcome := by
    intro n h1 h3 hbefore hat
    obtain rfl | rfl | rfl : n = 1 ∨ n = 2 ∨ n = 3 := by omega
    · have e1 := withRetryFrom_stop op 3 2 1 (Or.inl (hat (by omega)))
      simp [withRetry, defaultMaxRetries, e1]
    · have e1 := withRetryFrom_retry op 3 2 1 (hbefore 1 (by omega) (by omega)) (by omega)
      have e2 := withRetryFrom_stop op 3 1 2 (Or.inl (hat (by omega)))
      simp [withRetry, defaultMaxRetries, e1, e2]
    · have e1 := withRetryFrom_retry op 3 2 1 (hbefore 1 (by omega) (by omega)) (by omega)
      have e2 := withRetryFrom_retry op 3 1 2 (hbefore 2 (by omega) (by omega)) (by omega)
      have e3 := withRetryFrom_stop op 3 0 3 (Or.inr (by omega))
      simp [withRetry, defaultMaxRetries, e1, e2, e3]
  constructor
  · intro k hk hbefore hat
    have hmin : 1 ≤ min k 3 ∧ min k 3 ≤ 3 := by omega
    refine key (min k 3) hmin.1 hmin.2 (fun j hj hlt => hbefore j hj (by omega)) ?_
    intro hlt
    have : min k 3 = k := by omega
    rw [this]
    exact hat
  · intro hall
    have := key 3 (by omega) (by omega) (fun j hj _ => hall j hj) (by omega)
    simpa using this

/-- C18 fails on the code for a 429 that is not an axios error. `withRetry` retries only
when `axios.isAxiosError(error)` holds; the Razorpay SDK, whose calls are the only ones
wrapped, rejects with an object of its own. An operation that fails every time with such an
HTTP 429 is invoked once, without any delay, where the claim gives three invocations with
delays of 2000 and 4000 ms; the same failures reported by axios are retried as claimed. -/
theorem C18_non_axios_429_not_retried :
    (∀ j, (gatewayLimited j).isRateLimited = true) ∧
    (withRetry gatewayLimited defaultMaxRetries).calls = 1 ∧
    (withRetry gatewayLimited defaultMaxRetries).delays = [] ∧
    (withRetry gatewayLimited defaultMaxRetries).result = .error "Too many requests" ∧
    (∀ j, (axiosLimited j).isRateLimited = true) ∧
    (withRetry axiosLimited defaultMaxRetries).calls = 3 ∧
    (withRetry axiosLimited defaultMaxRetries).delays = [2000, 4000] ∧
    (withRetry flakyCreate defaultMaxRetries).calls = 3 ∧
    (withRetry flakyCreate defaultMaxRetries).result = .ok "order_9" := by
  refine ⟨fun _ => rfl, by decide, by decide, by decide, fun _ => rfl, by decide, by decide,
    by decide, by decide⟩

/-! ### C19: the stock check of the per-item validators -/

/-- The stock test of the validators, for a quantity of at least 1: it fails the item when
the size key has no entry or an entry below the quantity, unless the key has no entry and
names a property the object inherits. -/
theorem stockCheck_eq_short (stockBySize : Option (List (String × StockVal))) (key : String)
    (quantity : ℤ) (hq : 1 ≤ quantity) :
    (stockFalsy (stockLookup stockBySize key) || stockLess (stockLookup stockBySize key) quantity)
      = (stockShort stockBySize key quantity
          && !(stockLookup stockBySize key == .inherited)) := by
  unfold stockShort stockLookup
  cases h : stockEntry stockBySize key with
  | none =>
    by_cases hk : key ∈ objectPrototypeKeys
    · simp [hk, stockFalsy, stockLess]
    · simp [hk, stockFalsy, stockLess]
  | some v =>
    cases v with
    | none =>
      have : (0 : ℤ) < quantity := by omega
      simp [stockFalsy, stockLess, this]
    | some n =>
      have hb : (StockRead.number n == StockRead.inherited) = false := rfl
      by_cases hn : n = 0
      · subst hn
        have : (0 : ℤ) < quantity := by omega
        simp [stockFalsy, stockLess, this]
      · simp [stockFalsy, stockLess, hn, hb]

/-- For an item of quantity at least 1 whose product exists, whose price is within 0.01 of
the stored price and whose size requirement is met, and whose size key does not read an
inherited property, the per-item checks of `createOrder` and of `validateCart` reject it as
insufficient stock exactly when `stockBySize` has no entry under the size key or the entry
is less than the quantity, and accept it otherwise. -/
theorem stockCheck_iff_short (pm : String → Option Product) (item : Item)
    (product : Product) (total : ℚ) (details : List ItemDetail)
    (hproduct : pm item.productId = some product)
    (hprice : |item.price - product.price| ≤ 1 / 100)
    (hsize : ¬ (hasSizes product = true ∧ truthy item.size = false))
    (hqty : 1 ≤ item.quantity)
    (hown : stockLookup product.stockBySize (sizeKey item.size) ≠ .inherited) :
    (createOrderItems pm [item] total details
        = .error (.insufficientStock product.name (sizeKey item.size))
      ↔ stockShort product.stockBySize (sizeKey item.size) item.quantity = true) ∧
    (createOrderItems pm [item] total details
        = .ok (total + item.price * item.quantity,
            details ++ [⟨product.id, product.name, item.price, item.quantity, sizeKey item.size⟩])
      ↔ stockShort product.stockBySize (sizeKey item.size) item.quantity = false) ∧
    (validateCartItem pm item = .error (.insufficientStock product.name (sizeKey item.size))
      ↔ stockShort product.stockBySize (sizeKey item.size) item.quantity = true) ∧
    (validateCartItem pm item = .ok product
      ↔ stockShort product.stockBySize (sizeKey item.size) item.quantity = false) := by
  have hp : ¬ |item.price - product.price| > 1 / 100 := not_lt.mpr hprice
  have hs : (hasSizes product && !truthy item.size) = false := by
    cases h1 : hasSizes product <;> cases h2 : truthy item.size <;> simp_all
  have hc : (stockFalsy (stockLookup product.stockBySize (sizeKey item.size))
      || stockLess (stockLookup product.stockBySize (sizeKey item.size)) item.quantity)
      = stockShort product.stockBySize (sizeKey item.size) item.quantity := by
    rw [stockCheck_eq_short product.stockBySize (sizeKey item.size) item.quantity hqty]
    have : (stockLookup product.stockBySize (sizeKey item.size) == StockRead.inherited)
        = false := by simpa using hown
    rw [this]
    simp
  have e1 : createOrderItems pm [item] total details =
      if stockShort product.stockBySize (sizeKey item.size) item.quantity = true then
        .error (.insufficientStock product.name (sizeKey item.size))
      else .ok (total + item.price * item.quantity,
        details ++ [⟨product.id, product.name, item.price, item.quantity, sizeKey item.size⟩]) := by
    simp only [createOrderItems, hproduct, if_neg hp, hs, hc, Bool.false_eq_true, if_false]
  have e2 : validateCartItem pm item =
      if stockShort product.stockBySize (sizeKey item.size) item.quantity = true then
        .error (.insufficientStock product.name (sizeKey item.size))
      else .ok product := by
    simp only [validateCartItem, hproduct, if_neg hp, hs, hc, Bool.false_eq_true, if_false]
  rw [e1, e2]
  cases stockShort product.stockBySize (sizeKey item.size) item.quantity <;> simp

/-- C19 fails on the code for a size that names a property every object inherits: the
product of the scenario has no entry under `constructor`, yet the read
`stockBySize["constructor"]` finds the function `Object`, which is truthy and never less
than a quantity, so the checks of `createOrder` and of `validateCart` pass 50 units of that
size and `validateCart` answers that the cart is valid. A size that is absent and not
inherited (`XL`) is rejected as the claim says. -/
theorem C19_inherited_name_passes :
    stockEntry demoProduct.stockBySize "constructor" = none ∧
    stockShort demoProduct.stockBySize "constructor" 50 = true ∧
    stockLookup demoProduct.stockBySize "constructor" = .inherited ∧
    itemFailure (findProduct demoState.products) ⟨"p1", 50, 599, some "constructor"⟩ = none ∧
    validateCartItem (findProduct demoState.products) ⟨"p1", 50, 599, some "constructor"⟩
      = .ok demoProduct ∧
    (validateCart demoEnv (some "u1") ⟨[⟨"p1", 50, 599, some "constructor"⟩], none⟩
      demoState).writes
      = [.cartValid 29950 [⟨"p1", 50, 599, some "constructor", "Tee"⟩] 0] ∧
    (validateCart demoEnv (some "u1") ⟨[⟨"p1", 50, 599, some "XL"⟩], none⟩ demoState).writes
      = [.insufficientStock "Tee" "XL"] := by
  refine ⟨by decide!, by decide!, by decide!, by decide!, by decide!, by decide!, by decide!⟩

/-! ### C13: the offer conditions -/

theorem codeUsed_eq_contains (rows : List UserOfferCode) (u id : String) :
    rows.any (fun r => r.userId == u && r.offerCodeId == id) = rows.contains ⟨u, id⟩ := by
  rw [Bool.eq_iff_iff, List.any_eq_true, List.contains_iff_exists_mem_beq]
  simp only [beq_iff_eq]
  constructor
  · rintro ⟨⟨a, b⟩, hmem, h⟩
    simp only [Bool.and_eq_true, beq_iff_eq] at h
    obtain ⟨h1, h2⟩ := h
    subst h1 h2
    exact ⟨_, hmem, rfl⟩
  · rintro ⟨r, hmem, h⟩
    subst h
    exact ⟨_, hmem, by simp⟩

theorem orderCount_pos_eq_hasOrders (s : State) (u : String) :
    decide ((s.orders.filter (fun o => o.userId == u)).length > 0) = hasOrders s u := by
  unfold hasOrders
  rw [Bool.eq_iff_iff, decide_eq_true_iff, List.any_eq_true, gt_iff_lt, List.length_pos,
    Ne, List.filter_eq_nil_iff]
  push_neg
  rfl

theorem expired_eq (now : ℤ) (offer : OfferCode) :
    (match offer.expiryDate with
      | some d => decide (d < now)
      | none => false) = !offerUnexpired now offer := by
  unfold offerUnexpired
  cases offer.expiryDate <;> simp

theorem discountOut_eq (offer : OfferCode) :
    (decide (offer.discount < 0) || decide (offer.discount > 100)) = !discountInRange offer := by
  unfold discountInRange
  rw [Bool.eq_iff_iff]
  simp only [Bool.or_eq_true, decide_eq_true_iff, Bool.not_eq_true', Bool.and_eq_false_iff,
    decide_eq_false_iff_not, not_le, gt_iff_lt]

/-- The offer section of `applyOfferCode` is the verdict of the specification. -/
theorem applyOfferCheck_eq_spec (env : Env) (s : State) (u c : String) :
    applyOfferCheck env s u c =
      match specOfferVerdict true env.now s u c with
      | .error f => .error f.applyResponse
      | .ok offer => .ok offer := by
  unfold applyOfferCheck specOfferVerdict findOfferCode
  cases s.offerCodes.find? (fun o => o.code == c.toUpper) with
  | none => rfl
  | some offer =>
    simp only [codeUsed_eq_contains, orderCount_pos_eq_hasOrders, offerUnused, offerUnexpired,
      Bool.not_not, Bool.true_and, Bool.false_and, discountOut_eq]
    cases hd : offer.expiryDate with
    | none =>
      simp only [Bool.not_true, Bool.false_eq_true, if_false]
      split_ifs <;> rfl
    | some d =>
      by_cases hlt : d < env.now
      · simp [hlt]; rfl
      · simp only [hlt, decide_False, Bool.not_false, Bool.not_true, Bool.false_eq_true, if_false]
        split_ifs <;> rfl

theorem createOrderOffer_eq_spec (env : Env) (s : State) (u c : String) (discount : ℚ)
    (hc : c ≠ "") :
    createOrderOffer env s u (some c) discount =
      match specOfferVerdict false env.now s u c with
      | .error f => .error f.createOrderResponse
      | .ok offer =>
        if discount != offer.discount then .error (.discountMismatch offer.discount discount)
        else .ok offer.discount := by
  have ht : truthy (some c) = true := by simp [truthy, hc]
  unfold createOrderOffer specOfferVerdict findOfferCode
  rw [if_pos ht]
  simp only [Option.getD_some]
  cases s.offerCodes.find? (fun o => o.code == c.toUpper) with
  | none => rfl
  | some offer =>
    simp only [codeUsed_eq_contains, orderCount_pos_eq_hasOrders, offerUnused, offerUnexpired,
      Bool.not_not, Bool.true_and, Bool.false_and]
    cases hd : offer.expiryDate with
    | none =>
      simp only [Bool.not_true, Bool.false_eq_true, if_false]
      split_ifs <;> first | rfl | simp_all
    | some d =>
      by_cases hlt : d < env.now
      · simp [hlt]; rfl
      · simp only [hlt, decide_False, Bool.not_false, Bool.not_true, Bool.false_eq_true, if_false]
        split_ifs <;> first | rfl | simp_all

theorem validateCartOffer_eq_spec (env : Env) (s : State) (u c : String) (total : ℚ)
    (hc : c ≠ "") :
    validateCartOffer env s u (some c) total =
      match specOfferVerdict false env.now s u c with
      | .error f => .error f.applyResponse
      | .ok offer => .ok (offer.discount, toFixed2 (total * (1 - offer.discount / 100))) := by
  have ht : truthy (some c) = true := by simp [truthy, hc]
  unfold validateCartOffer specOfferVerdict findOfferCode
  rw [if_pos ht]
  simp only [Option.getD_some]
  cases s.offerCodes.find? (fun o => o.code == c.toUpper) with
  | none => rfl
  | some offer =>
    simp only [codeUsed_eq_contains, orderCount_pos_eq_hasOrders, offerUnused, offerUnexpired,
      Bool.not_not, Bool.true_and, Bool.false_and]
    cases hd : offer.expiryDate with
    | none =>
      simp only [Bool.not_true, Bool.false_eq_true, if_false]
      split_ifs <;> rfl
    | some d =>
      by_cases hlt : d < env.now
      · simp [hlt]; rfl
      · simp only [hlt, decide_False, Bool.not_false, Bool.not_true, Bool.false_eq_true, if_false]
        split_ifs <;> rfl

theorem specOfferVerdict_ok_iff (now : ℤ) (s : State) (u c : String) :
    (∃ offer, specOfferVerdict true now s u c = .ok offer) ↔
      ∃ offer, findOfferCode s.offerCodes c.toUpper = some offer ∧
        offerUnexpired now offer = true ∧ offerUnused s u offer = true ∧
        ¬ (offer.isFirstOrder = true ∧ hasOrders s u = true) ∧
        0 ≤ offer.discount ∧ offer.discount ≤ 100 := by
  unfold specOfferVerdict findOfferCode
  cases s.offerCodes.find? (fun o => o.code == c.toUpper) with
  | none => simp
  | some offer =>
    simp only [Option.some.injEq, exists_eq_left', discountInRange, Bool.true_and]
    cases h1 : offerUnexpired now offer <;> cases h2 : offerUnused s u offer <;>
      cases h3 : offer.isFirstOrder <;> cases h4 : hasOrders s u <;>
      by_cases h5 : 0 ≤ offer.discount <;> by_cases h6 : offer.discount ≤ 100 <;>
      simp [h5, h6]

theorem applyOfferItem_error_not_success (pm : String → Option Product) (item : Item)
    (r : Response) (h : applyOfferItem pm item = .error r) : r.success = false := by
  unfold applyOfferItem at h
  split at h
  · cases h; rfl
  · split_ifs at h <;> cases h <;> rfl

theorem applyOfferItems_error_not_success (pm : String → Option Product) (items : List Item)
    (total : ℚ) (r : Response) (h : applyOfferItems pm items total = .error r) :
    r.success = false := by
  induction items generalizing total with
  | nil => simp [applyOfferItems] at h
  | cons item rest ih =>
    simp only [applyOfferItems] at h
    cases hi : applyOfferItem pm item with
    | error r' =>
      rw [hi] at h
      cases h
      exact applyOfferItem_error_not_success pm item r hi
    | ok p =>
      rw [hi] at h
      exact ih _ h

theorem applyOfferCheck_error_not_success (env : Env) (s : State) (u c : String) (r : Response)
    (h : applyOfferCheck env s u c = .error r) : r.success = false := by
  rw [applyOfferCheck_eq_spec] at h
  cases hv : specOfferVerdict true env.now s u c with
  | error f =>
    rw [hv] at h
    cases h
    cases f <;> rfl
  | ok offer => rw [hv] at h; cases h

/-- Inversion of a successful `applyOfferCode`. -/
theorem applyOfferCode_success (env : Env) (user : Option String) (b : ApplyOfferBody)
    (s : State) (h : (applyOfferCode env user b s).succeeded = true) :
    ∃ total offer,
      applyOfferIssues b = [] ∧ truthy user = true ∧ b.items ≠ [] ∧
      applyOfferItems (productMapGet s.products (b.items.map (fun i => i.productId)))
        b.items 0 = .ok total ∧
      ¬ |toFixed2 total - b.cartTotal| > 1 / 100 ∧
      applyOfferCheck env s (user.getD "") b.code = .ok offer ∧
      applyOfferCode env user b s =
        ⟨[.offerApplied offer.code offer.discount
            (toFixed2 (toFixed2 total * (1 - offer.discount / 100)))],
          { s with userOfferCodes := s.userOfferCodes ++ [⟨user.getD "", offer.id⟩] }, []⟩ := by
  by_cases h1 : applyOfferIssues b = []
  swap
  · simp [applyOfferCode, h1, Result.succeeded, Result.response, Response.success] at h
  by_cases h2 : truthy user = true
  swap
  · simp [applyOfferCode, h1, h2, Result.succeeded, Result.response, Response.success] at h
  by_cases h3 : b.items = []
  · simp [applyOfferCode, h1, h2, h3, Result.succeeded, Result.response, Response.success] at h
  have h3' : (b.items.length == 0) = false := by simpa using h3
  cases h4 : applyOfferItems (productMapGet s.products (b.items.map (fun i => i.productId)))
      b.items 0 with
  | error r =>
    have := applyOfferItems_error_not_success _ _ _ _ h4
    simp [applyOfferCode, h1, h2, h3', h4, Result.succeeded, Result.response, this] at h
  | ok total =>
    by_cases h5 : |toFixed2 total - b.cartTotal| > 1 / 100
    · simp only [applyOfferCode, h1, h2, h3', h4, if_pos h5, Result.succeeded, Result.response,
        Response.success] at h
      simp at h
    cases h6 : applyOfferCheck env s (user.getD "") b.code with
    | error r =>
      have := applyOfferCheck_error_not_success _ _ _ _ _ h6
      simp only [applyOfferCode, h1, h2, h3', h4, if_neg h5, h6, Result.succeeded,
        Result.response] at h
      simp [this] at h
    | ok offer =>
      refine ⟨total, offer, h1, h2, h3, rfl, h5, rfl, ?_⟩
      simp only [applyOfferCode, h1, h2, h3', h4, if_neg h5, h6]
      simp

/-- An `applyOfferCode` that does not answer success leaves the database as it was. -/
theorem applyOfferCode_failure_state (env : Env) (user : Option String) (b : ApplyOfferBody)
    (s : State) (h : (applyOfferCode env user b s).succeeded = false) :
    (applyOfferCode env user b s).state = s := by
  by_cases h1 : applyOfferIssues b = []
  swap
  · simp [applyOfferCode, h1]
  by_cases h2 : truthy user = true
  swap
  · simp [applyOfferCode, h1, h2]
  by_cases h3 : b.items = []
  · simp [applyOfferCode, h1, h2, h3]
  have h3' : (b.items.length == 0) = false := by simpa using h3
  cases h4 : applyOfferItems (productMapGet s.products (b.items.map (fun i => i.productId)))
      b.items 0 with
  | error r => simp [applyOfferCode, h1, h2, h3', h4]
  | ok total =>
    by_cases h5 : |toFixed2 total - b.cartTotal| > 1 / 100
    · simp only [applyOfferCode, h1, h2, h3', h4, if_pos h5]
      simp
    cases h6 : applyOfferCheck env s (user.getD "") b.code with
    | error r =>
      simp only [applyOfferCode, h1, h2, h3', h4, if_neg h5, h6]
      simp
    | ok offer =>
      simp only [applyOfferCode, h1, h2, h3', h4, if_neg h5, h6, Result.succeeded,
        Result.response] at h
      simp [Response.success] at h

/-- C13: for a request to `applyOfferCode` that parses, is authenticated, has a non-empty
item list passing the per-item checks and a matching `cartTotal`, the handler succeeds
exactly when an offer with the upper-cased code exists, is not expired, has no redemption
row for the user, is not a first-order offer met by a user with orders, and has its discount
in [0, 100]; its response is otherwise the first failing condition in that order; and the
offer sections of `createOrder` and `validateCart` apply the first four conditions in the
same order. -/
theorem C13_offer_conditions (env : Env) (s : State) (u c : String) :
    (∀ (b : ApplyOfferBody) (total : ℚ), b.code = c → applyOfferIssues b = [] → u ≠ "" →
      b.items ≠ [] →
      applyOfferItems (productMapGet s.products (b.items.map (fun i => i.productId)))
        b.items 0 = .ok total →
      |toFixed2 total - b.cartTotal| ≤ 1 / 100 →
      ((applyOfferCode env (some u) b s).succeeded = true ↔
        ∃ offer, findOfferCode s.offerCodes c.toUpper = some offer ∧
          offerUnexpired env.now offer = true ∧ offerUnused s u offer = true ∧
          ¬ (offer.isFirstOrder = true ∧ hasOrders s u = true) ∧
          0 ≤ offer.discount ∧ offer.discount ≤ 100) ∧
      (applyOfferCode env (some u) b s).writes =
        [match specOfferVerdict true env.now s u c with
          | .error f => f.applyResponse
          | .ok offer => .offerApplied offer.code offer.discount
              (toFixed2 (toFixed2 total * (1 - offer.discount / 100)))]) ∧
    (∀ discount : ℚ, c ≠ "" →
      createOrderOffer env s u (some c) discount =
        match specOfferVerdict false env.now s u c with
        | .error f => .error f.createOrderResponse
        | .ok offer =>
          if discount != offer.discount then .error (.discountMismatch offer.discount discount)
          else .ok offer.discount) ∧
    (∀ total : ℚ, c ≠ "" →
      validateCartOffer env s u (some c) total =
        match specOfferVerdict false env.now s u c with
        | .error f => .error f.applyResponse
        | .ok offer => .ok (offer.discount, toFixed2 (total * (1 - offer.discount / 100)))) := by
  refine ⟨?_, fun discount hc => createOrderOffer_eq_spec env s u c discount hc,
    fun total hc => validateCartOffer_eq_spec env s u c total hc⟩
  intro b total hb h1 h2 h3 h4 h5
  subst hb
  have h2' : truthy (some u) = true := by simp [truthy, h2]
  have h3' : (b.items.length == 0) = false := by simpa using h3
  have h5' : ¬ |toFixed2 total - b.cartTotal| > 1 / 100 := not_lt.mpr h5
  have hv : applyOfferCode env (some u) b s =
      match specOfferVerdict true env.now s u b.code with
      | .error f => ⟨[f.applyResponse], s, []⟩
      | .ok offer =>
        ⟨[.offerApplied offer.code offer.discount
            (toFixed2 (toFixed2 total * (1 - offer.discount / 100)))],
          { s with userOfferCodes := s.userOfferCodes ++ [⟨u, offer.id⟩] }, []⟩ := by
    simp only [applyOfferCode, h1, h2', h3', h4, if_neg h5', applyOfferCheck_eq_spec,
      Option.getD_some]
    cases specOfferVerdict true env.now s u b.code <;> simp
  rw [← specOfferVerdict_ok_iff, hv]
  cases hs : specOfferVerdict true env.now s u b.code with
  | error f =>
    refine ⟨?_, rfl⟩
    simp only [Result.succeeded, Result.response, List.head?_cons]
    cases f <;> simp [OfferFailure.applyResponse, Response.success]
  | ok offer =>
    refine ⟨?_, rfl⟩
    simp [Result.succeeded, Result.response, Response.success]

/-- Witness of C13: `first20` on the scenario is accepted for user `u1`. -/
theorem C13_offer_conditions_witness :
    (((applyOfferCode demoEnv (some "u1") demoApply demoState).succeeded = true ↔
        ∃ offer, findOfferCode demoState.offerCodes "first20".toUpper = some offer ∧
          offerUnexpired demoEnv.now offer = true ∧ offerUnused demoState "u1" offer = true ∧
          ¬ (offer.isFirstOrder = true ∧ hasOrders demoState "u1" = true) ∧
          0 ≤ offer.discount ∧ offer.discount ≤ 100) ∧
      (applyOfferCode demoEnv (some "u1") demoApply demoState).writes =
        [match specOfferVerdict true demoEnv.now demoState "u1" "first20" with
          | .error f => f.applyResponse
          | .ok offer => .offerApplied offer.code offer.discount
              (toFixed2 (toFixed2 1198 * (1 - offer.discount / 100)))]) ∧
    (createOrderOffer demoEnv demoState "u1" (some "first20") 20 =
        match specOfferVerdict false demoEnv.now demoState "u1" "first20" with
        | .error f => .error f.createOrderResponse
        | .ok offer =>
          if (20 : ℚ) != offer.discount then .error (.discountMismatch offer.discount 20)
          else .ok offer.discount) ∧
    (validateCartOffer demoEnv demoState "u1" (some "first20") 1198 =
        match specOfferVerdict false demoEnv.now demoState "u1" "first20" with
        | .error f => .error f.applyResponse
        | .ok offer => .ok (offer.discount, toFixed2 (1198 * (1 - offer.discount / 100)))) :=
  ⟨(C13_offer_conditions demoEnv demoState "u1" "first20").1 demoApply 1198 rfl (by decide!)
      (by decide!) (by decide!) (by decide!) (by decide!),
   (C13_offer_conditions demoEnv demoState "u1" "first20").2.1 20 (by decide!),
   (C13_offer_conditions demoEnv demoState "u1" "first20").2.2 1198 (by decide!)⟩

/-! ### C14: redemption rows -/

theorem specOfferVerdict_ok (bd : Bool) (now : ℤ) (s : State) (u c : String) (offer : OfferCode)
    (h : specOfferVerdict bd now s u c = .ok offer) :
    findOfferCode s.offerCodes c.toUpper = some offer ∧ offerUnexpired now offer = true ∧
      offerUnused s u offer = true := by
  unfold specOfferVerdict at h
  unfold findOfferCode
  split at h
  · cases h
  · rename_i o ho
    split_ifs at h with h1 h2 h3 h4
    cases h
    refine ⟨ho, ?_, ?_⟩
    · simpa using h1
    · simpa using h2

theorem offerUnused_not_mem (s : State) (u : String) (offer : OfferCode)
    (h : offerUnused s u offer = true) : (⟨u, offer.id⟩ : UserOfferCode) ∉ s.userOfferCodes := by
  intro hm
  simp [offerUnused] at h
  exact h hm

theorem applyOfferCheck_ok (env : Env) (s : State) (u c : String) (offer : OfferCode)
    (h : applyOfferCheck env s u c = .ok offer) :
    findOfferCode s.offerCodes c.toUpper = some offer ∧ offerUnexpired env.now offer = true ∧
      offerUnused s u offer = true := by
  rw [applyOfferCheck_eq_spec] at h
  cases hv : specOfferVerdict true env.now s u c with
  | error f => rw [hv] at h; cases h
  | ok o =>
    rw [hv] at h
    cases h
    exact specOfferVerdict_ok _ _ _ _ _ _ hv

theorem nodup_concat_of_not_mem (rows : List UserOfferCode) (r : UserOfferCode)
    (h : rows.Nodup) (hr : r ∉ rows) : (rows ++ [r]).Nodup := by
  rw [List.nodup_append]
  refine ⟨h, List.nodup_singleton r, ?_⟩
  intro a ha hb
  rw [List.mem_singleton] at hb
  exact hr (hb ▸ ha)

theorem createOrderTx_rows (env : Env) (s s' : State) (userId : String) (b : CreateOrderBody)
    (razorpayOrderId : String) (appliedDiscount : ℚ)
    (h : createOrderTx env s userId b razorpayOrderId appliedDiscount = .ok s') :
    s'.userOfferCodes =
      if truthy b.offerCode then
        match findOfferCode s.offerCodes (b.offerCode.getD "").toUpper with
        | some offer => s.userOfferCodes ++ [⟨userId, offer.id⟩]
        | none => s.userOfferCodes
      else s.userOfferCodes := by
  unfold createOrderTx at h
  split at h
  · cases h
  · by_cases hfo : (findOrder s.orders env.newOrderId).isSome = true
    · simp [hfo] at h
    · rw [if_neg hfo] at h
      simp only [Except.ok.injEq] at h
      subst h
      by_cases ht : truthy b.offerCode = true
      · simp only [ht, if_true]
      · simp only [ht, Bool.false_eq_true, if_false]

theorem truthy_some (o : Option String) (h : truthy o = true) : ∃ c, o = some c ∧ c ≠ "" := by
  cases o with
  | none => simp [truthy] at h
  | some c => exact ⟨c, rfl, by simpa [truthy] using h⟩

/-- One call keeps the redemption rows free of duplicates. -/
theorem OfferCall_run_nodup (c : OfferCall) (s : State) (h : s.userOfferCodes.Nodup) :
    (c.run s).state.userOfferCodes.Nodup := by
  cases c with
  | applyOfferCode env user body =>
    simp only [OfferCall.run]
    cases hs : (applyOfferCode env user body s).succeeded with
    | false => rw [applyOfferCode_failure_state _ _ _ _ hs]; exact h
    | true =>
      obtain ⟨total, offer, -, -, -, -, -, h6, hres⟩ := applyOfferCode_success _ _ _ _ hs
      rw [hres]
      exact nodup_concat_of_not_mem _ _ h
        (offerUnused_not_mem _ _ _ (applyOfferCheck_ok _ _ _ _ _ h6).2.2)
  | createOrder env user body =>
    simp only [OfferCall.run]
    cases hs : (createOrder env user body s).succeeded with
    | false => rw [createOrder_failure_state _ _ _ _ hs]; exact h
    | true =>
      obtain ⟨total, details, d, oid, s', -, -, -, -, h5, -, -, h8, hres⟩ :=
        createOrder_success _ _ _ _ hs
      rw [hres]
      simp only
      rw [createOrderTx_rows _ _ _ _ _ _ _ h8]
      by_cases ht : truthy body.offerCode = true
      · rw [if_pos ht]
        obtain ⟨c, hc, hne⟩ := truthy_some _ ht
        rw [hc, createOrderOffer_eq_spec _ _ _ _ _ hne] at h5
        rw [hc, Option.getD_some]
        cases hv : specOfferVerdict false env.now s (user.getD "") c with
        | error f => rw [hv] at h5; cases h5
        | ok offer =>
          obtain ⟨hf, -, hu⟩ := specOfferVerdict_ok _ _ _ _ _ _ hv
          rw [hf]
          exact nodup_concat_of_not_mem _ _ h (offerUnused_not_mem _ _ _ hu)
      · rw [if_neg ht]
        exact h

/-- C14: running `applyOfferCode` and `createOrder` calls one after another from a database
with at most one redemption row per user and offer leaves at most one such row per user and
offer; and after a successful `applyOfferCode`, another one by the same user with the same
code (up to case) does not succeed and adds no row, its answer being 'This code was already
used' when the request and the clock are the same. -/
theorem C14_redemption_at_most_once (s0 : State) (calls : List OfferCall) :
    (s0.userOfferCodes.Nodup → (runOfferCalls s0 calls).userOfferCodes.Nodup) ∧
    (∀ (env1 env2 : Env) (user : Option String) (b1 b2 : ApplyOfferBody),
      (applyOfferCode env1 user b1 s0).succeeded = true →
      b2.code.toUpper = b1.code.toUpper →
      (applyOfferCode env2 user b2 (applyOfferCode env1 user b1 s0).state).succeeded = false ∧
      (applyOfferCode env2 user b2 (applyOfferCode env1 user b1 s0).state).state
        = (applyOfferCode env1 user b1 s0).state ∧
      (b2 = b1 → env2.now = env1.now →
        (applyOfferCode env2 user b2 (applyOfferCode env1 user b1 s0).state).writes
          = [.codeAlreadyUsed])) := by
  constructor
  · intro h
    induction calls generalizing s0 with
    | nil => exact h
    | cons c rest ih => exact ih _ (OfferCall_run_nodup c s0 h)
  · intro env1 env2 user b1 b2 hs hcode
    obtain ⟨total, offer, h1, h2, h3, h4, h5, h6, hres⟩ := applyOfferCode_success _ _ _ _ hs
    obtain ⟨hfind, hunexp, -⟩ := applyOfferCheck_ok _ _ _ _ _ h6
    rw [hres]
    simp only
    have hused : ∀ (env : Env) (c : String), c.toUpper = b1.code.toUpper →
        ∀ o, applyOfferCheck env
          { s0 with userOfferCodes := s0.userOfferCodes ++ [⟨user.getD "", offer.id⟩] }
          (user.getD "") c ≠ .ok o := by
      intro env c hc o ho
      obtain ⟨hf, -, hu⟩ := applyOfferCheck_ok _ _ _ _ _ ho
      simp only [hc, hfind, Option.some.injEq] at hf
      subst hf
      exact offerUnused_not_mem _ _ _ hu (by simp)
    have hfalse : (applyOfferCode env2 user b2
        { s0 with userOfferCodes := s0.userOfferCodes ++ [⟨user.getD "", offer.id⟩] }).succeeded
        = false := by
      cases hs2 : (applyOfferCode env2 user b2
        { s0 with userOfferCodes := s0.userOfferCodes ++ [⟨user.getD "", offer.id⟩] }).succeeded with
      | false => rfl
      | true =>
        obtain ⟨_, o, -, -, -, -, -, h6', -⟩ := applyOfferCode_success _ _ _ _ hs2
        exact absurd h6' (hused env2 b2.code hcode o)
    refine ⟨hfalse, applyOfferCode_failure_state _ _ _ _ hfalse, ?_⟩
    intro hb hnow
    subst hb
    have h3' : (b2.items.length == 0) = false := by simpa using h3
    have hcheck : applyOfferCheck env2
        { s0 with userOfferCodes := s0.userOfferCodes ++ [⟨user.getD "", offer.id⟩] }
        (user.getD "") b2.code = .error .codeAlreadyUsed := by
      have hunexp' : offerUnexpired env2.now offer = true := by rw [hnow]; exact hunexp
      rw [applyOfferCheck_eq_spec]
      unfold specOfferVerdict
      unfold findOfferCode at hfind
      simp only [hfind, hunexp', offerUnused]
      simp [OfferFailure.applyResponse]
    simp only [applyOfferCode, h1, h2, h3', h4, if_neg h5, hcheck]
    simp

/-- Witness of C14: on the scenario the first `applyOfferCode` succeeds and writes the one
row, the second is answered 'This code was already used', and the checkout with the code is
refused; one row is there at the end. -/
theorem C14_redemption_at_most_once_witness :
    (runOfferCalls demoState demoOfferCalls).userOfferCodes = [⟨"u1", "oc1"⟩] ∧
    (runOfferCalls demoState demoOfferCalls).userOfferCodes.Nodup ∧
    (applyOfferCode demoEnv (some "u1") demoApply
        (applyOfferCode demoEnv (some "u1") demoApply demoState).state).succeeded = false ∧
    (applyOfferCode demoEnv (some "u1") demoApply
        (applyOfferCode demoEnv (some "u1") demoApply demoState).state).state
      = (applyOfferCode demoEnv (some "u1") demoApply demoState).state ∧
    (applyOfferCode demoEnv (some "u1") demoApply
        (applyOfferCode demoEnv (some "u1") demoApply demoState).state).writes
      = [.codeAlreadyUsed] :=
  ⟨by decide!,
   (C14_redemption_at_most_once demoState demoOfferCalls).1 (by decide!),
   ((C14_redemption_at_most_once demoState demoOfferCalls).2 demoEnv demoEnv (some "u1")
     demoApply demoApply (by decide!) rfl).1,
   ((C14_redemption_at_most_once demoState demoOfferCalls).2 demoEnv demoEnv (some "u1")
     demoApply demoApply (by decide!) rfl).2.1,
   ((C14_redemption_at_most_once demoState demoOfferCalls).2 demoEnv demoEnv (some "u1")
     demoApply demoApply (by decide!) rfl).2.2 rfl rfl⟩

/-! ### C21: the bounds of the discount -/

/-- C21 fails on the code: only `applyOfferCode` tests the bounds of the discount. With
FIRST20 stored at 150 percent `validateCart` accepts the cart of the scenario with the total
-599, and with FIRST20 stored at -20 percent it accepts it with the total 1437.60, above the
undiscounted 1198; the offer section of `createOrder` accepts the record at 150 percent when
the request carries the same discount; `applyOfferCode` refuses both records. -/
theorem C21_discount_bounds_not_checked :
    (validateCart demoEnv (some "u1") demoValidate offer150State).writes
      = [.cartValid (-599) [⟨"p1", 2, 599, some "M", "Tee"⟩] 150] ∧
    (validateCart demoEnv (some "u1") demoValidate offerMinus20State).writes
      = [.cartValid (7188 / 5) [⟨"p1", 2, 599, some "M", "Tee"⟩] (-20)] ∧
    authoritativeTotal demoState.products demoValidate.items = 1198 ∧
    createOrderOffer demoEnv offer150State "u1" (some "FIRST20") 150 = .ok 150 ∧
    (applyOfferCode demoEnv (some "u1") demoApply offer150State).writes = [.invalidDiscount] ∧
    (applyOfferCode demoEnv (some "u1") demoApply offerMinus20State).writes
      = [.invalidDiscount] := by
  refine ⟨by decide!, by decide!, by decide!, by decide!, by decide!, by decide!⟩

/-! ### C22: the items of a server cart -/

/-- C22 fails on the code: `syncCart` inserts the validated items of the request as they
come, where `addToCart` merges an item into the row of its product and size. On the scenario
the cart of `u1` holds one item of size M; a sync request naming that size twice succeeds
and leaves two cart items for the pair (p1, M), while `addToCart` of one more unit of size M
keeps one row. Only a unique index of the database would stop the insert, and then the
request fails with 500 after the cart has been emptied. -/
theorem C22_sync_inserts_duplicates :
    cartKeys demoState "u1" = [("p1", some "M")] ∧
    (syncCart demoEnv (some "u1") twiceSync demoState).writes
      = [.cartSynced [⟨"p1", 1, 599, some "M", "Tee"⟩, ⟨"p1", 1, 599, some "M", "Tee"⟩] 1198] ∧
    cartKeys (syncCart demoEnv (some "u1") twiceSync demoState).state "u1"
      = [("p1", some "M"), ("p1", some "M")] ∧
    ¬ (cartKeys (syncCart demoEnv (some "u1") twiceSync demoState).state "u1").Nodup ∧
    (addToCart demoEnv (some "u1") ⟨"p1", 1, 599, some "M"⟩ demoState).writes = [.itemAdded] ∧
    cartKeys (addToCart demoEnv (some "u1") ⟨"p1", 1, 599, some "M"⟩ demoState).state "u1"
      = [("p1", some "M")] ∧
    (syncCart indexedEnv (some "u1") twiceSync demoState).writes
      = [.serverError "Failed to sync cart"] ∧
    cartKeys (syncCart indexedEnv (some "u1") twiceSync demoState).state "u1" = [] := by
  refine ⟨by decide!, by decide!, by decide!, by decide!, by decide!, by decide!, by decide!,
    by decide!⟩

/-! ### C23: bodies that fail the schema -/

/-- C23 fails on the code in the status: a body that fails the schema is answered by the
`catch` of the handler, with the joined messages but with status 500. Evaluated on
`createOrder` (amount -1), `verifyPayment` (empty signature), `applyOfferCode` (cart total
0), `validateCart` and `syncCart` (quantity 0), `addToCart` (quantity 0 and price 0). -/
theorem C23_schema_failure_is_500 :
    (createOrder demoEnv (some "u1") { demoBody with amount := -1 } demoState).writes
      = [.serverError "Amount must be positive"] ∧
    (verifyPayment demoEnv (some "u1") { demoVerify with signature := "" } demoCreated).writes
      = [.serverError "Signature is required"] ∧
    (applyOfferCode demoEnv (some "u1") { demoApply with cartTotal := 0 } demoState).writes
      = [.serverError "Cart total must be positive"] ∧
    (validateCart demoEnv (some "u1") ⟨[⟨"p1", 0, 599, some "M"⟩], none⟩ demoState).writes
      = [.serverError "Quantity must be at least 1"] ∧
    (syncCart demoEnv (some "u1") ⟨[⟨"p1", 0, 599, some "M"⟩]⟩ demoState).writes
      = [.serverError "Quantity must be at least 1"] ∧
    (addToCart demoEnv (some "u1") ⟨"p1", 0, 0, some "M"⟩ demoState).writes
      = [.serverError "Quantity must be at least 1, Price must be positive"] ∧
    Response.status (.serverError "Amount must be positive") = 500 ∧
    (∀ error, Response.status (.serverError error) = 500) := by
  refine ⟨by decide!, by decide!, by decide!, by decide!, by decide!, by decide!, rfl,
    fun _ => rfl⟩

/-! ### C24: what the client sees of an internal error -/

/-- C24 fails on the code: the `catch` of `confirmOrder` sends `error.message`, and
`asyncHandler` wraps any other error into an `AppError` carrying its message, which
`errorMiddleware` then sends. The two errors `createShiprocketOrder` can throw (the order
call failed, the login failed) give the client two different strings; so do two errors
passed through `asyncHandler`; the generic string of `errorMiddleware` is sent only for an
error that reaches it unwrapped. -/
theorem C24_internal_message_reaches_client :
    (confirmOrder shipDownEnv (some "u1") ⟨"o1", "pay_1"⟩ demoCreated).writes
      = [.serverError "Unable to create Shiprocket order"] ∧
    (confirmOrder shipRefusedEnv (some "u1") ⟨"o1", "pay_1"⟩ demoCreated).writes
      = [.serverError "Unable to authenticate with Shiprocket"] ∧
    errorMiddleware (asyncHandler (.other "relation orders does not exist"))
      = (500, "relation orders does not exist") ∧
    errorMiddleware (asyncHandler (.other "connect ECONNREFUSED 10.0.0.5:443"))
      = (500, "connect ECONNREFUSED 10.0.0.5:443") ∧
    errorMiddleware (.other "connect ECONNREFUSED 10.0.0.5:443")
      = (500, "Internal Server Error") := by
  refine ⟨by decide!, by decide!, by decide!, by decide!, by decide!⟩

/-! ### C25: one verdict for the four per-item loops -/

theorem createOrderLoopVerdict_eq (pm : String → Option Product) (items : List Item) :
    createOrderLoopVerdict pm items = items.findSome? (itemFailure pm) := by
  unfold createOrderLoopVerdict
  generalize (0 : ℚ) = total
  generalize ([] : List ItemDetail) = details
  induction items generalizing total details with
  | nil => simp [createOrderItems]
  | cons item rest ih =>
    rw [createOrderItems_cons, List.findSome?_cons]
    cases hf : itemFailure pm item with
    | some r => rfl
    | none =>
      cases hp : pm item.productId with
      | none => simp [itemFailure, hp] at hf
      | some product => exact ih _ _

theorem applyOfferLoopVerdict_eq (pm : String → Option Product) (items : List Item) :
    applyOfferLoopVerdict pm items = items.findSome? (applyOfferItemReject pm) := by
  unfold applyOfferLoopVerdict
  generalize (0 : ℚ) = total
  induction items generalizing total with
  | nil => simp [applyOfferItems]
  | cons item rest ih =>
    rw [List.findSome?_cons]
    simp only [applyOfferItems, applyOfferItemReject]
    cases applyOfferItem pm item with
    | error r => rfl
    | ok p => exact ih _

theorem validateCartLoopVerdict_eq (pm : String → Option Product) (items : List Item) :
    validateCartLoopVerdict pm items = items.findSome? (validateCartItemReject pm) := by
  unfold validateCartLoopVerdict
  generalize (0 : ℚ) = total
  generalize ([] : List ValidatedItem) = v
  induction items generalizing total v with
  | nil => simp [validateCartLoop]
  | cons item rest ih =>
    rw [List.findSome?_cons]
    simp only [validateCartLoop, validateCartItemReject]
    cases validateCartItem pm item with
    | error r => rfl
    | ok p => exact ih _ _

theorem syncCartLoopVerdict_eq (pm : String → Option Product) (items : List Item) :
    syncCartLoopVerdict pm items = items.findSome? (syncCartItemReject pm) := by
  unfold syncCartLoopVerdict
  generalize ([] : List ValidatedItem) = v
  induction items generalizing v with
  | nil => simp [syncCartLoop]
  | cons item rest ih =>
    rw [List.findSome?_cons]
    simp only [syncCartLoop, syncCartItemReject]
    cases syncCartItem pm item with
    | error r => rfl
    | ok p => exact ih _

theorem itemFailure_agrees (pm : String → Option Product) :
    AgreesWithVerdict pm (itemFailure pm) := by
  intro item
  unfold itemVerdict itemFailure
  cases pm item.productId with
  | none => exact ⟨_, rfl, rfl⟩
  | some product =>
    simp only
    split_ifs
    · exact ⟨_, rfl, rfl⟩
    · exact ⟨_, rfl, rfl⟩
    · exact ⟨_, rfl, rfl⟩
    · rfl

theorem applyOfferItemReject_agrees (pm : String → Option Product) :
    AgreesWithVerdict pm (applyOfferItemReject pm) := by
  intro item
  unfold itemVerdict applyOfferItemReject applyOfferItem
  cases pm item.productId with
  | none => exact ⟨_, rfl, rfl⟩
  | some product =>
    simp only
    split_ifs
    · exact ⟨_, rfl, rfl⟩
    · exact ⟨_, rfl, rfl⟩
    · exact ⟨_, rfl, rfl⟩
    · rfl

theorem validateCartItemReject_agrees (pm : String → Option Product) :
    AgreesWithVerdict pm (validateCartItemReject pm) := by
  intro item
  unfold itemVerdict validateCartItemReject validateCartItem
  cases pm item.productId with
  | none => exact ⟨_, rfl, rfl⟩
  | some product =>
    simp only
    split_ifs
    · exact ⟨_, rfl, rfl⟩
    · exact ⟨_, rfl, rfl⟩
    · exact ⟨_, rfl, rfl⟩
    · rfl

theorem syncCartItemReject_agrees (pm : String → Option Product) :
    AgreesWithVerdict pm (syncCartItemReject pm) := by
  intro item
  unfold itemVerdict syncCartItemReject syncCartItem
  cases pm item.productId with
  | none => exact ⟨_, rfl, rfl⟩
  | some product =>
    simp only
    split_ifs
    · exact ⟨_, rfl, rfl⟩
    · exact ⟨_, rfl, rfl⟩
    · exact ⟨_, rfl, rfl⟩
    · rfl

/-- A loop that answers with the first rejection of a check agreeing with the specification
reaches the verdict of the specification. -/
theorem findSome_reaches_verdict (pm : String → Option Product) (check : Item → Option Response)
    (hcheck : AgreesWithVerdict pm check) (items : List Item) :
    (listVerdict pm items = none → items.findSome? check = none) ∧
    (∀ i k, listVerdict pm items = some (i, k) →
      RejectsAt (fun l => l.findSome? check) items i k) := by
  induction items with
  | nil =>
    refine ⟨fun _ => rfl, ?_⟩
    intro i k h
    simp [listVerdict] at h
  | cons item rest ih =>
    have hc := hcheck item
    cases hv : itemVerdict pm item with
    | some k0 =>
      rw [hv] at hc
      obtain ⟨r, hr, hk⟩ := hc
      constructor
      · intro h
        simp [listVerdict, hv] at h
      · intro i k h
        simp only [listVerdict, hv, Option.some.injEq, Prod.mk.injEq] at h
        obtain ⟨hi, hk'⟩ := h
        subst hi hk'
        exact ⟨r, by simp [List.findSome?_cons, hr], hk, by simp,
          by simp [List.findSome?_cons, hr]⟩
    | none =>
      rw [hv] at hc
      simp only at hc
      constructor
      · intro h
        simp only [listVerdict, hv, Option.map_eq_none'] at h
        rw [List.findSome?_cons, hc]
        exact ih.1 h
      · intro i k h
        simp only [listVerdict, hv, Option.map_eq_some'] at h
        obtain ⟨⟨j, k'⟩, hj, he⟩ := h
        simp only [Prod.mk.injEq] at he
        obtain ⟨hi, hk'⟩ := he
        subst hi hk'
        obtain ⟨r, h1, h2, h3, h4⟩ := ih.2 j k' hj
        refine ⟨r, ?_, h2, ?_, ?_⟩
        · simp only [List.findSome?_cons, hc]
          exact h1
        · simp only [List.take_succ_cons, List.findSome?_cons, hc]
          exact h3
        · simp only [List.take_succ_cons, List.findSome?_cons, hc]
          exact h4

/-- C25: on every product map and item list the per-item loops of `createOrder`,
`applyOfferCode`, `validateCart` and `syncCart` reach the verdict of the specification
(product not found, price mismatch, size required, insufficient stock, checked in that
order): when every item passes all four accept the list, and otherwise all four reject it at
the position of the first failing item with a response of the kind of its first failure. -/
theorem C25_loops_agree (pm : String → Option Product) (items : List Item) :
    (listVerdict pm items = none →
      createOrderLoopVerdict pm items = none ∧ applyOfferLoopVerdict pm items = none ∧
      validateCartLoopVerdict pm items = none ∧ syncCartLoopVerdict pm items = none) ∧
    (∀ i k, listVerdict pm items = some (i, k) →
      RejectsAt (createOrderLoopVerdict pm) items i k ∧
      RejectsAt (applyOfferLoopVerdict pm) items i k ∧
      RejectsAt (validateCartLoopVerdict pm) items i k ∧
      RejectsAt (syncCartLoopVerdict pm) items i k) := by
  have e1 : createOrderLoopVerdict pm = fun l => l.findSome? (itemFailure pm) :=
    funext (createOrderLoopVerdict_eq pm)
  have e2 : applyOfferLoopVerdict pm = fun l => l.findSome? (applyOfferItemReject pm) :=
    funext (applyOfferLoopVerdict_eq pm)
  have e3 : validateCartLoopVerdict pm = fun l => l.findSome? (validateCartItemReject pm) :=
    funext (validateCartLoopVerdict_eq pm)
  have e4 : syncCartLoopVerdict pm = fun l => l.findSome? (syncCartItemReject pm) :=
    funext (syncCartLoopVerdict_eq pm)
  rw [e1, e2, e3, e4]
  have h1 := findSome_reaches_verdict pm _ (itemFailure_agrees pm) items
  have h2 := findSome_reaches_verdict pm _ (applyOfferItemReject_agrees pm) items
  have h3 := findSome_reaches_verdict pm _ (validateCartItemReject_agrees pm) items
  have h4 := findSome_reaches_verdict pm _ (syncCartItemReject_agrees pm) items
  exact ⟨fun h => ⟨h1.1 h, h2.1 h, h3.1 h, h4.1 h⟩,
    fun i k h => ⟨h1.2 i k h, h2.2 i k h, h3.2 i k h, h4.2 i k h⟩⟩

/-- Witness of C25: on `verdictItems` and the products of `shortState` (3 units of size S,
an entry 0 for size M) the verdict is insufficient stock at position 1, and the four loops
reject there. -/
theorem C25_loops_agree_witness :
    listVerdict (findProduct shortState.products) verdictItems = some (1, .insufficientStock) ∧
    RejectsAt (createOrderLoopVerdict (findProduct shortState.products)) verdictItems 1
      .insufficientStock ∧
    RejectsAt (applyOfferLoopVerdict (findProduct shortState.products)) verdictItems 1
      .insufficientStock ∧
    RejectsAt (validateCartLoopVerdict (findProduct shortState.products)) verdictItems 1
      .insufficientStock ∧
    RejectsAt (syncCartLoopVerdict (findProduct shortState.products)) verdictItems 1
      .insufficientStock :=
  ⟨by decide!,
    (C25_loops_agree (findProduct shortState.products) verdictItems).2 1 .insufficientStock
      (by decide!)⟩

/-! ### C26: the two stock decrements of an order -/

theorem updateProduct_id_found (products : List Product) (id : String) (p0 : Product)
    (data : Product → Product) (hdata : ∀ p, (data p).id = p.id)
    (hfind : findProduct products id = some p0) :
    ∃ products', updateProduct products (fun p => p.id == id) data = some products' ∧
      findProduct products' id = some (data p0) := by
  induction products with
  | nil => simp [findProduct] at hfind
  | cons q rest ih =>
    by_cases hq : q.id = id
    · have hq0 : q = p0 := by
        rw [findProduct_cons_pos q rest id hq] at hfind
        exact Option.some.inj hfind
      subst hq0
      exact ⟨data q :: rest, by simp [updateProduct, hq],
        findProduct_cons_pos _ _ _ (by rw [hdata, hq])⟩
    · have hfind' : findProduct rest id = some p0 := by
        rw [findProduct_cons_neg q rest id hq] at hfind
        exact hfind
      obtain ⟨rest', hup, hf⟩ := ih hfind'
      refine ⟨q :: rest', by simp [updateProduct, hq, hup], ?_⟩
      rw [findProduct_cons_neg _ _ _ hq]
      exact hf

/-- What a success answer of `confirmOrder` stands for: the order was found, the stock loop
over its items passed, and the transaction committed the state the handler returns. -/
theorem confirmOrder_success (env : Env) (user : Option String) (b : ConfirmOrderBody)
    (s : State) (h : (confirmOrder env user b s).succeeded = true) :
    ∃ order stockUpdates resp s',
      findOrder s.orders b.dbOrderId = some order ∧
      confirmOrderItems s.products order.orderItems [] = .ok stockUpdates ∧
      confirmOrderTx s (user.getD "") b stockUpdates resp = .ok s' ∧
      (confirmOrder env user b s).state = s' := by
  by_cases h1 : confirmOrderIssues b = []
  swap
  · simp [confirmOrder, h1, Result.succeeded, Result.response, Response.success] at h
  by_cases h2 : truthy user = true
  swap
  · simp [confirmOrder, h1, h2, Result.succeeded, Result.response, Response.success] at h
  cases h3 : findOrder s.orders b.dbOrderId with
  | none =>
    simp [confirmOrder, h1, h2, h3, Result.succeeded, Result.response, Response.success] at h
  | some order =>
    by_cases h4 : order.userId = user.getD ""
    swap
    · simp [confirmOrder, h1, h2, h3, h4, Result.succeeded, Result.response,
        Response.success] at h
    cases h5 : order.shippingDetails with
    | none =>
      simp [confirmOrder, h1, h2, h3, h4, h5, Result.succeeded, Result.response,
        Response.success] at h
    | some details =>
      by_cases h6 : shippingDetailsValid details = true
      swap
      · simp [confirmOrder, h1, h2, h3, h4, h5, h6, Result.succeeded, Result.response,
          Response.success] at h
      cases h7 : confirmOrderItems s.products order.orderItems [] with
      | error r =>
        exfalso
        have hv : confirmOrder env user b s = ⟨[r], s, []⟩ := by
          simp [confirmOrder, h1, h2, h3, h4, h5, h6, h7]
        rw [hv] at h
        have hr : r.success = false := by
          generalize order.orderItems = items at h7
          generalize ([] : List StockUpdate) = acc at h7
          induction items generalizing acc with
          | nil => simp [confirmOrderItems] at h7
          | cons item rest ih =>
            simp only [confirmOrderItems] at h7
            cases hp : findProduct s.products item.productId with
            | none =>
              rw [hp] at h7
              simp only [Except.error.injEq] at h7
              subst h7
              rfl
            | some product =>
              rw [hp] at h7
              simp only at h7
              split_ifs at h7
              · simp only [Except.error.injEq] at h7
                subst h7
                rfl
              · simp only [Except.error.injEq] at h7
                subst h7
                rfl
              · exact ih _ h7
              · exact ih _ h7
        simp [Result.succeeded, Result.response, hr] at h
      | ok stockUpdates =>
        by_cases h8 : order.orderItems.length = 0
        · simp [confirmOrder, h1, h2, h3, h4, h5, h6, h7, h8, Result.succeeded,
            Result.response, Response.success] at h
        cases h9 : env.createShiprocketOrder
            (shiprocketData s.products b.dbOrderId order details) with
        | error e =>
          simp [confirmOrder, h1, h2, h3, h4, h5, h6, h7, h8, h9, Result.succeeded,
            Result.response, Response.success, confirmOrderCatch] at h
        | ok resp =>
          cases h10 : confirmOrderTx s (user.getD "") b stockUpdates resp with
          | error e =>
            simp [confirmOrder, h1, h2, h3, h4, h5, h6, h7, h8, h9, h10, Result.succeeded,
              Result.response, Response.success, confirmOrderCatch] at h
          | ok s' =>
            refine ⟨order, stockUpdates, resp, s', rfl, h7, h10, ?_⟩
            simp [confirmOrder, h1, h2, h3, h4, h5, h6, h7, h8, h9, h10]

/-- C26: for an order of a single item of quantity `q`, the stock of its product and size
being a number `S`, a successful `createOrder` leaves that stock at `S - q` and a successful
`confirmOrder` of the order it created leaves it at `S - 2q`; the two successes are possible
only when `2q ≤ S`. -/
theorem C26_stock_decremented_twice (env env2 : Env) (user user2 : Option String)
    (b : CreateOrderBody) (paymentId : String) (s : State) (item : Item) (S : ℤ)
    (hitems : b.items = [item])
    (hstock : stockOf s item.productId (sizeKey item.size) = some (some S))
    (hcreate : (createOrder env user b s).succeeded = true)
    (hconfirm : (confirmOrder env2 user2 ⟨env.newOrderId, paymentId⟩
      (createOrder env user b s).state).succeeded = true) :
    stockOf (createOrder env user b s).state item.productId (sizeKey item.size)
      = some (some (S - item.quantity)) ∧
    stockOf (confirmOrder env2 user2 ⟨env.newOrderId, paymentId⟩
      (createOrder env user b s).state).state item.productId (sizeKey item.size)
      = some (some (S - 2 * item.quantity)) ∧
    2 * item.quantity ≤ S := by
  obtain ⟨total, details, ad, rid, s1, -, -, -, -, -, -, -, htx, heq⟩ :=
    createOrder_success env user b s hcreate
  have hs1 : (createOrder env user b s).state = s1 := by rw [heq]
  rw [hs1] at hconfirm ⊢
  obtain ⟨hnone, horders, htxs, -⟩ := createOrderTx_orders env s s1 _ b rid ad htx
  rw [hitems] at htxs
  have hstep : txStockStep s.products item = .ok s1.products := by
    simp only [txStock] at htxs
    cases hst : txStockStep s.products item with
    | error e => simp [hst] at htxs
    | ok ps =>
      rw [hst] at htxs
      simpa using htxs
  obtain ⟨-, hin, -⟩ := txStockStep_ok s.products s1.products item S hstock hstep
  have h1 : stockIn s1.products item.productId (sizeKey item.size)
      = some (some (S - item.quantity)) := by
    rw [hin]
    simp
  obtain ⟨order, su, resp, s2, hfo, hci, hctx, hs2⟩ := confirmOrder_success _ _ _ _ hconfirm
  rw [hs2]
  have horder : order = newOrder env (user.getD "") b rid ad := by
    simp only [findOrder, horders, List.find?_append] at hfo
    have hn : List.find? (fun o => o.id == env.newOrderId) s.orders = none := hnone
    rw [hn] at hfo
    simpa [newOrder] using hfo.symm
  have hoi : order.orderItems = [item] := by rw [horder]; exact hitems
  rw [hoi] at hci
  obtain ⟨p1, hfind, hlook⟩ := stockIn_some_find _ _ _ _ h1
  have hnot : (StockRead.number (S - item.quantity) == StockRead.inherited) = false := rfl
  simp only [confirmOrderItems, hfind, stockLookup_of_entry _ _ _ hlook,
    stockAssign_of_entry _ _ _ _ hlook, stockFalsy, stockLess, stockSub, hnot,
    Bool.false_and, Bool.false_eq_true, if_false] at hci
  split_ifs at hci with hc1 hc2
  simp only [List.nil_append, Except.ok.injEq] at hci
  subst hci
  have hle : 2 * item.quantity ≤ S := by
    simp only [Bool.or_eq_true, decide_eq_true_eq, not_or, not_lt] at hc2
    omega
  refine ⟨h1, ?_, hle⟩
  obtain ⟨ps2, hup, hf2⟩ := updateProduct_id_found s1.products item.productId p1
    (fun p => { p with
      quantity := totalStock (stockSet (p1.stockBySize.getD []) (sizeKey item.size)
        (some (S - item.quantity - item.quantity)))
      stockBySize := some (stockSet (p1.stockBySize.getD []) (sizeKey item.size)
        (some (S - item.quantity - item.quantity)))
      orderCount := p.orderCount + item.quantity }) (fun _ => rfl) hfind
  simp only [confirmOrderTx, applyStockUpdates, hup] at hctx
  cases hu : updateOrder s1.orders env.newOrderId (fun o => { o with
        status := "confirmed"
        paymentId := some paymentId
        shiprocketOrderId := if truthy resp.order_id then resp.order_id else none
        trackingUrl := some (if truthy resp.tracking_url then resp.tracking_url.getD "" else "") }) with
  | none => simp [hu] at hctx
  | some orders2 =>
    rw [hu] at hctx
    simp only [Except.ok.injEq] at hctx
    subst hctx
    simp only [stockOf, stockIn, hf2, stockEntry]
    rw [lookup_stockSet, if_pos rfl]
    congr 2
    ring

/-- Witness of C26: the scenario, with 10 units of size M before the order of 2 units, has
8 after `createOrder` and 6 after `confirmOrder`. -/
theorem C26_stock_decremented_twice_witness :
    stockOf demoState "p1" "M" = some (some 10) ∧
    (createOrder demoEnv (some "u1") demoBody demoState).succeeded = true ∧
    (confirmOrder demoEnv (some "u1") ⟨"o1", "pay_1"⟩
      (createOrder demoEnv (some "u1") demoBody demoState).state).succeeded = true ∧
    stockOf (createOrder demoEnv (some "u1") demoBody demoState).state "p1" "M"
      = some (some (10 - 2)) ∧
    stockOf (confirmOrder demoEnv (some "u1") ⟨"o1", "pay_1"⟩
      (createOrder demoEnv (some "u1") demoBody demoState).state).state "p1" "M"
      = some (some (10 - 2 * 2)) ∧
    (2 : ℤ) * 2 ≤ 10 :=
  ⟨by decide!, by decide!, by decide!,
    C26_stock_decremented_twice demoEnv demoEnv (some "u1") (some "u1") demoBody "pay_1"
      demoState ⟨"p1", 2, 599, some "M"⟩ 10 rfl (by decide!) (by decide!) (by decide!)⟩

/-! ### C27: a code applied through the offer endpoint -/

/-- The offer section of `createOrder` on a database holding the redemption row of the
caller for the offer the request names: it rejects, with 'already used' unless the offer has
expired. -/
theorem createOrderOffer_used (env : Env) (s : State) (u : String) (oc : Option String)
    (discount : ℚ) (offer : OfferCode) (hcarry : truthy oc = true)
    (hfind : findOfferCode s.offerCodes (oc.getD "").toUpper = some offer)
    (hrow : (⟨u, offer.id⟩ : UserOfferCode) ∈ s.userOfferCodes) :
    createOrderOffer env s u oc discount
      = .error (if offerUnexpired env.now offer then .offerAlreadyUsed else .offerExpired) := by
  have hused : s.userOfferCodes.any
      (fun r => r.userId == u && r.offerCodeId == offer.id) = true := by
    rw [List.any_eq_true]
    exact ⟨_, hrow, by simp⟩
  unfold createOrderOffer offerUnexpired
  rw [if_pos hcarry, hfind]
  cases hd : offer.expiryDate with
  | none => simp [hd, hused]
  | some d =>
    by_cases hlt : d < env.now
    · simp [hd, hlt]
    · simp [hd, hlt, hused]

/-- C27: after `applyOfferCode` answered success for a user and a code, a `createOrder`
request of the same user carrying that code (in any letter case) is never answered with
success and creates no order, the database staying as `applyOfferCode` left it; and when the
request reaches the redemption check (its schema, cart and item checks pass and the offer has
not expired at the time of the request) the answer is 400 'This offer code has already been
used'. -/
theorem C27_applied_code_blocks_order (env1 env2 : Env) (user : Option String)
    (b1 : ApplyOfferBody) (b2 : CreateOrderBody) (s : State)
    (happly : (applyOfferCode env1 user b1 s).succeeded = true)
    (hcarry : truthy b2.offerCode = true)
    (hcode : (b2.offerCode.getD "").toUpper = b1.code.toUpper) :
    (createOrder env2 user b2 (applyOfferCode env1 user b1 s).state).succeeded = false ∧
    (createOrder env2 user b2 (applyOfferCode env1 user b1 s).state).state
      = (applyOfferCode env1 user b1 s).state ∧
    (createOrder env2 user b2 (applyOfferCode env1 user b1 s).state).state.orders = s.orders ∧
    (createOrderIssues env2 b2 = [] →
      validateCartItems (applyOfferCode env1 user b1 s).state (user.getD "") b2.items = true →
      (∃ r, createOrderItems (productMapGet (applyOfferCode env1 user b1 s).state.products
        (b2.items.map (fun i => i.productId))) b2.items 0 [] = .ok r) →
      (∀ offer, findOfferCode s.offerCodes b1.code.toUpper = some offer →
        offerUnexpired env2.now offer = true) →
      (createOrder env2 user b2 (applyOfferCode env1 user b1 s).state).writes
        = [.offerAlreadyUsed] ∧
      Response.offerAlreadyUsed.status = 400) := by
  obtain ⟨total, offer, -, hu, -, -, -, hcheck, heq⟩ := applyOfferCode_success env1 user b1 s happly
  obtain ⟨hfind, -, -⟩ := applyOfferCheck_ok env1 s _ _ offer hcheck
  have hs1 : (applyOfferCode env1 user b1 s).state
      = { s with userOfferCodes := s.userOfferCodes ++ [⟨user.getD "", offer.id⟩] } := by
    rw [heq]
  rw [hs1]
  generalize hs1' : ({ s with userOfferCodes := s.userOfferCodes ++ [⟨user.getD "", offer.id⟩] }
    : State) = s1
  have hcodes : s1.offerCodes = s.offerCodes := by rw [← hs1']
  have horders : s1.orders = s.orders := by rw [← hs1']
  have hrow : (⟨user.getD "", offer.id⟩ : UserOfferCode) ∈ s1.userOfferCodes := by
    rw [← hs1']
    simp
  have hoffer := createOrderOffer_used env2 s1 (user.getD "") b2.offerCode (b2.discount.getD 0)
    offer hcarry (by rw [hcodes, hcode]; exact hfind) hrow
  have hfail : (createOrder env2 user b2 s1).succeeded = false := by
    cases hsucc : (createOrder env2 user b2 s1).succeeded with
    | false => rfl
    | true =>
      obtain ⟨_, _, ad, _, _, -, -, -, -, hok, -⟩ := createOrder_success env2 user b2 s1 hsucc
      rw [hoffer] at hok
      cases hok
  have hstate := createOrder_failure_state env2 user b2 s1 hfail
  refine ⟨hfail, hstate, by rw [hstate, horders], ?_⟩
  intro h1 h3 h4 h5
  obtain ⟨⟨t, details⟩, h4⟩ := h4
  rw [h5 offer hfind, if_pos rfl] at hoffer
  have hv : createOrder env2 user b2 s1 = ⟨[.offerAlreadyUsed], s1, []⟩ := by
    simp only [createOrder, h1, hu, h3, h4, hoffer]
    simp
  rw [hv]
  exact ⟨rfl, rfl⟩

/-- Witness of C27: in the scenario `u1` applies `first20` through the offer endpoint and
then checks out with FIRST20. -/
theorem C27_applied_code_blocks_order_witness :
    (applyOfferCode demoEnv (some "u1") demoApply demoState).succeeded = true ∧
    (createOrder demoEnv (some "u1") demoBody
      (applyOfferCode demoEnv (some "u1") demoApply demoState).state).succeeded = false ∧
    (createOrder demoEnv (some "u1") demoBody
      (applyOfferCode demoEnv (some "u1") demoApply demoState).state).state.orders = [] ∧
    (createOrder demoEnv (some "u1") demoBody
      (applyOfferCode demoEnv (some "u1") demoApply demoState).state).writes
      = [.offerAlreadyUsed] :=
  ⟨by decide!,
    (C27_applied_code_blocks_order demoEnv demoEnv (some "u1") demoApply demoBody demoState
      (by decide!) (by decide!) (by decide!)).1,
    (C27_applied_code_blocks_order demoEnv demoEnv (some "u1") demoApply demoBody demoState
      (by decide!) (by decide!) (by decide!)).2.2.1,
    ((C27_applied_code_blocks_order demoEnv demoEnv (some "u1") demoApply demoBody demoState
      (by decide!) (by decide!) (by decide!)).2.2.2 (by decide!) (by decide!)
      ⟨(1198, [⟨"p1", "Tee", 599, 2, "M"⟩]), by decide!⟩
      (by intro offer h; have h2 : offer = demoOffer := by
            have h3 : findOfferCode demoState.offerCodes demoApply.code.toUpper
              = some demoOffer := by decide!
            rw [h3] at h
            exact (Option.some.inj h).symm
          subst h2
          decide!)).1⟩

/-! ### C28: an item named twice -/

/-- C28 fails on the code when the list names a (productId, size) pair twice: with 10 units
of size M in stock and 6 in the cart, a checkout naming 6 units of size M twice passes the
cart check, the per-item loop, the offer section and the amount check; the gateway order is
created; inside the transaction the second decrement finds 4 units for 6, the transaction
is rolled back and the answer is 500, no order row being written. -/
theorem C28_duplicate_item_orphans_gateway_order :
    stockOf sixState "p1" "M" = some (some 10) ∧
    validateCartItems sixState "u1" twiceSixBody.items = true ∧
    (createOrderItems (productMapGet sixState.products (twiceSixBody.items.map (fun i => i.productId)))
        twiceSixBody.items 0 []).toOption.map (fun r => r.1) = some 7188 ∧
    txStock sixState.products twiceSixBody.items
      = .error "Insufficient stock for p1 in size M" ∧
    (createOrder demoEnv (some "u1") twiceSixBody sixState).writes
      = [.serverError "Failed to create order"] ∧
    (createOrder demoEnv (some "u1") twiceSixBody sixState).effects
      = [.razorpayOrdersCreate 718800 "INR"] ∧
    (createOrder demoEnv (some "u1") twiceSixBody sixState).state.orders = [] := by
  refine ⟨by decide!, by decide!, by decide!, by decide!, by decide!, by decide!, by decide!⟩

/-! ### C29: the responses of `verifyPayment` -/

theorem confirmOrder_writes_one (env : Env) (user : Option String) (b : ConfirmOrderBody)
    (s : State) : ∃ r, (confirmOrder env user b s).writes = [r] := by
  simp only [confirmOrder]
  repeat' split
  all_goals exact ⟨_, rfl⟩

theorem confirmOrderItems_error_not_success (products : List Product) (items : List Item)
    (acc : List StockUpdate) (r : Response)
    (h : confirmOrderItems products items acc = .error r) : r.success = false := by
  induction items generalizing acc with
  | nil => simp [confirmOrderItems] at h
  | cons item rest ih =>
    simp only [confirmOrderItems] at h
    cases hp : findProduct products item.productId with
    | none =>
      rw [hp] at h
      simp only [Except.error.injEq] at h
      subst h
      rfl
    | some product =>
      rw [hp] at h
      simp only at h
      split_ifs at h
      · simp only [Except.error.injEq] at h
        subst h
        rfl
      · simp only [Except.error.injEq] at h
        subst h
        rfl
      · exact ih _ h
      · exact ih _ h

/-- A success answer of `confirmOrder` is its body with the order id. -/
theorem confirmOrder_succeeded_writes (env : Env) (user : Option String)
    (b : ConfirmOrderBody) (s : State) (h : (confirmOrder env user b s).succeeded = true) :
    ∃ x y, (confirmOrder env user b s).writes = [.orderConfirmed x y] := by
  revert h
  simp only [confirmOrder]
  repeat' split
  all_goals first
    | exact fun _ => ⟨_, _, rfl⟩
    | (intro h
       rename_i r hr
       have := confirmOrderItems_error_not_success _ _ _ _ hr
       simp [Result.succeeded, Result.response, this] at h)
    | (intro h
       simp [Result.succeeded, Result.response, Response.success, confirmOrderCatch] at h)

theorem updateOrder_find (orders orders' : List Order) (id : String) (data : Order → Order)
    (h : updateOrder orders id data = some orders') (hdata : ∀ o, (data o).id = o.id) :
    ∃ o, findOrder orders id = some o ∧ findOrder orders' id = some (data o) := by
  induction orders generalizing orders' with
  | nil => simp [updateOrder] at h
  | cons q rest ih =>
    by_cases hq : q.id = id
    · simp only [updateOrder, hq, beq_self_eq_true, if_true, Option.some.injEq] at h
      subst h
      refine ⟨q, ?_, ?_⟩
      · simp [findOrder, hq]
      · simp [findOrder, hdata, hq]
    · have hb : (q.id == id) = false := by simpa using hq
      simp only [updateOrder, hb, Bool.false_eq_true, if_false, Option.map_eq_some'] at h
      obtain ⟨rest', hr, he⟩ := h
      subst he
      obtain ⟨o, h1, h2⟩ := ih rest' hr
      refine ⟨o, ?_, ?_⟩
      · simpa [findOrder, hb] using h1
      · simpa [findOrder, hb] using h2

/-- Where the response of `verifyPayment` comes from: an early return of its own, which is
a single write and not a success, or the nested `confirmOrder`, whose response and database
it takes over. -/
theorem verifyPayment_response (env : Env) (user : Option String) (b : VerifyPaymentBody)
    (s : State) :
    (∃ r, (verifyPayment env user b s).writes = [r] ∧ r.success = false) ∨
    ((verifyPayment env user b s).response
        = (confirmOrder env user ⟨b.dbOrderId, b.paymentId⟩ s).response ∧
      (verifyPayment env user b s).state
        = (confirmOrder env user ⟨b.dbOrderId, b.paymentId⟩ s).state) := by
  obtain ⟨r0, hr0⟩ := confirmOrder_writes_one env user ⟨b.dbOrderId, b.paymentId⟩ s
  simp only [verifyPayment]
  repeat' split
  all_goals first
    | exact Or.inl ⟨_, rfl, rfl⟩
    | exact Or.inr ⟨by simp [Result.response, hr0], rfl⟩

/-- C29: on every path `verifyPayment` sends exactly one HTTP response. Its own success
body 'Payment verified and order confirmed' is never that response: when the nested
`confirmOrder` is reached the response sent is the one `confirmOrder` wrote, and the later
`res.json` calls find the headers sent; so the body is sent only when the order was
confirmed, and whenever the response sent is a success the order has status `confirmed`. -/
theorem C29_verifyPayment_single_response (env : Env) (user : Option String)
    (b : VerifyPaymentBody) (s : State) :
    (∃ r, (verifyPayment env user b s).response = some r) ∧
    (verifyPayment env user b s).response ≠ some .paymentVerified ∧
    ((verifyPayment env user b s).response = some .paymentVerified →
      orderStatus (verifyPayment env user b s).state b.dbOrderId = some "confirmed") ∧
    ((verifyPayment env user b s).succeeded = true →
      orderStatus (verifyPayment env user b s).state b.dbOrderId = some "confirmed") := by
  obtain ⟨r0, hr0⟩ := confirmOrder_writes_one env user ⟨b.dbOrderId, b.paymentId⟩ s
  have hsucc : (verifyPayment env user b s).succeeded = true →
      orderStatus (verifyPayment env user b s).state b.dbOrderId = some "confirmed" := by
    intro h
    rcases verifyPayment_response env user b s with ⟨r, hw, hr⟩ | ⟨hresp, hstate⟩
    · simp [Result.succeeded, Result.response, hw, hr] at h
    · have hc : (confirmOrder env user ⟨b.dbOrderId, b.paymentId⟩ s).succeeded = true := by
        simpa [Result.succeeded, hresp] using h
      obtain ⟨order, su, resp, s', -, -, htx, hs'⟩ := confirmOrder_success _ _ _ _ hc
      rw [hstate, hs']
      unfold confirmOrderTx at htx
      cases hp : applyStockUpdates s.products su with
      | error e => simp [hp] at htx
      | ok products' =>
        rw [hp] at htx
        simp only at htx
        split at htx
        · cases htx
        · rename_i orders' hu
          simp only [Except.ok.injEq] at htx
          subst htx
          obtain ⟨o, -, ho⟩ := updateOrder_find _ _ _ _ hu (fun _ => rfl)
          simp [orderStatus, ho]
  have hne : (verifyPayment env user b s).response ≠ some .paymentVerified := by
    rcases verifyPayment_response env user b s with ⟨r, hw, hr⟩ | ⟨hresp, -⟩
    · intro h
      simp only [Result.response, hw, List.head?_cons, Option.some.injEq] at h
      subst h
      simp [Response.success] at hr
    · rw [hresp]
      intro h
      have hc : (confirmOrder env user ⟨b.dbOrderId, b.paymentId⟩ s).succeeded = true := by
        simp [Result.succeeded, h, Response.success]
      obtain ⟨x, y, hw⟩ := confirmOrder_succeeded_writes _ _ _ _ hc
      simp [Result.response, hw] at h
  refine ⟨?_, hne, fun h => absurd h hne, hsucc⟩
  rcases verifyPayment_response env user b s with ⟨r, hw, -⟩ | ⟨hresp, -⟩
  · exact ⟨r, by simp [Result.response, hw]⟩
  · exact ⟨r0, by rw [hresp]; simp [Result.response, hr0]⟩

/-- Witness of C29: the payment callback of the scenario is answered once, with the
success response of `confirmOrder`, and the order is `confirmed`. -/
theorem C29_verifyPayment_single_response_witness :
    (verifyPayment demoEnv (some "u1") demoVerify demoCreated).response
      = some (.orderConfirmed "o1" (some "sr_1")) ∧
    (verifyPayment demoEnv (some "u1") demoVerify demoCreated).succeeded = true ∧
    orderStatus (verifyPayment demoEnv (some "u1") demoVerify demoCreated).state
      demoVerify.dbOrderId = some "confirmed" :=
  ⟨by decide!, by decide!,
    (C29_verifyPayment_single_response demoEnv (some "u1") demoVerify demoCreated).2.2.2
      (by decide!)⟩

/-! ### C30: the client cart store -/

theorem cartSum_append (cart : List StoreItem) (item : StoreItem) :
    cartSum (cart ++ [item]) = cartSum cart + item.quantity * item.price := by
  simp [cartSum, List.foldl_append]

theorem Store.keys_bumpExisting (cart : List StoreItem) (item : StoreItem) :
    Store.keys (bumpExisting cart item) = Store.keys cart := by
  induction cart with
  | nil => rfl
  | cons i rest ih =>
    unfold bumpExisting
    split_ifs
    · simp [Store.keys]
    · simp only [Store.keys, List.map_cons, List.cons.injEq, true_and]
      exact ih

theorem Store.keys_filter_nodup (cart : List StoreItem) (p : StoreItem → Bool)
    (h : (Store.keys cart).Nodup) : (Store.keys (cart.filter p)).Nodup := by
  unfold Store.keys at h ⊢
  exact h.sublist (List.Sublist.map _ (List.filter_sublist cart))

theorem Store.keys_setQuantity (cart : List StoreItem) (productId : String)
    (size : Option String) (quantity : ℚ) :
    Store.keys (cart.map (fun item =>
      if item.productId == productId && item.size == size then { item with quantity := quantity }
      else item)) = Store.keys cart := by
  unfold Store.keys
  rw [List.map_map]
  apply List.map_congr_left
  intro i _
  simp only [Function.comp]
  split_ifs <;> rfl

/-- The invariant of the store: the total is the sum over the items, and no two items share
a (productId, size) pair. -/
theorem Store.step_invariant (state : StoreState) (a : Store.Action)
    (h : state.total = cartSum state.cart ∧ (Store.keys state.cart).Nodup) :
    (Store.step state a).total = cartSum (Store.step state a).cart ∧
      (Store.keys (Store.step state a).cart).Nodup := by
  obtain ⟨ht, hk⟩ := h
  cases a with
  | addToCart item =>
    simp only [Store.step, Store.addToCart]
    cases hf : state.cart.find? (fun i => i.productId == item.productId && i.size == item.size) with
    | some e =>
      simp only
      exact ⟨trivial, by rw [Store.keys_bumpExisting]; exact hk⟩
    | none =>
      simp only
      refine ⟨by rw [cartSum_append, ht], ?_⟩
      have hnot : (item.productId, item.size) ∉ Store.keys state.cart := by
        intro hm
        simp only [Store.keys, List.mem_map] at hm
        obtain ⟨i, hi, he⟩ := hm
        have := List.find?_eq_none.mp hf i hi
        simp only [Prod.mk.injEq] at he
        simp [he.1, he.2] at this
      simp only [Store.keys, List.map_append, List.map_cons, List.map_nil]
      rw [List.nodup_append]
      refine ⟨hk, List.nodup_singleton _, ?_⟩
      intro x hx hx'
      rw [List.mem_singleton] at hx'
      exact hnot (hx' ▸ hx)
  | updateQuantity productId size quantity =>
    simp only [Store.step, Store.updateQuantity]
    split_ifs
    · exact ⟨rfl, Store.keys_filter_nodup _ _ hk⟩
    · exact ⟨rfl, by rw [Store.keys_setQuantity]; exact hk⟩
  | removeFromCart productId size =>
    simp only [Store.step, Store.removeFromCart]
    exact ⟨trivial, Store.keys_filter_nodup _ _ hk⟩
  | clearCart =>
    simp [Store.step, Store.clearCart, cartSum, Store.keys]

theorem Store.run_invariant (actions : List Store.Action) (state : StoreState)
    (h : state.total = cartSum state.cart ∧ (Store.keys state.cart).Nodup) :
    (Store.run state actions).total = cartSum (Store.run state actions).cart ∧
      (Store.keys (Store.run state actions).cart).Nodup := by
  induction actions generalizing state with
  | nil => exact h
  | cons a rest ih =>
    simp only [Store.run, List.foldl_cons]
    exact ih _ (Store.step_invariant state a h)

/-- C30: in the client cart store, after any sequence of `addToCart`, `updateQuantity`,
`removeFromCart` and `clearCart` from the empty cart, the total is the sum of quantity times
price over the items and no two items share a (productId, size) pair; and `updateQuantity`
with a quantity that is not positive gives the state `removeFromCart` gives. -/
theorem C30_client_cart_invariant (actions : List Store.Action) :
    (Store.run Store.empty actions).total = cartSum (Store.run Store.empty actions).cart ∧
    (Store.keys (Store.run Store.empty actions).cart).Nodup ∧
    (∀ (productId : String) (size : Option String) (quantity : ℚ) (state : StoreState),
      quantity ≤ 0 →
      Store.updateQuantity productId size quantity state
        = Store.removeFromCart productId size state) := by
  obtain ⟨h1, h2⟩ := Store.run_invariant actions Store.empty
    ⟨by simp [Store.empty, cartSum], by simp [Store.empty, Store.keys]⟩
  refine ⟨h1, h2, ?_⟩
  intro productId size quantity state hq
  simp [Store.updateQuantity, Store.removeFromCart, hq]

/-- Witness of C30: the session `demoActions` ends with three units of size L for 1797, and
setting the quantity of size L to 0 then empties the cart as removing it does. -/
theorem C30_client_cart_invariant_witness :
    Store.run Store.empty demoActions = ⟨[⟨"p1", some "L", 3, 599⟩], 1797, 0⟩ ∧
    (Store.run Store.empty demoActions).total = cartSum (Store.run Store.empty demoActions).cart ∧
    (Store.keys (Store.run Store.empty demoActions).cart).Nodup ∧
    Store.updateQuantity "p1" (some "L") 0 (Store.run Store.empty demoActions)
      = Store.removeFromCart "p1" (some "L") (Store.run Store.empty demoActions) :=
  ⟨by decide!, (C30_client_cart_invariant demoActions).1,
    (C30_client_cart_invariant demoActions).2.1,
    (C30_client_cart_invariant demoActions).2.2 "p1" (some "L") 0
      (Store.run Store.empty demoActions) (by decide!)⟩

end Ecommerce
